import Mathlib

/-!
# Kernel resolution in `paddle/fluid/imperative/prepared_operator.cc`

A shallow embedding of `PreparedOp::Prepare` / `PrepareImpl` and the data it
works on.  Every `#ifdef` of the source is a Boolean of `BuildConfig`, every
process-wide registry, predicate and translation that the source calls but
does not define is a field of `Env`, and the two `PADDLE_ENFORCE_NE` sites are
the two `Except.error` results.
-/

namespace Paddle

/-! ## Data model -/

/-- Preprocessor symbols tested by prepared_operator.cc.  `PADDLE_WITH_XPU_KP`
    presupposes `PADDLE_WITH_XPU`: the source reads `is_xpu_unsupport`, which is
    declared under `PADDLE_WITH_XPU`, inside a `PADDLE_WITH_XPU_KP` block. -/
structure BuildConfig where
  PADDLE_WITH_DNNL : Bool
  PADDLE_WITH_CUDA : Bool
  PADDLE_WITH_HIP : Bool
  PADDLE_WITH_XPU : Bool
  PADDLE_WITH_XPU_KP : Bool
  PADDLE_WITH_IPU : Bool
  PADDLE_WITH_CUSTOM_DEVICE : Bool
  deriving DecidableEq, Repr

/-- Process-wide flags read by prepared_operator.cc. -/
structure GlobalFlags where
  FLAGS_use_mkldnn : Bool
  FLAGS_run_kp_kernel : Bool
  FLAGS_check_nan_inf : Bool
  FLAGS_benchmark : Bool
  deriving DecidableEq, Repr

/-- Enumeration `phi::Backend` (declared outside the translated file). -/
inductive Backend where
  | UNDEFINED
  | CPU
  | GPU
  | XPU
  | IPU
  | ONEDNN
  | GPUDNN
  | KPS
  | CUSTOM (id : Nat)
  deriving DecidableEq, Repr

/-- Enumeration `phi::DataLayout` (declared outside the translated file). -/
inductive DataLayout where
  | ANY
  | NHWC
  | NCHW
  | NCDHW
  | NDHWC
  | ONEDNN
  | SPARSE_COO
  | SPARSE_CSR
  deriving DecidableEq, Repr

/-- Enumeration `phi::DataType` (declared outside the translated file). -/
inductive DataType where
  | UNDEFINED
  | BOOL
  | UINT8
  | INT8
  | UINT16
  | INT16
  | UINT32
  | INT32
  | UINT64
  | INT64
  | FLOAT32
  | FLOAT64
  | COMPLEX64
  | COMPLEX128
  | PSTRING
  | FLOAT16
  | BFLOAT16
  deriving DecidableEq, Repr

/-- Value type `phi::KernelKey`: backend, layout, dtype. -/
structure KernelKey where
  backend : Backend
  layout : DataLayout
  dtype : DataType
  deriving DecidableEq, Repr

/-- Setter `KernelKey::set_backend`. -/
def KernelKey.set_backend (k : KernelKey) (b : Backend) : KernelKey :=
  { k with backend := b }

/-- Setter `KernelKey::set_layout`. -/
def KernelKey.set_layout (k : KernelKey) (l : DataLayout) : KernelKey :=
  { k with layout := l }

/-- Value type `platform::Place`: an allocation type with a device id, and a
    device-type name for custom devices. -/
inductive Place where
  | UNDEFINED
  | CPUPlace
  | GPUPlace (device : Nat)
  | GPUPinnedPlace
  | XPUPlace (device : Nat)
  | IPUPlace (device : Nat)
  | CustomPlace (device_type : String) (device : Nat)
  deriving DecidableEq, Repr

/-- Predicate `platform::is_xpu_place`. -/
def is_xpu_place : Place → Bool
  | .XPUPlace _ => true
  | _ => false

/-- Predicate `platform::is_ipu_place`. -/
def is_ipu_place : Place → Bool
  | .IPUPlace _ => true
  | _ => false

/-- Predicate `platform::is_custom_place`. -/
def is_custom_place : Place → Bool
  | .CustomPlace _ _ => true
  | _ => false

/-- Enumeration `framework::LibraryType`. -/
inductive LibraryType where
  | kPlain
  | kMKLDNN
  | kCUDNN
  | kKP
  deriving DecidableEq, Repr

/-- Legacy kernel descriptor `framework::OpKernelType`; `data_type_` is the
    integer value of the `proto::VarType::Type` enumerator. -/
structure OpKernelType where
  data_type_ : Int
  data_layout_ : DataLayout
  place_ : Place
  library_type_ : LibraryType
  deriving DecidableEq, Repr

/-- Unified kernel calling convention `phi::KernelSignature`. -/
structure KernelSignature where
  name : String
  input_names : List String
  output_names : List String
  attr_names : List String
  deriving DecidableEq, Repr

/-- Default-constructed `phi::KernelSignature`. -/
def KernelSignature.default : KernelSignature :=
  { name := "", input_names := [], output_names := [], attr_names := [] }

/-- Constructor `phi::KernelSignature(const char* kernel_name)`: the name with
    no argument lists. -/
def KernelSignature.ofName (n : String) : KernelSignature :=
  { name := n, input_names := [], output_names := [], attr_names := [] }

/-- Enumeration `phi::KernelRegisteredType`. -/
inductive KernelRegisteredType where
  | FUNCTION
  | STRUCTURED
  deriving DecidableEq, Repr

/-- A unified kernel `phi::Kernel`: the registered callable (a handle, absent
    in an invalid kernel) and its registration kind. -/
structure Kernel where
  fn : Option Nat
  kernel_registered_type : KernelRegisteredType
  deriving DecidableEq, Repr

/-- Method `phi::Kernel::IsValid`. -/
def Kernel.IsValid (k : Kernel) : Bool := k.fn.isSome

/-- Method `phi::Kernel::GetKernelRegisteredType`. -/
def Kernel.GetKernelRegisteredType (k : Kernel) : KernelRegisteredType :=
  k.kernel_registered_type

/-- The file-static `empty_kernel`, a default-constructed `phi::Kernel`. -/
def empty_kernel : Kernel :=
  { fn := none, kernel_registered_type := KernelRegisteredType.FUNCTION }

/-- A legacy kernel callable `OperatorWithKernel::OpKernelFunc`, by handle. -/
structure OpKernelFunc where
  handle : Nat
  deriving DecidableEq, Repr

/-- Pointer to a registered `phi::ArgumentMappingFn`. -/
structure ArgumentMappingFnPtr where
  addr : Nat
  deriving DecidableEq, Repr

/-- A device context: its identity in the pool and the place it reports
    through `GetPlace`. -/
structure DeviceContext where
  handle : Nat
  place : Place
  deriving DecidableEq, Repr

/-- Method `DeviceContext::GetPlace`. -/
def DeviceContext.GetPlace (c : DeviceContext) : Place := c.place

/-- An attribute value (`framework::Attribute` is a variant). -/
inductive Attribute where
  | int (i : Int)
  | bool (b : Bool)
  | str (s : String)
  deriving DecidableEq, Repr

/-- Map `framework::AttributeMap`, as an association list. -/
abbrev AttributeMap := List (String × Attribute)

/-- Lookup in an attribute map. -/
def AttributeMap.find (m : AttributeMap) (k : String) : Option Attribute :=
  (List.find? (fun e => e.1 == k) m).map Prod.snd

/-- Assignment `m[k] = v` on an attribute map: overwrite the entry for `k`, or
    add one. -/
def AttributeMap.assign : AttributeMap → String → Attribute → AttributeMap
  | [], k, v => [(k, v)]
  | e :: m, k, v => if e.1 == k then (k, v) :: m else e :: AttributeMap.assign m k v

/-- Map `NameVarMap<VarType>`: named lists of nullable variables.  Each
    `shared_ptr` entry is held by value: every entry is its own variable
    object, and a pass over the map returns the map it leaves behind. -/
abbrev NameVarMap (V : Type) := List (String × List (Option V))

/-- The legacy `framework::RuntimeContext`, built from two variable maps. -/
structure RuntimeContext where
  inputs : List (String × List Nat)
  outputs : List (String × List Nat)
  deriving DecidableEq, Repr

/-- The file-static `empty_ctx`, `RuntimeContext({}, {})`. -/
def empty_ctx : RuntimeContext := { inputs := [], outputs := [] }

/-- The data of a `framework::OperatorWithKernel` that the file reads: its type
    name, its (mutable) attribute map and its id.  Its virtual methods are
    fields of `Env`. -/
structure OperatorWithKernel where
  Type_ : String
  Attrs : AttributeMap
  Id : Nat
  deriving DecidableEq, Repr

/-- Class `DygraphExecutionContext<VarType>`: the view handed to the operator's
    policies.  The empty scope is a constant and is left out. -/
structure DygraphExecutionContext (V : Type) where
  op : OperatorWithKernel
  device_context : DeviceContext
  ctx : RuntimeContext
  ins : NameVarMap V
  outs : NameVarMap V
  attrs : AttributeMap
  default_attrs : AttributeMap

/-- Read-only registry `phi::KernelFactory`. -/
structure KernelFactory where
  SelectKernel : String → KernelKey → Kernel
  HasKernel : String → KernelKey → Bool
  HasStructuredKernel : String → Bool

/-- Read-only registry `phi::OpUtilsMap`. -/
structure OpUtilsMap where
  GetArgumentMappingFn : String → Option ArgumentMappingFnPtr

/-- Read-only registry `phi::DefaultKernelSignatureMap`. -/
structure DefaultKernelSignatureMap where
  GetNullable : String → Option KernelSignature

/-- The per-operator legacy kernel table `OpKernelMap`, by its `find`. -/
abbrev OpKernelMap := OpKernelType → Option OpKernelFunc

/-- Everything prepared_operator.cc calls and does not define: the operator's
    virtual policies, the capability predicates, the process-wide singletons,
    the key/descriptor/place translations and the device-context pool. -/
structure Env (V : Type) where
  GetExpectedKernelType : OperatorWithKernel → DygraphExecutionContext V → KernelKey
  DnnFallback : OperatorWithKernel → Bool
  CanMKLDNNBeUsed : OperatorWithKernel → DygraphExecutionContext V → DataType → Bool
  CanCUDNNBeUsed : OperatorWithKernel → DygraphExecutionContext V → DataType → Bool
  in_mkldnn_white_list : String → Bool
  is_xpu_support_op : String → DataType → Bool
  is_xpu_kp_support_op : String → DataType → Bool
  is_in_xpu_kpwhite_list : String → Bool
  KernelFactory_Instance : KernelFactory
  OpUtilsMap_Instance : OpUtilsMap
  DefaultKernelSignatureMap_Instance : DefaultKernelSignatureMap
  ArgumentMappingFn_call : ArgumentMappingFnPtr → DygraphExecutionContext V → KernelSignature
  AllOpKernels : String → Option OpKernelMap
  TransPhiKernelKeyToOpKernelType : KernelKey → OpKernelType
  TransOpKernelTypeToPhiKernelKey : OpKernelType → KernelKey
  TransToPhiBackend : Place → Backend
  TransToPhiPlace : Backend → Place
  backends_are_same_class : Backend → Backend → Bool
  places_are_same_class : Place → Place → Bool
  FallBackToCpu : KernelKey → OperatorWithKernel → KernelKey
  DeviceContextPool_Get : Place → DeviceContext

/-- An argument of an error format string: a plain string, or the text
    `KernelTypeToString(t)` of a legacy descriptor `t`. -/
inductive ErrorArg where
  | str (s : String)
  | kernelType (t : OpKernelType)
  deriving DecidableEq, Repr

/-- The error raised by a failed `PADDLE_ENFORCE_NE`: here always
    `platform::errors::NotFound(format, args...)`. -/
inductive EnforceNotMet where
  | NotFound (format : String) (args : List ErrorArg)
  deriving DecidableEq, Repr

/-- Class `PreparedOp`, with the members of its two constructors. -/
structure PreparedOp where
  op_ : OperatorWithKernel
  ctx_ : RuntimeContext
  kernel_key_ : KernelKey
  func_ : Option OpKernelFunc
  dev_ctx_ : DeviceContext
  run_phi_kernel_ : Bool
  arg_map_fn_ : Option ArgumentMappingFnPtr
  default_kernel_signature_ : Option KernelSignature
  kernel_signature_ : KernelSignature
  phi_kernel_ : Kernel
  deriving DecidableEq, Repr

/-- The legacy constructor of `PreparedOp` (source lines 119-133):
    `run_phi_kernel_` keeps its default `false`, the signature is
    default-constructed and the unified kernel is `empty_kernel`. -/
def PreparedOp.mkLegacy (op : OperatorWithKernel) (ctx : RuntimeContext)
    (kernel_key : KernelKey) (func : OpKernelFunc)
    (arg_map_fn : Option ArgumentMappingFnPtr)
    (default_kernel_signature : Option KernelSignature)
    (dev_ctx : DeviceContext) : PreparedOp :=
  { op_ := op
    ctx_ := ctx
    kernel_key_ := kernel_key
    func_ := some func
    dev_ctx_ := dev_ctx
    run_phi_kernel_ := false
    arg_map_fn_ := arg_map_fn
    default_kernel_signature_ := default_kernel_signature
    kernel_signature_ := KernelSignature.default
    phi_kernel_ := empty_kernel }

/-- The unified constructor of `PreparedOp` (source lines 135-152):
    `func_` is null and `run_phi_kernel_` is set. -/
def PreparedOp.mkPhi (op : OperatorWithKernel) (ctx : RuntimeContext)
    (kernel_key : KernelKey) (arg_map_fn : Option ArgumentMappingFnPtr)
    (default_kernel_signature : Option KernelSignature)
    (kernel_signature : KernelSignature) (phi_kernel : Kernel)
    (dev_ctx : DeviceContext) : PreparedOp :=
  { op_ := op
    ctx_ := ctx
    kernel_key_ := kernel_key
    func_ := none
    dev_ctx_ := dev_ctx
    run_phi_kernel_ := true
    arg_map_fn_ := arg_map_fn
    default_kernel_signature_ := default_kernel_signature
    kernel_signature_ := kernel_signature
    phi_kernel_ := phi_kernel }

/-! ## `PrepareImpl`, block by block -/

/-- The attribute merge of source lines 173-177: start from the defaults and
    assign every call-site attribute over them. -/
def MergeAttrs (default_attrs attrs : AttributeMap) : AttributeMap :=
  attrs.foldl (fun m a => AttributeMap.assign m a.1 a.2) default_attrs

/-- Source lines 168-179: under `PADDLE_WITH_DNNL` and `FLAGS_use_mkldnn` the
    operator's attribute map is overwritten in place. -/
def OverwriteOpAttrs (b : BuildConfig) (fl : GlobalFlags) (op : OperatorWithKernel)
    (attrs default_attrs : AttributeMap) : OperatorWithKernel :=
  if b.PADDLE_WITH_DNNL && fl.FLAGS_use_mkldnn then
    { op with Attrs := MergeAttrs default_attrs attrs }
  else op

/-- Source lines 200-206: the oneDNN override of the expected kernel key. -/
def ApplyMKLDNN {V : Type} (b : BuildConfig) (env : Env V) (op : OperatorWithKernel)
    (dygraph_exe_ctx : DygraphExecutionContext V) (expected_kernel_key : KernelKey) :
    KernelKey :=
  if b.PADDLE_WITH_DNNL &&
      (!env.DnnFallback op && !env.in_mkldnn_white_list op.Type_ &&
        env.CanMKLDNNBeUsed op dygraph_exe_ctx expected_kernel_key.dtype) then
    (expected_kernel_key.set_backend Backend.ONEDNN).set_layout DataLayout.ONEDNN
  else expected_kernel_key

/-- Source lines 208-212: the cuDNN override of the expected kernel key. -/
def ApplyCUDNN {V : Type} (b : BuildConfig) (env : Env V) (op : OperatorWithKernel)
    (dygraph_exe_ctx : DygraphExecutionContext V) (expected_kernel_key : KernelKey) :
    KernelKey :=
  if (b.PADDLE_WITH_CUDA || b.PADDLE_WITH_HIP) &&
      env.CanCUDNNBeUsed op dygraph_exe_ctx expected_kernel_key.dtype then
    expected_kernel_key.set_backend Backend.GPUDNN
  else expected_kernel_key

/-- Source lines 214-218: `is_xpu_unsupport`, declared under `PADDLE_WITH_XPU`. -/
def IsXpuUnsupport {V : Type} (b : BuildConfig) (env : Env V) (op : OperatorWithKernel)
    (expected_kernel_key : KernelKey) : Bool :=
  b.PADDLE_WITH_XPU &&
    (expected_kernel_key.backend == Backend.XPU &&
      !env.is_xpu_support_op op.Type_ expected_kernel_key.dtype)

/-- The four locals written by the signature lookup of source lines 220-240. -/
structure SignatureLookup where
  has_phi_kernel : Bool
  arg_map_fn : Option ArgumentMappingFnPtr
  default_kernel_signature : Option KernelSignature
  kernel_signature : KernelSignature
  deriving DecidableEq, Repr

/-- Source lines 189-190 and 220-240: the argument-mapping function, else a
    structured kernel under the op's own name, else the default-signature
    table. -/
def LookupSignature {V : Type} (env : Env V) (phi_op_utils_map : OpUtilsMap)
    (default_phi_kernel_sig_map : DefaultKernelSignatureMap)
    (op : OperatorWithKernel) (dygraph_exe_ctx : DygraphExecutionContext V) :
    SignatureLookup :=
  match phi_op_utils_map.GetArgumentMappingFn op.Type_ with
  | some arg_map_fn =>
    { has_phi_kernel := true
      arg_map_fn := some arg_map_fn
      default_kernel_signature := none
      kernel_signature := env.ArgumentMappingFn_call arg_map_fn dygraph_exe_ctx }
  | none =>
    if env.KernelFactory_Instance.HasStructuredKernel op.Type_ then
      { has_phi_kernel := true
        arg_map_fn := none
        default_kernel_signature := none
        kernel_signature := KernelSignature.ofName op.Type_ }
    else
      match default_phi_kernel_sig_map.GetNullable op.Type_ with
      | some default_kernel_signature =>
        { has_phi_kernel := true
          arg_map_fn := none
          default_kernel_signature := some default_kernel_signature
          kernel_signature := default_kernel_signature }
      | none =>
        { has_phi_kernel := false
          arg_map_fn := none
          default_kernel_signature := none
          kernel_signature := KernelSignature.default }

/-- Source lines 249-281: under `PADDLE_WITH_XPU_KP`, an XPU key of a
    KP-supported op is moved to backend KPS, and moved back when the factory has
    no kernel of that name at the KPS key. -/
def PhiKpKey {V : Type} (b : BuildConfig) (fl : GlobalFlags) (env : Env V)
    (phi_kernel_factory : KernelFactory) (op : OperatorWithKernel)
    (phi_kernel_name : String) (expected_kernel_key : KernelKey) : KernelKey :=
  if b.PADDLE_WITH_XPU_KP && expected_kernel_key.backend == Backend.XPU then
    let use_xpu_kp_kernel_rt :=
      fl.FLAGS_run_kp_kernel &&
        env.is_xpu_kp_support_op op.Type_ expected_kernel_key.dtype
    let use_xpu_kp_kernel_debug := env.is_in_xpu_kpwhite_list op.Type_
    let is_xpu_kp_support := use_xpu_kp_kernel_rt || use_xpu_kp_kernel_debug
    if is_xpu_kp_support then
      let expected_kernel_key_backend := expected_kernel_key.backend
      let kps_key := expected_kernel_key.set_backend Backend.KPS
      if !phi_kernel_factory.HasKernel phi_kernel_name kps_key then
        kps_key.set_backend expected_kernel_key_backend
      else kps_key
    else expected_kernel_key
  else expected_kernel_key

/-- Source lines 321-330: `is_xpu_kp_support` of the legacy phase, declared
    under `PADDLE_WITH_XPU_KP`. -/
def LegacyKpSupport {V : Type} (b : BuildConfig) (fl : GlobalFlags) (env : Env V)
    (op : OperatorWithKernel) (expected_kernel_key : KernelKey) : Bool :=
  let use_xpu_kp_kernel_rt :=
    expected_kernel_key.backend == Backend.XPU && fl.FLAGS_run_kp_kernel &&
      env.is_xpu_kp_support_op op.Type_ expected_kernel_key.dtype
  let use_xpu_kp_kernel_debug :=
    expected_kernel_key.backend == Backend.XPU &&
      env.is_in_xpu_kpwhite_list op.Type_
  b.PADDLE_WITH_XPU_KP && (use_xpu_kp_kernel_rt || use_xpu_kp_kernel_debug)

/-- Source lines 331-333: the legacy phase moves the key of a KP-supported op
    to backend KPS. -/
def LegacyKpKey (is_xpu_kp_support : Bool) (expected_kernel_key : KernelKey) : KernelKey :=
  if is_xpu_kp_support then expected_kernel_key.set_backend Backend.KPS
  else expected_kernel_key

/-- The condition of source lines 338-347 under which the CPU-degraded unified
    kernel is tried: no legacy kernel at the descriptor, or the XPU
    unsupported-op predicate. -/
def LegacyMissing (b : BuildConfig) (kernels_iter : Option OpKernelMap)
    (fluid_kernel_type : OpKernelType) (is_xpu_unsupport is_xpu_kp_support : Bool) :
    Bool :=
  (match kernels_iter with
    | none => true
    | some kernels => (kernels fluid_kernel_type).isNone)
  || (b.PADDLE_WITH_XPU && !b.PADDLE_WITH_XPU_KP && is_xpu_unsupport)
  || (b.PADDLE_WITH_XPU_KP && (is_xpu_unsupport && !is_xpu_kp_support))

/-- The pair of locals `fluid_kernel_type`, `kernel_iter` of the legacy phase. -/
abbrev LegacyCursor := OpKernelType × Option OpKernelFunc

/-- The assignment `fluid_kernel_type.place_ = platform::CPUPlace()`. -/
def OpKernelType.onCpu (t : OpKernelType) : OpKernelType :=
  { t with place_ := Place.CPUPlace }

/-- Replace the descriptor's place by `CPUPlace` and look it up again. -/
def CpuRetry (kernels : OpKernelMap) (fluid_kernel_type : OpKernelType) : LegacyCursor :=
  (fluid_kernel_type.onCpu, kernels fluid_kernel_type.onCpu)

/-- Source lines 379-388, under `PADDLE_WITH_XPU` without `PADDLE_WITH_XPU_KP`. -/
def XpuDegrade (b : BuildConfig) (is_xpu_unsupport : Bool) (kernels : OpKernelMap)
    (s : LegacyCursor) : LegacyCursor :=
  if b.PADDLE_WITH_XPU && !b.PADDLE_WITH_XPU_KP &&
      (is_xpu_place s.1.place_ && (s.2.isNone || is_xpu_unsupport)) then
    CpuRetry kernels s.1
  else s

/-- Source lines 390-413, under `PADDLE_WITH_XPU_KP`. -/
def XpuKpDegrade (b : BuildConfig) (is_xpu_unsupport is_xpu_kp_support : Bool)
    (kernels : OpKernelMap) (s : LegacyCursor) : LegacyCursor :=
  if b.PADDLE_WITH_XPU_KP && is_xpu_place s.1.place_ then
    let s1 : LegacyCursor :=
      if is_xpu_kp_support then
        let t := { s.1 with library_type_ := LibraryType.kKP }
        (t, kernels t)
      else s
    if !is_xpu_kp_support && (s1.2.isNone || is_xpu_unsupport) then
      CpuRetry kernels s1.1
    else s1
  else s

/-- Source lines 414-423, under `PADDLE_WITH_IPU`. -/
def IpuDegrade (b : BuildConfig) (kernels : OpKernelMap) (s : LegacyCursor) :
    LegacyCursor :=
  if b.PADDLE_WITH_IPU && (s.2.isNone && is_ipu_place s.1.place_) then
    CpuRetry kernels s.1
  else s

/-- Source lines 424-433, under `PADDLE_WITH_CUSTOM_DEVICE`. -/
def CustomDegrade (b : BuildConfig) (kernels : OpKernelMap) (s : LegacyCursor) :
    LegacyCursor :=
  if b.PADDLE_WITH_CUSTOM_DEVICE && (s.2.isNone && is_custom_place s.1.place_) then
    CpuRetry kernels s.1
  else s

/-- Source lines 376-433: the lookup at the descriptor followed by the four
    device-specific degradations, in source order. -/
def LegacyLookup (b : BuildConfig) (is_xpu_unsupport is_xpu_kp_support : Bool)
    (kernels : OpKernelMap) (fluid_kernel_type : OpKernelType) : LegacyCursor :=
  CustomDegrade b kernels
    (IpuDegrade b kernels
      (XpuKpDegrade b is_xpu_unsupport is_xpu_kp_support kernels
        (XpuDegrade b is_xpu_unsupport kernels
          (fluid_kernel_type, kernels fluid_kernel_type))))

/-- The locals of `PrepareImpl` at source line 283, just before the first
    `SelectKernel`. -/
structure Resolved where
  op : OperatorWithKernel
  dev_ctx : DeviceContext
  expected_kernel_key : KernelKey
  is_xpu_unsupport : Bool
  sig : SignatureLookup
  deriving DecidableEq, Repr

/-- Source lines 165-281: the held context, the attribute overwrite, the
    expected kernel key with its library overrides, the XPU predicate, the
    signature lookup and (when a signature was found) the KP key override. -/
def Resolve {V : Type} (b : BuildConfig) (fl : GlobalFlags) (env : Env V)
    (ins outs : NameVarMap V) (op : OperatorWithKernel) (place : Place)
    (attrs default_attrs : AttributeMap) (phi_kernel_factory : KernelFactory)
    (phi_op_utils_map : OpUtilsMap)
    (default_phi_kernel_sig_map : DefaultKernelSignatureMap) : Resolved :=
  let dev_ctx := env.DeviceContextPool_Get place
  let op1 := OverwriteOpAttrs b fl op attrs default_attrs
  let dygraph_exe_ctx : DygraphExecutionContext V :=
    { op := op1, device_context := dev_ctx, ctx := empty_ctx, ins := ins, outs := outs,
      attrs := attrs, default_attrs := default_attrs }
  let expected_kernel_key :=
    ApplyCUDNN b env op1 dygraph_exe_ctx
      (ApplyMKLDNN b env op1 dygraph_exe_ctx
        (env.GetExpectedKernelType op1 dygraph_exe_ctx))
  let is_xpu_unsupport := IsXpuUnsupport b env op1 expected_kernel_key
  let sig := LookupSignature env phi_op_utils_map default_phi_kernel_sig_map op1
    dygraph_exe_ctx
  { op := op1
    dev_ctx := dev_ctx
    expected_kernel_key :=
      if sig.has_phi_kernel then
        PhiKpKey b fl env phi_kernel_factory op1 sig.kernel_signature.name
          expected_kernel_key
      else expected_kernel_key
    is_xpu_unsupport := is_xpu_unsupport
    sig := sig }

/-- The extra conjunct of source lines 287-289, present only under
    `PADDLE_WITH_XPU` without `PADDLE_WITH_XPU_KP`. -/
def XpuGuard (b : BuildConfig) (is_xpu_unsupport : Bool) : Bool :=
  b.PADDLE_WITH_XPU && !b.PADDLE_WITH_XPU_KP && is_xpu_unsupport

/-- Source lines 295-299: the context of the tier-1 unified result. -/
def PhiDevCtx {V : Type} (env : Env V) (expected_kernel_key : KernelKey)
    (dev_ctx : DeviceContext) : DeviceContext :=
  if !env.backends_are_same_class expected_kernel_key.backend
      (env.TransToPhiBackend dev_ctx.GetPlace) then
    env.DeviceContextPool_Get (env.TransToPhiPlace expected_kernel_key.backend)
  else dev_ctx

/-- Source lines 443-446: the context of the legacy result. -/
def LegacyDevCtx {V : Type} (env : Env V) (fluid_kernel_type : OpKernelType)
    (dev_ctx : DeviceContext) : DeviceContext :=
  if !env.places_are_same_class fluid_kernel_type.place_ dev_ctx.GetPlace then
    env.DeviceContextPool_Get fluid_kernel_type.place_
  else dev_ctx

/-- Source lines 369-455: the two `PADDLE_ENFORCE_NE` sites around the legacy
    lookup, and the legacy result. -/
def LegacySelect {V : Type} (b : BuildConfig) (env : Env V) (r : Resolved)
    (is_xpu_kp_support : Bool) (fluid_kernel_type : OpKernelType) :
    Except EnforceNotMet PreparedOp :=
  match env.AllOpKernels r.op.Type_ with
  | none =>
    Except.error
      (EnforceNotMet.NotFound
        "There are no kernels which are registered in the %s operator."
        [ErrorArg.str r.op.Type_])
  | some kernels =>
    let s := LegacyLookup b r.is_xpu_unsupport is_xpu_kp_support kernels
      fluid_kernel_type
    match s.2 with
    | none =>
      Except.error
        (EnforceNotMet.NotFound "Operator %s does not have kernel for %s."
          [ErrorArg.str r.op.Type_, ErrorArg.kernelType s.1])
    | some func =>
      Except.ok
        (PreparedOp.mkLegacy r.op empty_ctx
          (env.TransOpKernelTypeToPhiKernelKey s.1) func r.sig.arg_map_fn
          r.sig.default_kernel_signature (LegacyDevCtx env s.1 r.dev_ctx))

/-- The key held by the legacy phase (source lines 321-334). -/
def LegacyPhaseKey {V : Type} (b : BuildConfig) (fl : GlobalFlags) (env : Env V)
    (r : Resolved) : KernelKey :=
  LegacyKpKey (LegacyKpSupport b fl env r.op r.expected_kernel_key) r.expected_kernel_key

/-- The local `fluid_kernel_type` as first computed at source lines 336-337. -/
def FluidKernelType {V : Type} (b : BuildConfig) (fl : GlobalFlags) (env : Env V)
    (r : Resolved) : OpKernelType :=
  env.TransPhiKernelKeyToOpKernelType (LegacyPhaseKey b fl env r)

/-- The local `phi_cpu_kernel_key` of source line 349. -/
def PhiCpuKernelKey {V : Type} (b : BuildConfig) (fl : GlobalFlags) (env : Env V)
    (r : Resolved) : KernelKey :=
  env.FallBackToCpu (LegacyPhaseKey b fl env r) r.op

/-- Source lines 283-455: the fallback chain over the resolved locals. -/
def SelectFrom {V : Type} (b : BuildConfig) (fl : GlobalFlags) (env : Env V)
    (phi_kernel_factory : KernelFactory) (r : Resolved) :
    Except EnforceNotMet PreparedOp :=
  let phi_kernel_name := r.sig.kernel_signature.name
  let phi_kernel := phi_kernel_factory.SelectKernel phi_kernel_name r.expected_kernel_key
  if r.sig.has_phi_kernel && (phi_kernel.IsValid && !XpuGuard b r.is_xpu_unsupport) then
    Except.ok
      (PreparedOp.mkPhi r.op empty_ctx r.expected_kernel_key r.sig.arg_map_fn
        r.sig.default_kernel_signature r.sig.kernel_signature phi_kernel
        (PhiDevCtx env r.expected_kernel_key r.dev_ctx))
  else
    let kernels_iter := env.AllOpKernels r.op.Type_
    let is_xpu_kp_support := LegacyKpSupport b fl env r.op r.expected_kernel_key
    let fluid_kernel_type := FluidKernelType b fl env r
    let phi_cpu_kernel_key := PhiCpuKernelKey b fl env r
    let phi_cpu_kernel := phi_kernel_factory.SelectKernel phi_kernel_name phi_cpu_kernel_key
    if LegacyMissing b kernels_iter fluid_kernel_type r.is_xpu_unsupport is_xpu_kp_support
        && (r.sig.has_phi_kernel && phi_cpu_kernel.IsValid) then
      Except.ok
        (PreparedOp.mkPhi r.op empty_ctx phi_cpu_kernel_key r.sig.arg_map_fn
          r.sig.default_kernel_signature r.sig.kernel_signature phi_cpu_kernel
          (env.DeviceContextPool_Get Place.CPUPlace))
    else LegacySelect b env r is_xpu_kp_support fluid_kernel_type

/-- What a call of `PrepareImpl` leaves behind: the operator (its attribute map
    may have been overwritten) and the prepared operator or the raised error. -/
structure PrepareOutcome where
  op : OperatorWithKernel
  result : Except EnforceNotMet PreparedOp

/-- Function template `PrepareImpl<VarType>` (source lines 154-455). -/
def PrepareImpl {V : Type} (b : BuildConfig) (fl : GlobalFlags) (env : Env V)
    (ins outs : NameVarMap V) (op : OperatorWithKernel) (place : Place)
    (attrs default_attrs : AttributeMap) (phi_kernel_factory : KernelFactory)
    (phi_op_utils_map : OpUtilsMap)
    (default_phi_kernel_sig_map : DefaultKernelSignatureMap) : PrepareOutcome :=
  let r := Resolve b fl env ins outs op place attrs default_attrs phi_kernel_factory
    phi_op_utils_map default_phi_kernel_sig_map
  { op := r.op, result := SelectFrom b fl env phi_kernel_factory r }

/-- The three overloads of `PreparedOp::Prepare` (source lines 457-506): each
    passes the static registries, bound to the singletons at lines 49-54. -/
def PreparedOp.Prepare {V : Type} (b : BuildConfig) (fl : GlobalFlags) (env : Env V)
    (ins outs : NameVarMap V) (op : OperatorWithKernel) (place : Place)
    (attrs default_attrs : AttributeMap) : PrepareOutcome :=
  PrepareImpl b fl env ins outs op place attrs default_attrs
    env.KernelFactory_Instance env.OpUtilsMap_Instance
    env.DefaultKernelSignatureMap_Instance

/-! ## `HandleComplexGradToRealGrad` and `PreparedOp::Run` -/

/-- Modelled from the spec: a dense tensor as far as the file reads it, its
    allocation (a handle, absent in an uninitialized tensor), its dtype and
    its dimensions.  The class `phi::DenseTensor` is declared outside the
    translated files. -/
structure DenseTensor where
  holder : Option Nat
  dtype : DataType
  dims : List Nat
  deriving DecidableEq, Repr

/-- Method `DenseTensor::IsInitialized`. -/
def DenseTensor.IsInitialized (t : DenseTensor) : Bool := t.holder.isSome

/-- Modelled from the spec: the holder `framework::Variable`, which is empty or
    holds one value: a dense tensor, selected rows (rows and a value tensor), or
    a value of another type.  The class is declared outside the translated
    files. -/
inductive Variable where
  | empty
  | dense (tensor : DenseTensor)
  | selected_rows (value : DenseTensor) (rows : List Int)
  | other (type_index : Nat)
  deriving DecidableEq, Repr

/-- Function `GetTensorFromVar` (source lines 66-74): the tensor of a dense
    variable, the value tensor of selected rows, else null. -/
def GetTensorFromVar (var : Variable) : Option DenseTensor :=
  match var with
  | .dense tensor => some tensor
  | .selected_rows value _ => some value
  | _ => none

/-- The members of `VarType` (`VarBase`, `VariableWrapper`) that the primary
    template of `HandleComplexGradToRealGrad` calls; `SetVar` is the write
    through the pointer that `MutableVar()` returns. -/
structure VarMethods (V : Type) where
  Name : V → String
  ForwardDataType : V → Int
  DataType : V → Int
  Var : V → Variable
  SetVar : V → Variable → V

/-- An exception in flight out of a collaborator. -/
structure Thrown where
  what : String
  deriving DecidableEq, Repr

/-- Class `DygraphInferShapeContext<VarType>`, from its constructor arguments
    (source lines 527-534 and 600-607). -/
structure DygraphInferShapeContext (V : Type) where
  ins : NameVarMap V
  outs : NameVarMap V
  attrs : AttributeMap
  default_attrs : AttributeMap
  op_type : String
  kernel_key : KernelKey
  arg_map_fn : Option ArgumentMappingFnPtr
  default_kernel_signature : Option KernelSignature

/-- A `phi::KernelContext` as `BuildDygraphPhiKernelContext` fills a fresh one
    from its arguments (source lines 617-625). -/
structure KernelContext (V : Type) where
  kernel_signature : KernelSignature
  phi_kernel : Kernel
  ins : NameVarMap V
  outs : NameVarMap V
  attrs : AttributeMap
  default_attrs : AttributeMap
  dev_ctx : DeviceContext

/-- Everything `Run` and `HandleComplexGradToRealGrad` call and do not define.
    The three collaborators that can reject (shape inference, the NaN/Inf scan,
    the device synchronisation) answer with an optional exception; a
    collaborator that writes the outputs (or, for `PreparePhiData`, the inputs)
    answers with the map it leaves behind. -/
structure RunEnv (V : Type) where
  infer_shape_ : OperatorWithKernel → DygraphInferShapeContext V →
    NameVarMap V × Option Thrown
  OpKernelFunc_call : OpKernelFunc → DygraphExecutionContext V → NameVarMap V
  Kernel_call_KernelContext : Kernel → KernelContext V → NameVarMap V
  Kernel_call_ExecutionContext : Kernel → DygraphExecutionContext V → NameVarMap V
  PreparePhiData : Kernel → KernelSignature → NameVarMap V → NameVarMap V
  CheckOpHasNanOrInfInDygraph : String → NameVarMap V → Place → Option Thrown
  Wait : DeviceContext → Option Thrown
  GpuGetLastError : DeviceContext → Option Thrown
  IsComplexType : Int → Bool
  IsComplexType_phi : DataType → Bool
  TransComplexToReal : Int → Int → DenseTensor → DenseTensor
  SetTensorToVariable : Variable → DenseTensor → Variable → Variable

/-- The body of the two loops of `HandleComplexGradToRealGrad` (source lines
    80-103) on one entry of the map. -/
def HandleComplexGradToRealGrad_var {V : Type} (m : VarMethods V) (renv : RunEnv V)
    (var : Option V) : Option V :=
  match var with
  | none => none
  | some v =>
    if m.ForwardDataType v = -1 then some v
    else if !renv.IsComplexType (m.DataType v) || renv.IsComplexType (m.ForwardDataType v)
    then some v
    else
      match GetTensorFromVar (m.Var v) with
      | some tensor =>
        if tensor.IsInitialized then
          let out := renv.TransComplexToReal (m.ForwardDataType v) (m.DataType v) tensor
          some (m.SetVar v (renv.SetTensorToVariable (m.Var v) out (m.Var v)))
        else some v
      | none => some v

/-- Primary template `HandleComplexGradToRealGrad<VarType>` (source lines
    76-106). -/
def HandleComplexGradToRealGrad {V : Type} (m : VarMethods V) (renv : RunEnv V)
    (outs : NameVarMap V) : NameVarMap V :=
  outs.map (fun pair => (pair.1, pair.2.map (HandleComplexGradToRealGrad_var m renv)))

/-- Specialisation `HandleComplexGradToRealGrad<egr::EagerVariable>` (source
    lines 108-112): the body is empty. -/
def HandleComplexGradToRealGrad_EagerVariable {V : Type} (outs : NameVarMap V) :
    NameVarMap V :=
  outs

/-- Function `TestHandleComplexGradToRealGradEager` (source lines 114-117). -/
def TestHandleComplexGradToRealGradEager {V : Type} (outs : NameVarMap V) :
    NameVarMap V :=
  HandleComplexGradToRealGrad_EagerVariable outs

/-- The instantiation of the templates: `VarBase` and `VariableWrapper` use
    the primary template with their own members, `egr::EagerVariable` uses the
    specialisation. -/
inductive VarKind (V : Type) where
  | primary (m : VarMethods V)
  | eager

/-- The instance `HandleComplexGradToRealGrad<VarType>` that the instantiation
    selects. -/
def VarKind.HandleComplexGradToRealGrad {V : Type} (k : VarKind V) (renv : RunEnv V)
    (outs : NameVarMap V) : NameVarMap V :=
  match k with
  | .primary m => Paddle.HandleComplexGradToRealGrad m renv outs
  | .eager => HandleComplexGradToRealGrad_EagerVariable outs

/-- What `Run` does to its collaborators, in order. -/
inductive RunEvent (V : Type) where
  | InferShape (op : OperatorWithKernel) (ctx : DygraphInferShapeContext V)
  | PreparePhiData (phi_kernel : Kernel) (kernel_signature : KernelSignature)
      (ins : NameVarMap V)
  | InvokeFunc (func : Option OpKernelFunc) (ctx : DygraphExecutionContext V)
  | InvokeKernelContext (phi_kernel : Kernel) (ctx : KernelContext V)
  | InvokeExecutionContext (phi_kernel : Kernel) (ctx : DygraphExecutionContext V)
  | CheckNanInf (op_type : String) (outs : NameVarMap V) (place : Place)
  | Wait (dev_ctx : DeviceContext)
  | GpuGetLastError (dev_ctx : DeviceContext)
  | HandleComplexGradToRealGrad (outs : NameVarMap V)

/-- The state a `Run` threads: the input and output maps as they stand, the
    events so far, and the exception in flight, if any. -/
structure RunState (V : Type) where
  ins : NameVarMap V
  outs : NameVarMap V
  trace : List (RunEvent V)
  exception : Option Thrown

/-- Sequencing of statements: nothing runs after a throw. -/
def RunState.andThen {V : Type} (s : RunState V) (f : RunState V → RunState V) :
    RunState V :=
  match s.exception with
  | none => f s
  | some _ => s

/-- The `infer_shape` block (source lines 522-538 and 595-611). -/
def InferShapeStep {V : Type} (renv : RunEnv V) (op : OperatorWithKernel)
    (kernel_key : KernelKey) (arg_map_fn : Option ArgumentMappingFnPtr)
    (default_kernel_signature : Option KernelSignature)
    (attrs default_attrs : AttributeMap) (s : RunState V) : RunState V :=
  let infer_shape_ctx : DygraphInferShapeContext V :=
    { ins := s.ins, outs := s.outs, attrs := attrs, default_attrs := default_attrs,
      op_type := op.Type_, kernel_key := kernel_key, arg_map_fn := arg_map_fn,
      default_kernel_signature := default_kernel_signature }
  let res := renv.infer_shape_ op infer_shape_ctx
  { s with
    outs := res.1
    trace := s.trace ++ [RunEvent.InferShape op infer_shape_ctx]
    exception := res.2 }

/-- The `compute` block of `PreparedOpRunImpl` (source lines 540-548): the
    legacy function is called on a `DygraphExecutionContext`; calling an empty
    `std::function` throws. -/
def FuncStep {V : Type} (renv : RunEnv V) (op : OperatorWithKernel)
    (ctx : RuntimeContext) (func : Option OpKernelFunc) (dev_ctx : DeviceContext)
    (attrs default_attrs : AttributeMap) (s : RunState V) : RunState V :=
  let exe_ctx : DygraphExecutionContext V :=
    { op := op, device_context := dev_ctx, ctx := ctx, ins := s.ins, outs := s.outs,
      attrs := attrs, default_attrs := default_attrs }
  match func with
  | some f =>
    { s with
      outs := renv.OpKernelFunc_call f exe_ctx
      trace := s.trace ++ [RunEvent.InvokeFunc (some f) exe_ctx] }
  | none =>
    { s with
      trace := s.trace ++ [RunEvent.InvokeFunc none exe_ctx]
      exception := some { what := "bad_function_call" } }

/-- The `compute` block of `PreparedOpRunPtImpl` (source lines 613-639). -/
def PhiKernelStep {V : Type} (renv : RunEnv V) (op : OperatorWithKernel)
    (kernel_signature : KernelSignature) (phi_kernel : Kernel) (ctx : RuntimeContext)
    (dev_ctx : DeviceContext) (attrs default_attrs : AttributeMap) (s : RunState V) :
    RunState V :=
  if phi_kernel.GetKernelRegisteredType = KernelRegisteredType.FUNCTION then
    let ins1 := renv.PreparePhiData phi_kernel kernel_signature s.ins
    let phi_kernel_context : KernelContext V :=
      { kernel_signature := kernel_signature, phi_kernel := phi_kernel, ins := ins1,
        outs := s.outs, attrs := attrs, default_attrs := default_attrs,
        dev_ctx := dev_ctx }
    { s with
      ins := ins1
      outs := renv.Kernel_call_KernelContext phi_kernel phi_kernel_context
      trace := s.trace ++
        [RunEvent.PreparePhiData phi_kernel kernel_signature s.ins,
          RunEvent.InvokeKernelContext phi_kernel phi_kernel_context] }
  else
    let exe_ctx : DygraphExecutionContext V :=
      { op := op, device_context := dev_ctx, ctx := ctx, ins := s.ins, outs := s.outs,
        attrs := attrs, default_attrs := default_attrs }
    { s with
      outs := renv.Kernel_call_ExecutionContext phi_kernel exe_ctx
      trace := s.trace ++ [RunEvent.InvokeExecutionContext phi_kernel exe_ctx] }

/-- The NaN/Inf scan (source lines 550-553 and 641-644). -/
def CheckNanInfStep {V : Type} (fl : GlobalFlags) (renv : RunEnv V)
    (op : OperatorWithKernel) (dev_ctx : DeviceContext) (s : RunState V) : RunState V :=
  if fl.FLAGS_check_nan_inf then
    { s with
      trace := s.trace ++ [RunEvent.CheckNanInf op.Type_ s.outs dev_ctx.GetPlace]
      exception := renv.CheckOpHasNanOrInfInDygraph op.Type_ s.outs dev_ctx.GetPlace }
  else s

/-- The call `PADDLE_ENFORCE_GPU_SUCCESS(platform::GpuGetLastError())`, under
    `PADDLE_WITH_CUDA` or `PADDLE_WITH_HIP` (source lines 557-560, 648-651). -/
def GpuLastErrorStep {V : Type} (b : BuildConfig) (renv : RunEnv V)
    (dev_ctx : DeviceContext) (s : RunState V) : RunState V :=
  if b.PADDLE_WITH_CUDA || b.PADDLE_WITH_HIP then
    { s with
      trace := s.trace ++ [RunEvent.GpuGetLastError dev_ctx]
      exception := renv.GpuGetLastError dev_ctx }
  else s

/-- The benchmark block (source lines 555-561 and 646-652): wait for the
    device context, then read the last device error. -/
def BenchmarkStep {V : Type} (b : BuildConfig) (fl : GlobalFlags) (renv : RunEnv V)
    (dev_ctx : DeviceContext) (s : RunState V) : RunState V :=
  if fl.FLAGS_benchmark then
    ({ s with
        trace := s.trace ++ [RunEvent.Wait dev_ctx]
        exception := renv.Wait dev_ctx } : RunState V).andThen
      (GpuLastErrorStep b renv dev_ctx)
  else s

/-- The complex-to-real repair (source lines 576-578 and 654-656). -/
def ComplexGradStep {V : Type} (renv : RunEnv V) (k : VarKind V)
    (kernel_key : KernelKey) (s : RunState V) : RunState V :=
  if renv.IsComplexType_phi kernel_key.dtype then
    { s with
      outs := k.HandleComplexGradToRealGrad renv s.outs
      trace := s.trace ++ [RunEvent.HandleComplexGradToRealGrad s.outs] }
  else s

/-- The diagnostics common to both implementations: the scan, then the
    benchmark block. -/
def Diagnostics {V : Type} (b : BuildConfig) (fl : GlobalFlags) (renv : RunEnv V)
    (op : OperatorWithKernel) (dev_ctx : DeviceContext) (s : RunState V) : RunState V :=
  (s.andThen (CheckNanInfStep fl renv op dev_ctx)).andThen
    (BenchmarkStep b fl renv dev_ctx)

/-- The post-compute part common to both implementations: scan, benchmark
    block, repair. -/
def PostCompute {V : Type} (b : BuildConfig) (fl : GlobalFlags) (renv : RunEnv V)
    (k : VarKind V) (op : OperatorWithKernel) (kernel_key : KernelKey)
    (dev_ctx : DeviceContext) (s : RunState V) : RunState V :=
  (Diagnostics b fl renv op dev_ctx s).andThen (ComplexGradStep renv k kernel_key)

/-- The state in which `Run` starts. -/
def RunState.init {V : Type} (ins outs : NameVarMap V) : RunState V :=
  { ins := ins, outs := outs, trace := [], exception := none }

/-- Function template `PreparedOpRunImpl<VarType>` (source lines 507-579).
    Profiler records and log lines are left out. -/
def PreparedOpRunImpl {V : Type} (b : BuildConfig) (fl : GlobalFlags) (renv : RunEnv V)
    (k : VarKind V) (op : OperatorWithKernel) (ctx : RuntimeContext)
    (kernel_key : KernelKey) (func : Option OpKernelFunc)
    (arg_map_fn : Option ArgumentMappingFnPtr)
    (default_kernel_signature : Option KernelSignature) (dev_ctx : DeviceContext)
    (ins outs : NameVarMap V) (attrs default_attrs : AttributeMap) : RunState V :=
  PostCompute b fl renv k op kernel_key dev_ctx
    ((InferShapeStep renv op kernel_key arg_map_fn default_kernel_signature attrs
        default_attrs (RunState.init ins outs)).andThen
      (FuncStep renv op ctx func dev_ctx attrs default_attrs))

/-- Function template `PreparedOpRunPtImpl<VarType>` (source lines 581-657).
    Profiler records and log lines are left out. -/
def PreparedOpRunPtImpl {V : Type} (b : BuildConfig) (fl : GlobalFlags) (renv : RunEnv V)
    (k : VarKind V) (op : OperatorWithKernel) (kernel_key : KernelKey)
    (arg_map_fn : Option ArgumentMappingFnPtr)
    (default_kernel_signature : Option KernelSignature)
    (kernel_signature : KernelSignature) (phi_kernel : Kernel) (ctx : RuntimeContext)
    (dev_ctx : DeviceContext) (ins outs : NameVarMap V)
    (attrs default_attrs : AttributeMap) : RunState V :=
  PostCompute b fl renv k op kernel_key dev_ctx
    ((InferShapeStep renv op kernel_key arg_map_fn default_kernel_signature attrs
        default_attrs (RunState.init ins outs)).andThen
      (PhiKernelStep renv op kernel_signature phi_kernel ctx dev_ctx attrs default_attrs))

/-- The three overloads of `PreparedOp::Run` (source lines 659-753); `k` says
    which `VarType` the overload is for. -/
def PreparedOp.Run {V : Type} (b : BuildConfig) (fl : GlobalFlags) (renv : RunEnv V)
    (k : VarKind V) (p : PreparedOp) (ins outs : NameVarMap V)
    (attrs default_attrs : AttributeMap) : RunState V :=
  if p.run_phi_kernel_ then
    PreparedOpRunPtImpl b fl renv k p.op_ p.kernel_key_ p.arg_map_fn_
      p.default_kernel_signature_ p.kernel_signature_ p.phi_kernel_ p.ctx_ p.dev_ctx_
      ins outs attrs default_attrs
  else
    PreparedOpRunImpl b fl renv k p.op_ p.ctx_ p.kernel_key_ p.func_ p.arg_map_fn_
      p.default_kernel_signature_ p.dev_ctx_ ins outs attrs default_attrs

/-! ## Vocabulary of the statements -/

/-- Equality of `Except` values is decidable when it is on both sides. -/
instance decEqExcept {ε α : Type} [DecidableEq ε] [DecidableEq α] :
    DecidableEq (Except ε α) := fun x y =>
  match x, y with
  | .ok a, .ok b =>
    if h : a = b then isTrue (by rw [h]) else isFalse (fun h2 => h (by cases h2; rfl))
  | .error a, .error b =>
    if h : a = b then isTrue (by rw [h]) else isFalse (fun h2 => h (by cases h2; rfl))
  | .ok _, .error _ => isFalse (fun h2 => by cases h2)
  | .error _, .ok _ => isFalse (fun h2 => by cases h2)

/-- The locals of `PreparedOp::Prepare` at source line 283: `Resolve` at the
    static registries that `Prepare` passes to `PrepareImpl`. -/
def ResolvedOf {V : Type} (b : BuildConfig) (fl : GlobalFlags) (env : Env V)
    (ins outs : NameVarMap V) (op : OperatorWithKernel) (place : Place)
    (attrs default_attrs : AttributeMap) : Resolved :=
  Resolve b fl env ins outs op place attrs default_attrs env.KernelFactory_Instance
    env.OpUtilsMap_Instance env.DefaultKernelSignatureMap_Instance

/-- The environment `env` with its legacy kernel tables replaced. -/
def Env.withLegacy {V : Type} (env : Env V) (legacy : String → Option OpKernelMap) :
    Env V :=
  { env with AllOpKernels := legacy }

/-- The condition of the first `if` of the chain (source lines 242, 286-290). -/
def Tier1Taken {V : Type} (b : BuildConfig) (env : Env V) (r : Resolved) : Bool :=
  r.sig.has_phi_kernel &&
    ((env.KernelFactory_Instance.SelectKernel r.sig.kernel_signature.name
        r.expected_kernel_key).IsValid && !XpuGuard b r.is_xpu_unsupport)

/-- The condition under which the CPU-degraded unified kernel is returned once
    tier 1 is not taken (source lines 338-352). -/
def Tier2Taken {V : Type} (b : BuildConfig) (fl : GlobalFlags) (env : Env V)
    (r : Resolved) : Bool :=
  LegacyMissing b (env.AllOpKernels r.op.Type_) (FluidKernelType b fl env r)
      r.is_xpu_unsupport (LegacyKpSupport b fl env r.op r.expected_kernel_key) &&
    (r.sig.has_phi_kernel &&
      (env.KernelFactory_Instance.SelectKernel r.sig.kernel_signature.name
        (PhiCpuKernelKey b fl env r)).IsValid)

/-- The descriptor's place is an accelerator for which the build has a
    CPU degradation branch: XPU, IPU or a custom device. -/
def AcceleratorTarget (b : BuildConfig) (p : Place) : Bool :=
  (b.PADDLE_WITH_XPU && is_xpu_place p) || (b.PADDLE_WITH_IPU && is_ipu_place p) ||
    (b.PADDLE_WITH_CUSTOM_DEVICE && is_custom_place p)

/-- A candidate of the selection order: a unified kernel with the key it is
    registered at, or a legacy kernel with its descriptor. -/
inductive Candidate where
  | unified (kernel : Kernel) (key : KernelKey)
  | legacy (func : OpKernelFunc) (descriptor : OpKernelType)
  deriving DecidableEq, Repr

/-- The order stated in the note of source lines 180-182, "phi npu kernel >
    fluid npu kernel > phi cpu kernel > fluid cpu kernel", read as a
    specification: the first candidate that exists among the unified kernel at
    the device key, the legacy kernel at the device descriptor, the unified
    kernel at the CPU-degraded key and the legacy kernel at the CPU
    descriptor. -/
def DocumentedOrder {V : Type} (env : Env V) (phi_kernel_factory : KernelFactory)
    (r : Resolved) : Option Candidate :=
  let device_key := r.expected_kernel_key
  let device_descriptor := env.TransPhiKernelKeyToOpKernelType device_key
  let cpu_key := env.FallBackToCpu device_key r.op
  let cpu_descriptor := device_descriptor.onCpu
  let phi_device := phi_kernel_factory.SelectKernel r.sig.kernel_signature.name device_key
  let phi_cpu := phi_kernel_factory.SelectKernel r.sig.kernel_signature.name cpu_key
  let fluid : OpKernelType → Option OpKernelFunc := fun d =>
    match env.AllOpKernels r.op.Type_ with
    | some kernels => kernels d
    | none => none
  if r.sig.has_phi_kernel && phi_device.IsValid then
    some (Candidate.unified phi_device device_key)
  else
    match fluid device_descriptor with
    | some func => some (Candidate.legacy func device_descriptor)
    | none =>
      if r.sig.has_phi_kernel && phi_cpu.IsValid then
        some (Candidate.unified phi_cpu cpu_key)
      else
        match fluid cpu_descriptor with
        | some func => some (Candidate.legacy func cpu_descriptor)
        | none => none

/-- The prepared operator is bound to the candidate: the same kernel, of the
    same kind, under the candidate's key (for a legacy candidate, the key
    translated from its descriptor). -/
def PreparedOp.IsBoundTo {V : Type} (env : Env V) (p : PreparedOp) (c : Candidate) :
    Bool :=
  match c with
  | .unified kernel key =>
    p.run_phi_kernel_ && decide (p.phi_kernel_ = kernel) && decide (p.kernel_key_ = key)
  | .legacy func descriptor =>
    !p.run_phi_kernel_ && decide (p.func_ = some func) &&
      decide (p.kernel_key_ = env.TransOpKernelTypeToPhiKernelKey descriptor)

/-- The outcome returns the candidate when there is one, and is an error when
    there is none. -/
def Returns {V : Type} (env : Env V) (result : Except EnforceNotMet PreparedOp)
    (c : Option Candidate) : Bool :=
  match result, c with
  | .ok p, some c => p.IsBoundTo env c
  | .error _, none => true
  | _, _ => false

/-- The failure carries the legacy descriptor `d` among its arguments. -/
def EnforceNotMet.carriesDescriptor (e : EnforceNotMet) (d : OpKernelType) : Bool :=
  match e with
  | .NotFound _ args => decide (ErrorArg.kernelType d ∈ args)

/-- The failure carries the op type `t` among its arguments. -/
def EnforceNotMet.carriesOpType (e : EnforceNotMet) (t : String) : Bool :=
  match e with
  | .NotFound _ args => decide (ErrorArg.str t ∈ args)

/-! ## Concrete registries used to evaluate the code -/

/-- A sample `TransToPhiPlace`: library backends map to the place of their
    device. -/
def sampleTransToPhiPlace : Backend → Place
  | .CPU => .CPUPlace
  | .ONEDNN => .CPUPlace
  | .GPU => .GPUPlace 0
  | .GPUDNN => .GPUPlace 0
  | .XPU => .XPUPlace 0
  | .KPS => .XPUPlace 0
  | .IPU => .IPUPlace 0
  | .CUSTOM _ => .CustomPlace "custom_dev" 0
  | .UNDEFINED => .UNDEFINED

/-- A sample `TransToPhiBackend`. -/
def sampleTransToPhiBackend : Place → Backend
  | .CPUPlace => .CPU
  | .GPUPlace _ => .GPU
  | .GPUPinnedPlace => .GPU
  | .XPUPlace _ => .XPU
  | .IPUPlace _ => .IPU
  | .CustomPlace _ _ => .CUSTOM 0
  | .UNDEFINED => .UNDEFINED

/-- A sample `places_are_same_class`: equal allocation type. -/
def samplePlacesSameClass : Place → Place → Bool
  | .CPUPlace, .CPUPlace => true
  | .GPUPlace _, .GPUPlace _ => true
  | .GPUPinnedPlace, .GPUPinnedPlace => true
  | .XPUPlace _, .XPUPlace _ => true
  | .IPUPlace _, .IPUPlace _ => true
  | .CustomPlace s _, .CustomPlace t _ => s == t
  | .UNDEFINED, .UNDEFINED => true
  | _, _ => false

/-- A sample `backends_are_same_class`: the places of the two backends are of
    the same class. -/
def sampleBackendsSameClass (l r : Backend) : Bool :=
  samplePlacesSameClass (sampleTransToPhiPlace l) (sampleTransToPhiPlace r)

/-- A sample `TransToProtoVarType`, on the data types the examples use. -/
def sampleProtoType : DataType → Int
  | .FLOAT32 => 5
  | .FLOAT64 => 6
  | .COMPLEX64 => 23
  | .COMPLEX128 => 24
  | _ => 0

/-- A sample inverse of `sampleProtoType`. -/
def samplePhiType (i : Int) : DataType :=
  if i = 5 then .FLOAT32 else if i = 6 then .FLOAT64
  else if i = 23 then .COMPLEX64 else if i = 24 then .COMPLEX128 else .UNDEFINED

/-- A sample `TransPhiKernelKeyToOpKernelType`. -/
def sampleKeyToType (k : KernelKey) : OpKernelType :=
  { data_type_ := sampleProtoType k.dtype
    data_layout_ := k.layout
    place_ := sampleTransToPhiPlace k.backend
    library_type_ :=
      match k.backend with
      | .ONEDNN => .kMKLDNN
      | .GPUDNN => .kCUDNN
      | .KPS => .kKP
      | _ => .kPlain }

/-- A sample `TransOpKernelTypeToPhiKernelKey`: the backend of the place, or
    the library backend of that place. -/
def sampleTypeToKey (t : OpKernelType) : KernelKey :=
  { backend :=
      match t.library_type_, t.place_ with
      | .kMKLDNN, .CPUPlace => .ONEDNN
      | .kCUDNN, .GPUPlace _ => .GPUDNN
      | .kKP, .XPUPlace _ => .KPS
      | _, p => sampleTransToPhiBackend p
    layout := t.data_layout_
    dtype := samplePhiType t.data_type_ }

/-- A sample device-context pool: one context per place. -/
def samplePool (p : Place) : DeviceContext := { handle := 0, place := p }

/-- A sample build: no optional backend compiled in. -/
def plainBuild : BuildConfig :=
  { PADDLE_WITH_DNNL := false, PADDLE_WITH_CUDA := false, PADDLE_WITH_HIP := false,
    PADDLE_WITH_XPU := false, PADDLE_WITH_XPU_KP := false, PADDLE_WITH_IPU := false,
    PADDLE_WITH_CUSTOM_DEVICE := false }

/-- A sample build with XPU support and no KP support. -/
def xpuBuild : BuildConfig := { plainBuild with PADDLE_WITH_XPU := true }

/-- A sample build with XPU and XPU-KP support. -/
def xpuKpBuild : BuildConfig :=
  { plainBuild with PADDLE_WITH_XPU := true, PADDLE_WITH_XPU_KP := true }

/-- Sample flags: all off. -/
def noFlags : GlobalFlags :=
  { FLAGS_use_mkldnn := false, FLAGS_run_kp_kernel := false,
    FLAGS_check_nan_inf := false, FLAGS_benchmark := false }

/-- A sample environment over variables of type `Unit`, from the registries
    that vary between the examples: the key the operator asks for, the unified
    kernels, the default signatures, the legacy tables, the XPU support
    predicate and the KP white list.  No argument-mapping function and no
    structured kernel is registered; `FallBackToCpu` replaces the backend by
    CPU. -/
def sampleEnv (key : KernelKey) (phi : String → KernelKey → Kernel)
    (sigs : String → Option KernelSignature) (legacy : String → Option OpKernelMap)
    (xpu_support : Bool) (kp_white : Bool) : Env Unit :=
  { GetExpectedKernelType := fun _ _ => key
    DnnFallback := fun _ => true
    CanMKLDNNBeUsed := fun _ _ _ => false
    CanCUDNNBeUsed := fun _ _ _ => false
    in_mkldnn_white_list := fun _ => false
    is_xpu_support_op := fun _ _ => xpu_support
    is_xpu_kp_support_op := fun _ _ => false
    is_in_xpu_kpwhite_list := fun _ => kp_white
    KernelFactory_Instance :=
      { SelectKernel := phi
        HasKernel := fun n k => (phi n k).IsValid
        HasStructuredKernel := fun _ => false }
    OpUtilsMap_Instance := { GetArgumentMappingFn := fun _ => none }
    DefaultKernelSignatureMap_Instance := { GetNullable := sigs }
    ArgumentMappingFn_call := fun _ _ => KernelSignature.default
    AllOpKernels := legacy
    TransPhiKernelKeyToOpKernelType := sampleKeyToType
    TransOpKernelTypeToPhiKernelKey := sampleTypeToKey
    TransToPhiBackend := sampleTransToPhiBackend
    TransToPhiPlace := sampleTransToPhiPlace
    backends_are_same_class := sampleBackendsSameClass
    places_are_same_class := samplePlacesSameClass
    FallBackToCpu := fun k _ => { k with backend := Backend.CPU }
    DeviceContextPool_Get := samplePool }

/-- The sample operator `conv`. -/
def convOp : OperatorWithKernel := { Type_ := "conv", Attrs := [], Id := 0 }

/-- Sample signature table: `conv` has the default signature `conv2d`. -/
def convSig : String → Option KernelSignature :=
  fun t => if t = "conv" then some (KernelSignature.ofName "conv2d") else none

/-- Sample signature table with no entry. -/
def noSig : String → Option KernelSignature := fun _ => none

/-- The key XPU / NCHW / float32. -/
def xpuKey : KernelKey :=
  { backend := .XPU, layout := .NCHW, dtype := .FLOAT32 }

/-- The key CPU / NCHW / float32. -/
def cpuKey : KernelKey :=
  { backend := .CPU, layout := .NCHW, dtype := .FLOAT32 }

/-- The legacy descriptor of `xpuKey`. -/
def xpuDesc : OpKernelType :=
  { data_type_ := 5, data_layout_ := .NCHW, place_ := .XPUPlace 0, library_type_ := .kPlain }

/-- The legacy descriptor of `cpuKey`. -/
def cpuDesc : OpKernelType :=
  { data_type_ := 5, data_layout_ := .NCHW, place_ := .CPUPlace, library_type_ := .kPlain }

/-- A unified-kernel table: `conv2d` has kernel `fn` at every key of `keys`. -/
def phiAt (keys : List KernelKey) (fn : KernelKey → Nat) : String → KernelKey → Kernel :=
  fun n k =>
    if n = "conv2d" ∧ k ∈ keys then
      { fn := some (fn k), kernel_registered_type := .FUNCTION }
    else empty_kernel

/-- A per-operator legacy table with the listed entries. -/
def tableOf (entries : List (OpKernelType × OpKernelFunc)) : OpKernelMap :=
  fun d => (List.find? (fun e => e.1 == d) entries).map Prod.snd

/-- A legacy table: `conv` has the listed entries. -/
def legacyAt (entries : List (OpKernelType × OpKernelFunc)) : String → Option OpKernelMap :=
  fun t => if t = "conv" then some (tableOf entries) else none

/-- A legacy table with no operator at all. -/
def noLegacy : String → Option OpKernelMap := fun _ => none

/-- Sample unified-kernel handles: 1 for the CPU backend, 2 otherwise. -/
def sampleFn : KernelKey → Nat := fun k => if k.backend = Backend.CPU then 1 else 2

/-- The legacy descriptor of `cpuKey` under the KP library. -/
def cpuKpDesc : OpKernelType :=
  { data_type_ := 5, data_layout_ := .NCHW, place_ := .CPUPlace, library_type_ := .kKP }

/-- The legacy descriptor of backend KPS: an XPU place under the KP library. -/
def xpuKpDesc : OpKernelType :=
  { data_type_ := 5, data_layout_ := .NCHW, place_ := .XPUPlace 0, library_type_ := .kKP }

/-- A sample build with custom-device support only. -/
def customBuild : BuildConfig := { plainBuild with PADDLE_WITH_CUSTOM_DEVICE := true }

/-- The key CUSTOM / NCHW / float32. -/
def customKey : KernelKey :=
  { backend := .CUSTOM 0, layout := .NCHW, dtype := .FLOAT32 }

/-- A sample environment in which `conv` has an argument-mapping function, a
    structured kernel under its own name and a default signature at once. -/
def priorityEnv : Env Unit :=
  { sampleEnv cpuKey (phiAt [] sampleFn) convSig noLegacy true false with
    KernelFactory_Instance :=
      { SelectKernel := phiAt [] sampleFn
        HasKernel := fun _ _ => false
        HasStructuredKernel := fun t => decide (t = "conv") }
    OpUtilsMap_Instance :=
      { GetArgumentMappingFn := fun t => if t = "conv" then some { addr := 100 } else none }
    ArgumentMappingFn_call := fun _ _ =>
      { name := "conv2d_mapped", input_names := ["Input", "Filter"],
        output_names := ["Output"], attr_names := ["strides"] } }

/-- The environment `env` with the kernel factory's `SelectKernel` and
    `HasKernel` replaced; `HasStructuredKernel` is kept. -/
def Env.withSelectKernel {V : Type} (env : Env V) (select : String → KernelKey → Kernel)
    (has : String → KernelKey → Bool) : Env V :=
  { env with
    KernelFactory_Instance :=
      { SelectKernel := select
        HasKernel := has
        HasStructuredKernel := env.KernelFactory_Instance.HasStructuredKernel } }

/-- The view built at source lines 185-186, over the operator as the
    attribute overwrite left it. -/
def ExeCtxOf {V : Type} (b : BuildConfig) (fl : GlobalFlags) (env : Env V)
    (ins outs : NameVarMap V) (op : OperatorWithKernel) (place : Place)
    (attrs default_attrs : AttributeMap) : DygraphExecutionContext V :=
  { op := OverwriteOpAttrs b fl op attrs default_attrs
    device_context := env.DeviceContextPool_Get place
    ctx := empty_ctx, ins := ins, outs := outs, attrs := attrs,
    default_attrs := default_attrs }

/-- The key as derived by the operator's policy at source line 187, before
    any override. -/
def DerivedKey {V : Type} (b : BuildConfig) (fl : GlobalFlags) (env : Env V)
    (ins outs : NameVarMap V) (op : OperatorWithKernel) (place : Place)
    (attrs default_attrs : AttributeMap) : KernelKey :=
  env.GetExpectedKernelType (OverwriteOpAttrs b fl op attrs default_attrs)
    (ExeCtxOf b fl env ins outs op place attrs default_attrs)

/-- The key after the oneDNN override (source line 206). -/
def MkldnnKey {V : Type} (b : BuildConfig) (fl : GlobalFlags) (env : Env V)
    (ins outs : NameVarMap V) (op : OperatorWithKernel) (place : Place)
    (attrs default_attrs : AttributeMap) : KernelKey :=
  ApplyMKLDNN b env (OverwriteOpAttrs b fl op attrs default_attrs)
    (ExeCtxOf b fl env ins outs op place attrs default_attrs)
    (DerivedKey b fl env ins outs op place attrs default_attrs)

/-- The key after the oneDNN and cuDNN overrides (source line 212), before the
    KP override. -/
def LibraryKey {V : Type} (b : BuildConfig) (fl : GlobalFlags) (env : Env V)
    (ins outs : NameVarMap V) (op : OperatorWithKernel) (place : Place)
    (attrs default_attrs : AttributeMap) : KernelKey :=
  ApplyCUDNN b env (OverwriteOpAttrs b fl op attrs default_attrs)
    (ExeCtxOf b fl env ins outs op place attrs default_attrs)
    (MkldnnKey b fl env ins outs op place attrs default_attrs)

/-- The state of `Run` when it reaches the repair step: shape inference, the
    bound kernel and the diagnostics have run. -/
def PreparedOp.RunBeforeRepair {V : Type} (b : BuildConfig) (fl : GlobalFlags)
    (renv : RunEnv V) (p : PreparedOp) (ins outs : NameVarMap V)
    (attrs default_attrs : AttributeMap) : RunState V :=
  Diagnostics b fl renv p.op_ p.dev_ctx_
    ((InferShapeStep renv p.op_ p.kernel_key_ p.arg_map_fn_ p.default_kernel_signature_
        attrs default_attrs (RunState.init ins outs)).andThen
      (if p.run_phi_kernel_ then
        PhiKernelStep renv p.op_ p.kernel_signature_ p.phi_kernel_ p.ctx_ p.dev_ctx_ attrs
          default_attrs
      else FuncStep renv p.op_ p.ctx_ p.func_ p.dev_ctx_ attrs default_attrs))

/-- The event is a kernel invocation. -/
def RunEvent.isInvocation {V : Type} (e : RunEvent V) : Bool :=
  match e with
  | .InvokeFunc _ _ => true
  | .InvokeKernelContext _ _ => true
  | .InvokeExecutionContext _ _ => true
  | _ => false

/-- The event is a call of `PreparePhiData`. -/
def RunEvent.isPreparePhiData {V : Type} (e : RunEvent V) : Bool :=
  match e with
  | .PreparePhiData _ _ _ => true
  | _ => false

/-- The event is the repair pass. -/
def RunEvent.isRepair {V : Type} (e : RunEvent V) : Bool :=
  match e with
  | .HandleComplexGradToRealGrad _ => true
  | _ => false

/-- The event invokes nothing: a null legacy function, or a unified kernel
    without a callable (such as `empty_kernel`). -/
def RunEvent.invokesNothing {V : Type} (e : RunEvent V) : Bool :=
  match e with
  | .InvokeFunc none _ => true
  | .InvokeKernelContext phi_kernel _ => !phi_kernel.IsValid
  | .InvokeExecutionContext phi_kernel _ => !phi_kernel.IsValid
  | _ => false

/-- A sample build with CUDA support only. -/
def cudaBuild : BuildConfig := { plainBuild with PADDLE_WITH_CUDA := true }

/-- The key GPU / NCHW / float32. -/
def gpuKey : KernelKey :=
  { backend := .GPU, layout := .NCHW, dtype := .FLOAT32 }

/-- The key GPUDNN / NCHW / float32. -/
def gpudnnKey : KernelKey :=
  { backend := .GPUDNN, layout := .NCHW, dtype := .FLOAT32 }

/-- The legacy descriptor of `gpuKey`. -/
def gpuDesc : OpKernelType :=
  { data_type_ := 5, data_layout_ := .NCHW, place_ := .GPUPlace 0, library_type_ := .kPlain }

/-- The legacy descriptor of `gpudnnKey`. -/
def gpudnnDesc : OpKernelType :=
  { data_type_ := 5, data_layout_ := .NCHW, place_ := .GPUPlace 0, library_type_ := .kCUDNN }

/-- A sample environment in which the operator asks for `gpuKey` and its cuDNN
    probe approves every dtype. -/
def cudnnEnv (phi : String → KernelKey → Kernel) (legacy : String → Option OpKernelMap) :
    Env Unit :=
  { sampleEnv gpuKey phi convSig legacy true false with
    CanCUDNNBeUsed := fun _ _ _ => true }

/-- A sample build with oneDNN support only. -/
def dnnlBuild : BuildConfig := { plainBuild with PADDLE_WITH_DNNL := true }

/-- Sample flags: `FLAGS_use_mkldnn` set, the others off. -/
def mkldnnFlags : GlobalFlags := { noFlags with FLAGS_use_mkldnn := true }

/-- The sample operator `conv` with one attribute stored on it. -/
def convOpWithAttrs : OperatorWithKernel :=
  { Type_ := "conv", Attrs := [("stale", Attribute.int 1)], Id := 0 }

/-- The event belongs to the post-compute hooks: the scan, the wait, the read
    of the last device error, the repair. -/
def RunEvent.isHook {V : Type} (e : RunEvent V) : Bool :=
  match e with
  | .CheckNanInf _ _ _ => true
  | .Wait _ => true
  | .GpuGetLastError _ => true
  | .HandleComplexGradToRealGrad _ => true
  | _ => false

/-- The state `t` continues `s` by hook events only. -/
def RunState.ExtendsByHooks {V : Type} (t s : RunState V) : Prop :=
  ∃ hooks : List (RunEvent V), t.trace = s.trace ++ hooks ∧ ∀ e ∈ hooks, e.isHook = true

/-- The shape-inference context that `Run` builds from its arguments. -/
def PreparedOp.InferCtx {V : Type} (p : PreparedOp) (ins outs : NameVarMap V)
    (attrs default_attrs : AttributeMap) : DygraphInferShapeContext V :=
  { ins := ins, outs := outs, attrs := attrs, default_attrs := default_attrs,
    op_type := p.op_.Type_, kernel_key := p.kernel_key_, arg_map_fn := p.arg_map_fn_,
    default_kernel_signature := p.default_kernel_signature_ }

/-- The `DygraphExecutionContext` that `Run` builds for the compute block,
    over the outputs as shape inference left them. -/
def PreparedOp.ComputeExeCtx {V : Type} (renv : RunEnv V) (p : PreparedOp)
    (ins outs : NameVarMap V) (attrs default_attrs : AttributeMap) :
    DygraphExecutionContext V :=
  { op := p.op_, device_context := p.dev_ctx_, ctx := p.ctx_, ins := ins,
    outs := (renv.infer_shape_ p.op_ (p.InferCtx ins outs attrs default_attrs)).1,
    attrs := attrs, default_attrs := default_attrs }

/-- The unified kernel context that `Run` builds for a FUNCTION-kind kernel,
    over the inputs as `PreparePhiData` left them. -/
def PreparedOp.ComputeKernelCtx {V : Type} (renv : RunEnv V) (p : PreparedOp)
    (ins outs : NameVarMap V) (attrs default_attrs : AttributeMap) : KernelContext V :=
  { kernel_signature := p.kernel_signature_, phi_kernel := p.phi_kernel_,
    ins := renv.PreparePhiData p.phi_kernel_ p.kernel_signature_ ins,
    outs := (renv.infer_shape_ p.op_ (p.InferCtx ins outs attrs default_attrs)).1,
    attrs := attrs, default_attrs := default_attrs, dev_ctx := p.dev_ctx_ }

/-- The events of the compute block of a `PreparedOp`: the one invocation of
    its bound kernel, after `PreparePhiData` for a FUNCTION-kind unified
    kernel. -/
def PreparedOp.ComputeEvents {V : Type} (renv : RunEnv V) (p : PreparedOp)
    (ins outs : NameVarMap V) (attrs default_attrs : AttributeMap) :
    List (RunEvent V) :=
  if p.run_phi_kernel_ then
    if p.phi_kernel_.GetKernelRegisteredType = KernelRegisteredType.FUNCTION then
      [RunEvent.PreparePhiData p.phi_kernel_ p.kernel_signature_ ins,
        RunEvent.InvokeKernelContext p.phi_kernel_
          (p.ComputeKernelCtx renv ins outs attrs default_attrs)]
    else
      [RunEvent.InvokeExecutionContext p.phi_kernel_
        (p.ComputeExeCtx renv ins outs attrs default_attrs)]
  else [RunEvent.InvokeFunc p.func_ (p.ComputeExeCtx renv ins outs attrs default_attrs)]

deriving instance DecidableEq for DygraphExecutionContext
deriving instance DecidableEq for DygraphInferShapeContext
deriving instance DecidableEq for KernelContext
deriving instance DecidableEq for RunEvent
deriving instance DecidableEq for RunState

/-- A sample variable type with the members of `VariableWrapper` that the
    repair reads: a name, the dtype it reports, its forward dtype and its
    holder. -/
structure SampleVar where
  name_ : String
  data_type_ : Int
  fwd_data_type_ : Int
  var_ : Variable
  deriving DecidableEq, Repr

/-- The members of `SampleVar`. -/
def sampleMethods : VarMethods SampleVar :=
  { Name := fun v => v.name_
    ForwardDataType := fun v => v.fwd_data_type_
    DataType := fun v => v.data_type_
    Var := fun v => v.var_
    SetVar := fun v x => { v with var_ := x } }

/-- A sample `SetTensorToVariable`: the tensor replaces the one the input
    variable holds, in a holder of the same kind. -/
def sampleSetTensorToVariable (in_var : Variable) (tensor : DenseTensor)
    (out_var : Variable) : Variable :=
  match in_var with
  | .dense _ => .dense tensor
  | .selected_rows _ rows => .selected_rows tensor rows
  | _ => out_var

/-- A sample `TransComplexToReal`: a new allocation of the destination
    dtype. -/
def sampleTransComplexToReal (dst _src : Int) (tensor : DenseTensor) : DenseTensor :=
  { holder := tensor.holder.map (fun h => h + 1000), dtype := samplePhiType dst,
    dims := tensor.dims }

/-- A sample run environment: kernels and the data transform leave the maps
    as they are, the diagnostics accept, and shape inference rejects iff
    `rejects`. -/
def sampleRunEnv (rejects : Bool) : RunEnv SampleVar :=
  { infer_shape_ := fun _ c =>
      (c.outs, if rejects then some { what := "shape inference rejected" } else none)
    OpKernelFunc_call := fun _ c => c.outs
    Kernel_call_KernelContext := fun _ c => c.outs
    Kernel_call_ExecutionContext := fun _ c => c.outs
    PreparePhiData := fun _ _ ins => ins
    CheckOpHasNanOrInfInDygraph := fun _ _ _ => none
    Wait := fun _ => none
    GpuGetLastError := fun _ => none
    IsComplexType := fun t => decide (t = 23 ∨ t = 24)
    IsComplexType_phi := fun t => decide (t = DataType.COMPLEX64 ∨ t = DataType.COMPLEX128)
    TransComplexToReal := sampleTransComplexToReal
    SetTensorToVariable := sampleSetTensorToVariable }

/-- The key CPU / NCHW / complex64. -/
def complexKey : KernelKey :=
  { backend := .CPU, layout := .NCHW, dtype := .COMPLEX64 }

/-- A sample legacy `PreparedOp` of `conv` under a key. -/
def legacyPrepared (key : KernelKey) : PreparedOp :=
  PreparedOp.mkLegacy convOp empty_ctx key { handle := 8 } none none
    (samplePool Place.CPUPlace)

/-- A sample unified `PreparedOp` of `conv` under a key, for a kernel of the
    given registration kind. -/
def phiPrepared (key : KernelKey) (kind : KernelRegisteredType) : PreparedOp :=
  PreparedOp.mkPhi convOp empty_ctx key none (some (KernelSignature.ofName "conv2d"))
    (KernelSignature.ofName "conv2d") { fn := some 1, kernel_registered_type := kind }
    (samplePool Place.CPUPlace)

/-- A sample complex64 tensor. -/
def complexTensor : DenseTensor :=
  { holder := some 1, dtype := .COMPLEX64, dims := [2, 3] }

/-- A sample float32 tensor. -/
def realTensor : DenseTensor :=
  { holder := some 2, dtype := .FLOAT32, dims := [2, 3] }

/-- A sample gradient `dx`: complex64 after the kernel, declared float32 in the
    forward pass. -/
def dxVar : SampleVar :=
  { name_ := "dx", data_type_ := 23, fwd_data_type_ := 5, var_ := .dense complexTensor }

/-- A sample output that is float32 after the kernel and was float32 in the
    forward pass. -/
def realVar : SampleVar :=
  { name_ := "y", data_type_ := 5, fwd_data_type_ := 5, var_ := .dense realTensor }

/-- The state of `Run` after shape inference and the compute block, before
    any post-compute hook. -/
def PreparedOp.RunAfterCompute {V : Type} (renv : RunEnv V) (p : PreparedOp)
    (ins outs : NameVarMap V) (attrs default_attrs : AttributeMap) : RunState V :=
  (InferShapeStep renv p.op_ p.kernel_key_ p.arg_map_fn_ p.default_kernel_signature_
      attrs default_attrs (RunState.init ins outs)).andThen
    (if p.run_phi_kernel_ then
      PhiKernelStep renv p.op_ p.kernel_signature_ p.phi_kernel_ p.ctx_ p.dev_ctx_ attrs
        default_attrs
    else FuncStep renv p.op_ p.ctx_ p.func_ p.dev_ctx_ attrs default_attrs)

/-- The post-compute hooks of a run in which none of them throws, as a
    function of the build, the flags, the op type, the key, the device context
    and the outputs the kernel left: the scan iff `FLAGS_check_nan_inf`, the
    wait iff `FLAGS_benchmark` (followed by the read of the last device error
    in a CUDA or HIP build), the repair iff the key's dtype is complex. -/
def HookSequence {V : Type} (b : BuildConfig) (fl : GlobalFlags) (renv : RunEnv V)
    (op_type : String) (kernel_key : KernelKey) (dev_ctx : DeviceContext)
    (outs : NameVarMap V) : List (RunEvent V) :=
  (if fl.FLAGS_check_nan_inf then [RunEvent.CheckNanInf op_type outs dev_ctx.GetPlace]
    else []) ++
  ((if fl.FLAGS_benchmark then
      RunEvent.Wait dev_ctx ::
        (if b.PADDLE_WITH_CUDA || b.PADDLE_WITH_HIP then [RunEvent.GpuGetLastError dev_ctx]
          else [])
    else []) ++
  (if renv.IsComplexType_phi kernel_key.dtype then
      [RunEvent.HandleComplexGradToRealGrad outs]
    else []))

/-- The position of an event in the order of the statements of `Run`. -/
def RunEvent.step {V : Type} (e : RunEvent V) : Nat :=
  match e with
  | .InferShape _ _ => 0
  | .PreparePhiData _ _ _ => 1
  | .InvokeFunc _ _ => 2
  | .InvokeKernelContext _ _ => 2
  | .InvokeExecutionContext _ _ => 2
  | .CheckNanInf _ _ _ => 3
  | .Wait _ => 4
  | .GpuGetLastError _ => 5
  | .HandleComplexGradToRealGrad _ => 6

/-- The event is the NaN/Inf scan. -/
def RunEvent.isCheckNanInf {V : Type} (e : RunEvent V) : Bool :=
  match e with
  | .CheckNanInf _ _ _ => true
  | _ => false

/-- The event is the wait for the device context. -/
def RunEvent.isWait {V : Type} (e : RunEvent V) : Bool :=
  match e with
  | .Wait _ => true
  | _ => false

/-- The state `t` continues `s` by the events of `L`, in order, up to the
    first throw: by all of them when `t` holds no exception. -/
def RunState.Performs {V : Type} (t s : RunState V) (L : List (RunEvent V)) : Prop :=
  ∃ done : List (RunEvent V),
    t.trace = s.trace ++ done ∧ done <+: L ∧ (t.exception = none → done = L)

/-- Sample flags: the NaN/Inf scan and the benchmark wait are on. -/
def checkAndBenchmarkFlags : GlobalFlags :=
  { noFlags with FLAGS_check_nan_inf := true, FLAGS_benchmark := true }

/-- A sample run environment in which the NaN/Inf scan finds a NaN. -/
def nanRunEnv : RunEnv SampleVar :=
  { sampleRunEnv false with
    CheckOpHasNanOrInfInDygraph := fun _ _ _ => some { what := "nan or inf found" } }

/-- What the collaborator called by an event answers: the exception it
    throws, if any.  Shape inference, the scan, the wait and the read of the
    last device error answer through the run environment; calling a null
    legacy function throws; the other calls return. -/
def RunEvent.thrown {V : Type} (renv : RunEnv V) (e : RunEvent V) : Option Thrown :=
  match e with
  | .InferShape op ctx => (renv.infer_shape_ op ctx).2
  | .InvokeFunc none _ => some { what := "bad_function_call" }
  | .CheckNanInf op_type outs place =>
    renv.CheckOpHasNanOrInfInDygraph op_type outs place
  | .Wait dev_ctx => renv.Wait dev_ctx
  | .GpuGetLastError dev_ctx => renv.GpuGetLastError dev_ctx
  | _ => none

/-- The events of a sequence up to and including the first one that throws;
    the whole sequence when none throws. -/
def StopAtFirstThrow {V : Type} (renv : RunEnv V) : List (RunEvent V) → List (RunEvent V)
  | [] => []
  | e :: es =>
    match e.thrown renv with
    | some _ => [e]
    | none => e :: StopAtFirstThrow renv es

/-- The exception of the first event of a sequence that throws, if any. -/
def FirstThrown {V : Type} (renv : RunEnv V) : List (RunEvent V) → Option Thrown
  | [] => none
  | e :: es =>
    match e.thrown renv with
    | some t => some t
    | none => FirstThrown renv es

/-- The state `t` continues `s` by the events of `L` up to and including the
    first that throws, and holds the exception that event threw. -/
def RunState.Stops {V : Type} (renv : RunEnv V) (t s : RunState V)
    (L : List (RunEvent V)) : Prop :=
  t.trace = s.trace ++ StopAtFirstThrow renv L ∧ t.exception = FirstThrown renv L

/-- A sample run environment in which the wait for the device context reports
    a device failure. -/
def waitFailsRunEnv : RunEnv SampleVar :=
  { sampleRunEnv false with Wait := fun _ => some { what := "device failure" } }

/-- The descriptor that the specification calls "the (possibly
    CPU-substituted) descriptor", written out from the descriptor `d0` translated from the key:
    for a KP-supported op at an XPU place in a KP build, `d0` under the KP
    library; else `d0` with its place replaced by `CPUPlace` when `d0` targets
    an XPU in an XPU build and the table has no entry at `d0` or the op is
    XPU-unsupported, or targets an IPU or a custom device in a build with that
    support and the table has no entry at `d0`; else `d0` itself. -/
def SubstitutedDescriptor (b : BuildConfig) (is_xpu_unsupport is_xpu_kp_support : Bool)
    (kernels : OpKernelMap) (d0 : OpKernelType) : OpKernelType :=
  if b.PADDLE_WITH_XPU_KP && is_xpu_place d0.place_ && is_xpu_kp_support then
    { d0 with library_type_ := LibraryType.kKP }
  else if
      ((b.PADDLE_WITH_XPU || b.PADDLE_WITH_XPU_KP) && is_xpu_place d0.place_ &&
        ((kernels d0).isNone || is_xpu_unsupport)) ||
      (b.PADDLE_WITH_IPU && (kernels d0).isNone && is_ipu_place d0.place_) ||
      (b.PADDLE_WITH_CUSTOM_DEVICE && (kernels d0).isNone && is_custom_place d0.place_)
  then { d0 with place_ := Place.CPUPlace }
  else d0

/-- A sample build with oneDNN and CUDA support. -/
def dnnlCudaBuild : BuildConfig :=
  { plainBuild with PADDLE_WITH_DNNL := true, PADDLE_WITH_CUDA := true }

/-- A sample environment in which the operator asks for `cpuKey`, does not
    fall back from oneDNN, and its oneDNN probe approves every dtype; the
    cuDNN probe answers `cudnn`. -/
def onednnEnv (cudnn : Bool) : Env Unit :=
  { sampleEnv cpuKey (phiAt [] sampleFn) convSig noLegacy true false with
    DnnFallback := fun _ => false
    CanMKLDNNBeUsed := fun _ _ _ => true
    CanCUDNNBeUsed := fun _ _ _ => cudnn }

/-- The key ONEDNN / ONEDNN / float32. -/
def onednnKey : KernelKey :=
  { backend := .ONEDNN, layout := .ONEDNN, dtype := .FLOAT32 }

/-! ## Theorems -/

/-- `Prepare` is the fallback chain run on the resolved locals. -/
theorem Prepare_result {V : Type} (b : BuildConfig) (fl : GlobalFlags) (env : Env V)
    (ins outs : NameVarMap V) (op : OperatorWithKernel) (place : Place)
    (attrs default_attrs : AttributeMap) :
    (PreparedOp.Prepare b fl env ins outs op place attrs default_attrs).result =
      SelectFrom b fl env env.KernelFactory_Instance
        (ResolvedOf b fl env ins outs op place attrs default_attrs) := rfl

/-- Replacing the legacy tables changes none of the resolved locals. -/
theorem ResolvedOf_withLegacy {V : Type} (b : BuildConfig) (fl : GlobalFlags)
    (env : Env V) (legacy : String → Option OpKernelMap)
    (ins outs : NameVarMap V) (op : OperatorWithKernel) (place : Place)
    (attrs default_attrs : AttributeMap) :
    ResolvedOf b fl (env.withLegacy legacy) ins outs op place attrs default_attrs =
      ResolvedOf b fl env ins outs op place attrs default_attrs := rfl

/-- Tier 1 of the chain: a signature, a valid kernel at the resolved key and no
    XPU guard give the unified result. -/
theorem SelectFrom_tier1 {V : Type} (b : BuildConfig) (fl : GlobalFlags) (env : Env V)
    (pkf : KernelFactory) (r : Resolved)
    (hsig : r.sig.has_phi_kernel = true)
    (hvalid : (pkf.SelectKernel r.sig.kernel_signature.name r.expected_kernel_key).IsValid
      = true)
    (hguard : XpuGuard b r.is_xpu_unsupport = false) :
    SelectFrom b fl env pkf r =
      Except.ok
        (PreparedOp.mkPhi r.op empty_ctx r.expected_kernel_key r.sig.arg_map_fn
          r.sig.default_kernel_signature r.sig.kernel_signature
          (pkf.SelectKernel r.sig.kernel_signature.name r.expected_kernel_key)
          (PhiDevCtx env r.expected_kernel_key r.dev_ctx)) := by
  unfold SelectFrom
  simp [hsig, hvalid, hguard]

/-- C1 (as stated, refuted): in an XPU build the op `conv` has the signature
    `conv2d`, the factory has a valid kernel at the resolved XPU key, and
    `Prepare` still returns the legacy CPU kernel, because the XPU support list
    rejects the op. -/
theorem C1_counterexample :
    (ResolvedOf xpuBuild noFlags
        (sampleEnv xpuKey (phiAt [xpuKey] sampleFn) convSig
          (legacyAt [(cpuDesc, { handle := 8 })]) false false)
        [] [] convOp (Place.XPUPlace 0) [] []).sig.has_phi_kernel = true ∧
    ((phiAt [xpuKey] sampleFn) "conv2d" xpuKey).IsValid = true ∧
    (ResolvedOf xpuBuild noFlags
        (sampleEnv xpuKey (phiAt [xpuKey] sampleFn) convSig
          (legacyAt [(cpuDesc, { handle := 8 })]) false false)
        [] [] convOp (Place.XPUPlace 0) [] []).expected_kernel_key = xpuKey ∧
    (PreparedOp.Prepare xpuBuild noFlags
        (sampleEnv xpuKey (phiAt [xpuKey] sampleFn) convSig
          (legacyAt [(cpuDesc, { handle := 8 })]) false false)
        [] [] convOp (Place.XPUPlace 0) [] []).result =
      Except.ok
        (PreparedOp.mkLegacy convOp empty_ctx cpuKey { handle := 8 } none
          (some (KernelSignature.ofName "conv2d")) (samplePool Place.CPUPlace)) := by
  decide

/-- C1 (amended): when a unified signature is resolved and the factory's
    `SelectKernel(signature name, resolved key)` is valid, `Prepare` returns the
    unified `PreparedOp` for exactly that kernel, key and signature, whatever
    the legacy tables hold, unless the build has XPU without KP and the XPU
    unsupported-op predicate holds for the op. -/
theorem C1_unified_first {V : Type} (b : BuildConfig) (fl : GlobalFlags) (env : Env V)
    (legacy : String → Option OpKernelMap)
    (ins outs : NameVarMap V) (op : OperatorWithKernel) (place : Place)
    (attrs default_attrs : AttributeMap) (r : Resolved)
    (hr : r = ResolvedOf b fl env ins outs op place attrs default_attrs)
    (hsig : r.sig.has_phi_kernel = true)
    (hvalid : (env.KernelFactory_Instance.SelectKernel r.sig.kernel_signature.name
      r.expected_kernel_key).IsValid = true)
    (hguard : ¬ (b.PADDLE_WITH_XPU = true ∧ b.PADDLE_WITH_XPU_KP = false ∧
      r.is_xpu_unsupport = true)) :
    (PreparedOp.Prepare b fl (env.withLegacy legacy) ins outs op place attrs
        default_attrs).result =
      Except.ok
        { op_ := r.op
          ctx_ := empty_ctx
          kernel_key_ := r.expected_kernel_key
          func_ := none
          dev_ctx_ := PhiDevCtx env r.expected_kernel_key r.dev_ctx
          run_phi_kernel_ := true
          arg_map_fn_ := r.sig.arg_map_fn
          default_kernel_signature_ := r.sig.default_kernel_signature
          kernel_signature_ := r.sig.kernel_signature
          phi_kernel_ := env.KernelFactory_Instance.SelectKernel
            r.sig.kernel_signature.name r.expected_kernel_key } := by
  rw [Prepare_result, ResolvedOf_withLegacy, ← hr]
  have hg : XpuGuard b r.is_xpu_unsupport = false := by
    unfold XpuGuard
    cases h1 : b.PADDLE_WITH_XPU <;> cases h2 : b.PADDLE_WITH_XPU_KP <;>
      cases h3 : r.is_xpu_unsupport <;> simp_all
  exact SelectFrom_tier1 b fl (env.withLegacy legacy) env.KernelFactory_Instance r hsig
    hvalid hg

/-- Witness for C1 (amended): with the XPU support list accepting `conv`, the
    valid XPU unified kernel is returned although a legacy kernel is registered
    for the same descriptor. -/
theorem C1_unified_first_witness :
    (PreparedOp.Prepare xpuBuild noFlags
        ((sampleEnv xpuKey (phiAt [xpuKey] sampleFn) convSig noLegacy true false).withLegacy
          (legacyAt [(xpuDesc, { handle := 7 })]))
        [] [] convOp (Place.XPUPlace 0) [] []).result =
      Except.ok
        { op_ := convOp
          ctx_ := empty_ctx
          kernel_key_ := xpuKey
          func_ := none
          dev_ctx_ := samplePool (Place.XPUPlace 0)
          run_phi_kernel_ := true
          arg_map_fn_ := none
          default_kernel_signature_ := some (KernelSignature.ofName "conv2d")
          kernel_signature_ := KernelSignature.ofName "conv2d"
          phi_kernel_ := { fn := some 2, kernel_registered_type := .FUNCTION } } :=
  C1_unified_first xpuBuild noFlags
    (sampleEnv xpuKey (phiAt [xpuKey] sampleFn) convSig noLegacy true false)
    (legacyAt [(xpuDesc, { handle := 7 })]) [] [] convOp (Place.XPUPlace 0) [] []
    (ResolvedOf xpuBuild noFlags
      (sampleEnv xpuKey (phiAt [xpuKey] sampleFn) convSig noLegacy true false)
      [] [] convOp (Place.XPUPlace 0) [] [])
    rfl (by decide) (by decide) (by decide)

/-- The attribute overwrite keeps the operator's type name. -/
theorem OverwriteOpAttrs_Type (b : BuildConfig) (fl : GlobalFlags)
    (op : OperatorWithKernel) (attrs default_attrs : AttributeMap) :
    (OverwriteOpAttrs b fl op attrs default_attrs).Type_ = op.Type_ := by
  unfold OverwriteOpAttrs
  split <;> rfl

/-- The resolved operator has the type name of the invocation's operator. -/
theorem ResolvedOf_op_Type {V : Type} (b : BuildConfig) (fl : GlobalFlags) (env : Env V)
    (ins outs : NameVarMap V) (op : OperatorWithKernel) (place : Place)
    (attrs default_attrs : AttributeMap) :
    (ResolvedOf b fl env ins outs op place attrs default_attrs).op.Type_ = op.Type_ :=
  OverwriteOpAttrs_Type b fl op attrs default_attrs

/-- The resolved context is the pool's context for the invocation's place. -/
theorem ResolvedOf_dev_ctx {V : Type} (b : BuildConfig) (fl : GlobalFlags) (env : Env V)
    (ins outs : NameVarMap V) (op : OperatorWithKernel) (place : Place)
    (attrs default_attrs : AttributeMap) :
    (ResolvedOf b fl env ins outs op place attrs default_attrs).dev_ctx =
      env.DeviceContextPool_Get place := rfl

/-- Without `PADDLE_WITH_XPU_KP` the KP override leaves the key alone. -/
theorem PhiKpKey_noKP {V : Type} (b : BuildConfig) (fl : GlobalFlags) (env : Env V)
    (pkf : KernelFactory) (op : OperatorWithKernel) (n : String) (k : KernelKey)
    (hkp : b.PADDLE_WITH_XPU_KP = false) : PhiKpKey b fl env pkf op n k = k := by
  unfold PhiKpKey
  simp [hkp]

/-- Without `PADDLE_WITH_XPU_KP`, `is_xpu_unsupport` is the XPU predicate at the
    resolved key. -/
theorem ResolvedOf_unsupport_noKP {V : Type} (b : BuildConfig) (fl : GlobalFlags)
    (env : Env V) (ins outs : NameVarMap V) (op : OperatorWithKernel) (place : Place)
    (attrs default_attrs : AttributeMap) (hkp : b.PADDLE_WITH_XPU_KP = false) :
    (ResolvedOf b fl env ins outs op place attrs default_attrs).is_xpu_unsupport =
      IsXpuUnsupport b env (ResolvedOf b fl env ins outs op place attrs default_attrs).op
        (ResolvedOf b fl env ins outs op place attrs default_attrs).expected_kernel_key := by
  simp only [ResolvedOf, Resolve, PhiKpKey_noKP _ _ _ _ _ _ _ hkp, ite_self]

/-- Without `PADDLE_WITH_XPU_KP` the legacy phase holds the resolved key. -/
theorem LegacyKpSupport_noKP {V : Type} (b : BuildConfig) (fl : GlobalFlags) (env : Env V)
    (op : OperatorWithKernel) (k : KernelKey) (hkp : b.PADDLE_WITH_XPU_KP = false) :
    LegacyKpSupport b fl env op k = false := by
  unfold LegacyKpSupport
  simp [hkp]

/-- When the op is not KP-supported the legacy phase holds the resolved key. -/
theorem LegacyPhaseKey_of_not_kp {V : Type} (b : BuildConfig) (fl : GlobalFlags)
    (env : Env V) (r : Resolved)
    (hkp : LegacyKpSupport b fl env r.op r.expected_kernel_key = false) :
    LegacyPhaseKey b fl env r = r.expected_kernel_key := by
  unfold LegacyPhaseKey LegacyKpKey
  simp [hkp]

/-- Tier 2 of the chain: tier 1 not taken, no usable legacy kernel at the
    descriptor, and a valid unified kernel at the CPU-degraded key. -/
theorem SelectFrom_cpu {V : Type} (b : BuildConfig) (fl : GlobalFlags) (env : Env V)
    (pkf : KernelFactory) (r : Resolved)
    (h1 : (r.sig.has_phi_kernel &&
      ((pkf.SelectKernel r.sig.kernel_signature.name r.expected_kernel_key).IsValid &&
        !XpuGuard b r.is_xpu_unsupport)) = false)
    (hmiss : LegacyMissing b (env.AllOpKernels r.op.Type_) (FluidKernelType b fl env r)
      r.is_xpu_unsupport (LegacyKpSupport b fl env r.op r.expected_kernel_key) = true)
    (hsig : r.sig.has_phi_kernel = true)
    (hcpu : (pkf.SelectKernel r.sig.kernel_signature.name
      (PhiCpuKernelKey b fl env r)).IsValid = true) :
    SelectFrom b fl env pkf r =
      Except.ok
        (PreparedOp.mkPhi r.op empty_ctx (PhiCpuKernelKey b fl env r) r.sig.arg_map_fn
          r.sig.default_kernel_signature r.sig.kernel_signature
          (pkf.SelectKernel r.sig.kernel_signature.name (PhiCpuKernelKey b fl env r))
          (env.DeviceContextPool_Get Place.CPUPlace)) := by
  unfold SelectFrom
  dsimp only
  rw [if_neg (by rw [h1]; exact Bool.false_ne_true)]
  rw [if_pos (by rw [hmiss, hsig, hcpu]; rfl)]

/-- Tiers 3 and 4 of the chain: neither unified tier taken. -/
theorem SelectFrom_legacy {V : Type} (b : BuildConfig) (fl : GlobalFlags) (env : Env V)
    (pkf : KernelFactory) (r : Resolved)
    (h1 : (r.sig.has_phi_kernel &&
      ((pkf.SelectKernel r.sig.kernel_signature.name r.expected_kernel_key).IsValid &&
        !XpuGuard b r.is_xpu_unsupport)) = false)
    (h2 : (LegacyMissing b (env.AllOpKernels r.op.Type_) (FluidKernelType b fl env r)
        r.is_xpu_unsupport (LegacyKpSupport b fl env r.op r.expected_kernel_key) &&
      (r.sig.has_phi_kernel &&
        (pkf.SelectKernel r.sig.kernel_signature.name
          (PhiCpuKernelKey b fl env r)).IsValid)) = false) :
    SelectFrom b fl env pkf r =
      LegacySelect b env r (LegacyKpSupport b fl env r.op r.expected_kernel_key)
        (FluidKernelType b fl env r) := by
  unfold SelectFrom
  dsimp only
  rw [if_neg (by rw [h1]; exact Bool.false_ne_true)]
  rw [if_neg (by rw [h2]; exact Bool.false_ne_true)]

/-- The legacy tier never yields a unified result. -/
theorem LegacySelect_not_phi {V : Type} (b : BuildConfig) (env : Env V) (r : Resolved)
    (kp : Bool) (t : OpKernelType) (p : PreparedOp)
    (h : LegacySelect b env r kp t = Except.ok p) : p.run_phi_kernel_ = false := by
  unfold LegacySelect at h
  split at h
  · cases h
  · simp only at h
    split at h
    · cases h
    · cases h
      rfl

/-- C2 (as stated, refuted): the unified kernel of `conv2d` is missing at the
    resolved XPU key and valid at the CPU-degraded key, a legacy kernel is
    registered for the original XPU descriptor, and `Prepare` returns that
    legacy kernel, not the CPU-degraded unified kernel. -/
theorem C2_counterexample :
    (ResolvedOf xpuBuild noFlags
        (sampleEnv xpuKey (phiAt [cpuKey] sampleFn) convSig
          (legacyAt [(xpuDesc, { handle := 7 })]) true false)
        [] [] convOp (Place.XPUPlace 0) [] []).expected_kernel_key = xpuKey ∧
    ((phiAt [cpuKey] sampleFn) "conv2d" xpuKey).IsValid = false ∧
    PhiCpuKernelKey xpuBuild noFlags
        (sampleEnv xpuKey (phiAt [cpuKey] sampleFn) convSig
          (legacyAt [(xpuDesc, { handle := 7 })]) true false)
        (ResolvedOf xpuBuild noFlags
          (sampleEnv xpuKey (phiAt [cpuKey] sampleFn) convSig
            (legacyAt [(xpuDesc, { handle := 7 })]) true false)
          [] [] convOp (Place.XPUPlace 0) [] []) = cpuKey ∧
    ((phiAt [cpuKey] sampleFn) "conv2d" cpuKey).IsValid = true ∧
    (PreparedOp.Prepare xpuBuild noFlags
        (sampleEnv xpuKey (phiAt [cpuKey] sampleFn) convSig
          (legacyAt [(xpuDesc, { handle := 7 })]) true false)
        [] [] convOp (Place.XPUPlace 0) [] []).result =
      Except.ok
        (PreparedOp.mkLegacy convOp empty_ctx xpuKey { handle := 7 } none
          (some (KernelSignature.ofName "conv2d")) (samplePool (Place.XPUPlace 0))) := by
  decide

/-- C2 (amended): when a signature is resolved, the unified kernel at the
    resolved key is invalid and the unified kernel of the same name at the
    CPU-degraded key is valid, `Prepare` returns that CPU-degraded unified kernel
    exactly when the condition of source lines 338-347 holds: the op's legacy
    table has no entry for the descriptor translated from the resolved key, or
    the XPU unsupported-op predicate applies.  It is then ahead of every
    CPU-substituted legacy kernel; a legacy kernel registered for the original
    descriptor is selected before it. -/
theorem C2_unified_cpu_before_substituted_legacy {V : Type} (b : BuildConfig)
    (fl : GlobalFlags) (env : Env V) (ins outs : NameVarMap V)
    (op : OperatorWithKernel) (place : Place) (attrs default_attrs : AttributeMap)
    (r : Resolved)
    (hr : r = ResolvedOf b fl env ins outs op place attrs default_attrs)
    (hsig : r.sig.has_phi_kernel = true)
    (hinvalid : (env.KernelFactory_Instance.SelectKernel r.sig.kernel_signature.name
      r.expected_kernel_key).IsValid = false)
    (hcpu : (env.KernelFactory_Instance.SelectKernel r.sig.kernel_signature.name
      (PhiCpuKernelKey b fl env r)).IsValid = true) :
    (PreparedOp.Prepare b fl env ins outs op place attrs default_attrs).result =
        Except.ok
          { op_ := r.op
            ctx_ := empty_ctx
            kernel_key_ := PhiCpuKernelKey b fl env r
            func_ := none
            dev_ctx_ := env.DeviceContextPool_Get Place.CPUPlace
            run_phi_kernel_ := true
            arg_map_fn_ := r.sig.arg_map_fn
            default_kernel_signature_ := r.sig.default_kernel_signature
            kernel_signature_ := r.sig.kernel_signature
            phi_kernel_ := env.KernelFactory_Instance.SelectKernel
              r.sig.kernel_signature.name (PhiCpuKernelKey b fl env r) }
      ↔ LegacyMissing b (env.AllOpKernels r.op.Type_) (FluidKernelType b fl env r)
          r.is_xpu_unsupport (LegacyKpSupport b fl env r.op r.expected_kernel_key)
        = true := by
  rw [Prepare_result, ← hr]
  have h1 : (r.sig.has_phi_kernel &&
      ((env.KernelFactory_Instance.SelectKernel r.sig.kernel_signature.name
          r.expected_kernel_key).IsValid && !XpuGuard b r.is_xpu_unsupport)) = false := by
    simp [hinvalid]
  constructor
  · intro h
    by_contra hm
    have hm2 : LegacyMissing b (env.AllOpKernels r.op.Type_) (FluidKernelType b fl env r)
        r.is_xpu_unsupport (LegacyKpSupport b fl env r.op r.expected_kernel_key)
        = false := by
      simpa using hm
    have h2 := SelectFrom_legacy b fl env env.KernelFactory_Instance r h1 (by simp [hm2])
    rw [h2] at h
    have := LegacySelect_not_phi b env r _ _ _ h
    simp at this
  · intro hm
    exact SelectFrom_cpu b fl env env.KernelFactory_Instance r h1 hm hsig hcpu

/-- Witness for C2 (amended): with no legacy kernel at the XPU descriptor, the
    CPU-degraded unified kernel is returned ahead of the legacy CPU kernel. -/
theorem C2_unified_cpu_before_substituted_legacy_witness :
    (PreparedOp.Prepare xpuBuild noFlags
        (sampleEnv xpuKey (phiAt [cpuKey] sampleFn) convSig
          (legacyAt [(cpuDesc, { handle := 8 })]) true false)
        [] [] convOp (Place.XPUPlace 0) [] []).result =
      Except.ok
        { op_ := convOp
          ctx_ := empty_ctx
          kernel_key_ := cpuKey
          func_ := none
          dev_ctx_ := samplePool Place.CPUPlace
          run_phi_kernel_ := true
          arg_map_fn_ := none
          default_kernel_signature_ := some (KernelSignature.ofName "conv2d")
          kernel_signature_ := KernelSignature.ofName "conv2d"
          phi_kernel_ := { fn := some 1, kernel_registered_type := .FUNCTION } } :=
  (C2_unified_cpu_before_substituted_legacy xpuBuild noFlags
    (sampleEnv xpuKey (phiAt [cpuKey] sampleFn) convSig
      (legacyAt [(cpuDesc, { handle := 8 })]) true false)
    [] [] convOp (Place.XPUPlace 0) [] []
    (ResolvedOf xpuBuild noFlags
      (sampleEnv xpuKey (phiAt [cpuKey] sampleFn) convSig
        (legacyAt [(cpuDesc, { handle := 8 })]) true false)
      [] [] convOp (Place.XPUPlace 0) [] [])
    rfl (by decide) (by decide) (by decide)).mpr (by decide)

/-- The CPU-substituted descriptor has the CPU place. -/
theorem onCpu_place (t : OpKernelType) : t.onCpu.place_ = Place.CPUPlace := rfl

/-- After a CPU retry no degradation branch applies any more. -/
theorem CpuRetry_place (kernels : OpKernelMap) (t : OpKernelType) :
    (CpuRetry kernels t).1.place_ = Place.CPUPlace := rfl

/-- A legacy kernel found at the descriptor is kept by every degradation branch
    when the op is neither XPU-unsupported nor KP-supported. -/
theorem LegacyLookup_found (b : BuildConfig) (kernels : OpKernelMap) (t : OpKernelType)
    (f : OpKernelFunc) (hf : kernels t = some f) :
    LegacyLookup b false false kernels t = (t, some f) := by
  unfold LegacyLookup XpuDegrade XpuKpDegrade IpuDegrade CustomDegrade
  simp [hf]

/-- A missing legacy kernel at an accelerator descriptor is retried at the CPU
    descriptor, when the op is not KP-supported. -/
theorem LegacyLookup_accel_missing (b : BuildConfig) (unsup : Bool) (kernels : OpKernelMap)
    (t : OpKernelType) (hacc : AcceleratorTarget b t.place_ = true)
    (hf : kernels t = none) :
    LegacyLookup b unsup false kernels t = CpuRetry kernels t := by
  unfold AcceleratorTarget at hacc
  unfold LegacyLookup XpuDegrade XpuKpDegrade IpuDegrade CustomDegrade
  cases hx : b.PADDLE_WITH_XPU <;> cases hk : b.PADDLE_WITH_XPU_KP <;>
    cases hi : b.PADDLE_WITH_IPU <;> cases hc : b.PADDLE_WITH_CUSTOM_DEVICE <;>
    cases hp : t.place_ <;>
    simp_all [is_xpu_place, is_ipu_place, is_custom_place, CpuRetry, onCpu_place]

/-- The XPU-KP branch leaves a CPU descriptor alone. -/
theorem XpuKpDegrade_cpu (b : BuildConfig) (unsup kp : Bool) (kernels : OpKernelMap)
    (s : LegacyCursor) (h : s.1.place_ = Place.CPUPlace) :
    XpuKpDegrade b unsup kp kernels s = s := by
  unfold XpuKpDegrade
  simp [h, is_xpu_place]

/-- The IPU branch leaves a CPU descriptor alone. -/
theorem IpuDegrade_cpu (b : BuildConfig) (kernels : OpKernelMap)
    (s : LegacyCursor) (h : s.1.place_ = Place.CPUPlace) :
    IpuDegrade b kernels s = s := by
  unfold IpuDegrade
  simp [h, is_ipu_place]

/-- The custom-device branch leaves a CPU descriptor alone. -/
theorem CustomDegrade_cpu (b : BuildConfig) (kernels : OpKernelMap)
    (s : LegacyCursor) (h : s.1.place_ = Place.CPUPlace) :
    CustomDegrade b kernels s = s := by
  unfold CustomDegrade
  simp [h, is_custom_place]

/-- In an XPU build without KP, an XPU-unsupported op at an XPU descriptor is
    retried at the CPU descriptor, whether or not the XPU entry exists. -/
theorem LegacyLookup_xpu_unsupport (b : BuildConfig) (kp : Bool) (kernels : OpKernelMap)
    (t : OpKernelType) (hx : b.PADDLE_WITH_XPU = true)
    (hk : b.PADDLE_WITH_XPU_KP = false) (hp : is_xpu_place t.place_ = true) :
    LegacyLookup b true kp kernels t = CpuRetry kernels t := by
  have h1 : XpuDegrade b true kernels (t, kernels t) = CpuRetry kernels t := by
    unfold XpuDegrade
    simp [hx, hk, hp]
  unfold LegacyLookup
  rw [h1, XpuKpDegrade_cpu _ _ _ _ _ (CpuRetry_place kernels t),
    IpuDegrade_cpu _ _ _ (CpuRetry_place kernels t),
    CustomDegrade_cpu _ _ _ (CpuRetry_place kernels t)]

/-- First failure site: the op has no legacy table. -/
theorem LegacySelect_no_table {V : Type} (b : BuildConfig) (env : Env V) (r : Resolved)
    (kp : Bool) (t : OpKernelType) (h : env.AllOpKernels r.op.Type_ = none) :
    LegacySelect b env r kp t =
      Except.error
        (EnforceNotMet.NotFound
          "There are no kernels which are registered in the %s operator."
          [ErrorArg.str r.op.Type_]) := by
  unfold LegacySelect
  rw [h]

/-- Legacy result: the lookup ends on an entry of the op's table. -/
theorem LegacySelect_found {V : Type} (b : BuildConfig) (env : Env V) (r : Resolved)
    (kp : Bool) (t d : OpKernelType) (kernels : OpKernelMap) (f : OpKernelFunc)
    (h : env.AllOpKernels r.op.Type_ = some kernels)
    (hl : LegacyLookup b r.is_xpu_unsupport kp kernels t = (d, some f)) :
    LegacySelect b env r kp t =
      Except.ok
        (PreparedOp.mkLegacy r.op empty_ctx (env.TransOpKernelTypeToPhiKernelKey d) f
          r.sig.arg_map_fn r.sig.default_kernel_signature
          (LegacyDevCtx env d r.dev_ctx)) := by
  unfold LegacySelect
  rw [h]
  simp only [hl]

/-- Second failure site: the lookup ends on no entry. -/
theorem LegacySelect_missing {V : Type} (b : BuildConfig) (env : Env V) (r : Resolved)
    (kp : Bool) (t d : OpKernelType) (kernels : OpKernelMap)
    (h : env.AllOpKernels r.op.Type_ = some kernels)
    (hl : LegacyLookup b r.is_xpu_unsupport kp kernels t = (d, none)) :
    LegacySelect b env r kp t =
      Except.error
        (EnforceNotMet.NotFound "Operator %s does not have kernel for %s."
          [ErrorArg.str r.op.Type_, ErrorArg.kernelType d]) := by
  unfold LegacySelect
  rw [h]
  simp only [hl]

/-- C3 (as stated, refuted): in an XPU build the op `conv` targets an XPU, the
    first candidate of the documented order (the valid unified XPU kernel)
    exists, so does the second (the legacy XPU kernel), and `Prepare` returns
    the fourth, the legacy CPU kernel, because the XPU support list rejects the
    op. -/
theorem C3_counterexample :
    AcceleratorTarget xpuBuild
        (FluidKernelType xpuBuild noFlags
          (sampleEnv xpuKey (phiAt [xpuKey] sampleFn) convSig
            (legacyAt [(xpuDesc, { handle := 7 }), (cpuDesc, { handle := 8 })]) false false)
          (ResolvedOf xpuBuild noFlags
            (sampleEnv xpuKey (phiAt [xpuKey] sampleFn) convSig
              (legacyAt [(xpuDesc, { handle := 7 }), (cpuDesc, { handle := 8 })]) false
              false)
            [] [] convOp (Place.XPUPlace 0) [] [])).place_ = true ∧
    DocumentedOrder
        (sampleEnv xpuKey (phiAt [xpuKey] sampleFn) convSig
          (legacyAt [(xpuDesc, { handle := 7 }), (cpuDesc, { handle := 8 })]) false false)
        { SelectKernel := phiAt [xpuKey] sampleFn
          HasKernel := fun n k => (phiAt [xpuKey] sampleFn n k).IsValid
          HasStructuredKernel := fun _ => false }
        (ResolvedOf xpuBuild noFlags
          (sampleEnv xpuKey (phiAt [xpuKey] sampleFn) convSig
            (legacyAt [(xpuDesc, { handle := 7 }), (cpuDesc, { handle := 8 })]) false false)
          [] [] convOp (Place.XPUPlace 0) [] []) =
      some (Candidate.unified { fn := some 2, kernel_registered_type := .FUNCTION } xpuKey) ∧
    (PreparedOp.Prepare xpuBuild noFlags
        (sampleEnv xpuKey (phiAt [xpuKey] sampleFn) convSig
          (legacyAt [(xpuDesc, { handle := 7 }), (cpuDesc, { handle := 8 })]) false false)
        [] [] convOp (Place.XPUPlace 0) [] []).result =
      Except.ok
        (PreparedOp.mkLegacy convOp empty_ctx cpuKey { handle := 8 } none
          (some (KernelSignature.ofName "conv2d")) (samplePool Place.CPUPlace)) ∧
    Returns
        (sampleEnv xpuKey (phiAt [xpuKey] sampleFn) convSig
          (legacyAt [(xpuDesc, { handle := 7 }), (cpuDesc, { handle := 8 })]) false false)
        (PreparedOp.Prepare xpuBuild noFlags
          (sampleEnv xpuKey (phiAt [xpuKey] sampleFn) convSig
            (legacyAt [(xpuDesc, { handle := 7 }), (cpuDesc, { handle := 8 })]) false false)
          [] [] convOp (Place.XPUPlace 0) [] []).result
        (some (Candidate.unified { fn := some 2, kernel_registered_type := .FUNCTION }
          xpuKey)) = false := by
  decide

/-- C3 (amended): for every invocation whose legacy descriptor targets an
    accelerator with a CPU degradation branch in the build (XPU, IPU, custom
    device), whose op is not rejected by the XPU unsupported-op predicate and
    is not KP-supported, `Prepare` returns the first candidate that exists in
    the order of the note at source lines 180-182 (unified device, legacy
    device, unified CPU-degraded, legacy CPU), and fails when none exists. -/
theorem C3_documented_order {V : Type} (b : BuildConfig) (fl : GlobalFlags)
    (env : Env V) (ins outs : NameVarMap V) (op : OperatorWithKernel) (place : Place)
    (attrs default_attrs : AttributeMap) (r : Resolved)
    (hr : r = ResolvedOf b fl env ins outs op place attrs default_attrs)
    (hacc : AcceleratorTarget b
      (env.TransPhiKernelKeyToOpKernelType r.expected_kernel_key).place_ = true)
    (hunsup : r.is_xpu_unsupport = false)
    (hkp : LegacyKpSupport b fl env r.op r.expected_kernel_key = false) :
    Returns env (PreparedOp.Prepare b fl env ins outs op place attrs default_attrs).result
      (DocumentedOrder env env.KernelFactory_Instance r) = true := by
  rw [Prepare_result, ← hr]
  have hkey : LegacyPhaseKey b fl env r = r.expected_kernel_key :=
    LegacyPhaseKey_of_not_kp b fl env r hkp
  have hfkt : FluidKernelType b fl env r =
      env.TransPhiKernelKeyToOpKernelType r.expected_kernel_key := by
    unfold FluidKernelType
    rw [hkey]
  have hcpuk : PhiCpuKernelKey b fl env r = env.FallBackToCpu r.expected_kernel_key r.op := by
    unfold PhiCpuKernelKey
    rw [hkey]
  have hguard : XpuGuard b r.is_xpu_unsupport = false := by
    unfold XpuGuard
    simp [hunsup]
  cases h1 : (r.sig.has_phi_kernel &&
      (env.KernelFactory_Instance.SelectKernel r.sig.kernel_signature.name
        r.expected_kernel_key).IsValid)
  · -- no unified kernel at the device key
    have h1g : (r.sig.has_phi_kernel &&
        ((env.KernelFactory_Instance.SelectKernel r.sig.kernel_signature.name
          r.expected_kernel_key).IsValid && !XpuGuard b r.is_xpu_unsupport)) = false := by
      rw [hguard]
      simpa using h1
    cases hc : (r.sig.has_phi_kernel &&
        (env.KernelFactory_Instance.SelectKernel r.sig.kernel_signature.name
          (env.FallBackToCpu r.expected_kernel_key r.op)).IsValid)
    · -- no unified kernel at the CPU-degraded key either
      rw [SelectFrom_legacy b fl env _ r h1g (by rw [hcpuk, hc]; simp), hkp, hfkt]
      cases ht : env.AllOpKernels r.op.Type_ with
      | none =>
        rw [LegacySelect_no_table b env r _ _ ht]
        simp [DocumentedOrder, h1, hc, ht, Returns]
      | some kernels =>
        cases hf : kernels (env.TransPhiKernelKeyToOpKernelType r.expected_kernel_key) with
        | some f =>
          rw [LegacySelect_found b env r _ _
            (env.TransPhiKernelKeyToOpKernelType r.expected_kernel_key) kernels f ht
            (by rw [hunsup]; exact LegacyLookup_found b kernels _ f hf)]
          simp [DocumentedOrder, h1, ht, hf, Returns, PreparedOp.IsBoundTo,
            PreparedOp.mkLegacy]
        | none =>
          have hl := LegacyLookup_accel_missing b r.is_xpu_unsupport kernels _ hacc hf
          cases hf2 : kernels
              (env.TransPhiKernelKeyToOpKernelType r.expected_kernel_key).onCpu with
          | some f =>
            rw [LegacySelect_found b env r _ _
              (env.TransPhiKernelKeyToOpKernelType r.expected_kernel_key).onCpu kernels f ht
              (by rw [hl]; unfold CpuRetry; rw [hf2])]
            simp [DocumentedOrder, h1, hc, ht, hf, hf2, Returns, PreparedOp.IsBoundTo,
              PreparedOp.mkLegacy]
          | none =>
            rw [LegacySelect_missing b env r _ _
              (env.TransPhiKernelKeyToOpKernelType r.expected_kernel_key).onCpu kernels ht
              (by rw [hl]; unfold CpuRetry; rw [hf2])]
            simp [DocumentedOrder, h1, hc, ht, hf, hf2, Returns]
    · -- a valid unified kernel at the CPU-degraded key
      have hsig : r.sig.has_phi_kernel = true := by
        cases hs : r.sig.has_phi_kernel
        · rw [hs] at hc
          simp at hc
        · rfl
      have hcv : (env.KernelFactory_Instance.SelectKernel r.sig.kernel_signature.name
          (env.FallBackToCpu r.expected_kernel_key r.op)).IsValid = true := by
        rw [hsig] at hc
        simpa using hc
      cases hm : LegacyMissing b (env.AllOpKernels r.op.Type_)
          (env.TransPhiKernelKeyToOpKernelType r.expected_kernel_key) r.is_xpu_unsupport false
      · -- a legacy kernel at the device descriptor goes first
        rw [SelectFrom_legacy b fl env _ r h1g (by rw [hkp, hfkt, hm]; simp), hkp, hfkt]
        unfold LegacyMissing at hm
        rw [hunsup] at hm
        cases ht : env.AllOpKernels r.op.Type_ with
        | none => rw [ht] at hm; simp at hm
        | some kernels =>
          rw [ht] at hm
          cases hf : kernels (env.TransPhiKernelKeyToOpKernelType r.expected_kernel_key) with
          | none => simp [hf] at hm
          | some f =>
            rw [LegacySelect_found b env r _ _
              (env.TransPhiKernelKeyToOpKernelType r.expected_kernel_key) kernels f ht
              (by rw [hunsup]; exact LegacyLookup_found b kernels _ f hf)]
            simp [DocumentedOrder, h1, ht, hf, Returns, PreparedOp.IsBoundTo,
              PreparedOp.mkLegacy]
      · rw [SelectFrom_cpu b fl env _ r h1g (by rw [hkp, hfkt, hm]) hsig
          (by rw [hcpuk]; exact hcv), hcpuk]
        unfold LegacyMissing at hm
        rw [hunsup] at hm
        have hnone : (match env.AllOpKernels r.op.Type_ with
            | some kernels =>
              kernels (env.TransPhiKernelKeyToOpKernelType r.expected_kernel_key)
            | none => none) = none := by
          cases ht : env.AllOpKernels r.op.Type_ with
          | none => rfl
          | some kernels =>
            rw [ht] at hm
            simpa using hm
        simp [DocumentedOrder, h1, hc, hnone, Returns, PreparedOp.IsBoundTo,
          PreparedOp.mkPhi]
  · -- a valid unified kernel at the device key
    have hsig : r.sig.has_phi_kernel = true := by
      cases hs : r.sig.has_phi_kernel
      · rw [hs] at h1
        simp at h1
      · rfl
    have hv : (env.KernelFactory_Instance.SelectKernel r.sig.kernel_signature.name
        r.expected_kernel_key).IsValid = true := by
      rw [hsig] at h1
      simpa using h1
    rw [SelectFrom_tier1 b fl env _ r hsig hv hguard]
    simp [DocumentedOrder, h1, Returns, PreparedOp.IsBoundTo, PreparedOp.mkPhi]

/-- Witness for C3 (amended): an XPU-supported op with no unified kernel and no
    legacy XPU kernel gets the fourth candidate, the legacy CPU kernel. -/
theorem C3_documented_order_witness :
    Returns
        (sampleEnv xpuKey (phiAt [] sampleFn) convSig
          (legacyAt [(cpuDesc, { handle := 8 })]) true false)
        (PreparedOp.Prepare xpuBuild noFlags
          (sampleEnv xpuKey (phiAt [] sampleFn) convSig
            (legacyAt [(cpuDesc, { handle := 8 })]) true false)
          [] [] convOp (Place.XPUPlace 0) [] []).result
        (DocumentedOrder
          (sampleEnv xpuKey (phiAt [] sampleFn) convSig
            (legacyAt [(cpuDesc, { handle := 8 })]) true false)
          (sampleEnv xpuKey (phiAt [] sampleFn) convSig
            (legacyAt [(cpuDesc, { handle := 8 })]) true false).KernelFactory_Instance
          (ResolvedOf xpuBuild noFlags
            (sampleEnv xpuKey (phiAt [] sampleFn) convSig
              (legacyAt [(cpuDesc, { handle := 8 })]) true false)
            [] [] convOp (Place.XPUPlace 0) [] [])) = true ∧
    DocumentedOrder
        (sampleEnv xpuKey (phiAt [] sampleFn) convSig
          (legacyAt [(cpuDesc, { handle := 8 })]) true false)
        (sampleEnv xpuKey (phiAt [] sampleFn) convSig
          (legacyAt [(cpuDesc, { handle := 8 })]) true false).KernelFactory_Instance
        (ResolvedOf xpuBuild noFlags
          (sampleEnv xpuKey (phiAt [] sampleFn) convSig
            (legacyAt [(cpuDesc, { handle := 8 })]) true false)
          [] [] convOp (Place.XPUPlace 0) [] []) =
      some (Candidate.legacy { handle := 8 } cpuDesc) :=
  ⟨C3_documented_order xpuBuild noFlags
    (sampleEnv xpuKey (phiAt [] sampleFn) convSig
      (legacyAt [(cpuDesc, { handle := 8 })]) true false)
    [] [] convOp (Place.XPUPlace 0) [] []
    (ResolvedOf xpuBuild noFlags
      (sampleEnv xpuKey (phiAt [] sampleFn) convSig
        (legacyAt [(cpuDesc, { handle := 8 })]) true false)
      [] [] convOp (Place.XPUPlace 0) [] [])
    rfl (by decide) (by decide) (by decide), by decide⟩

/-- C4 (as stated, refuted): in an XPU build the resolved key of `conv` has
    backend XPU, the XPU support list rejects the op, the legacy table has an
    entry for the CPU-substituted descriptor, and `Prepare` returns the valid
    CPU-degraded unified kernel, not the CPU legacy kernel. -/
theorem C4_counterexample :
    (ResolvedOf xpuBuild noFlags
        (sampleEnv xpuKey (phiAt [cpuKey] sampleFn) convSig
          (legacyAt [(cpuDesc, { handle := 8 })]) false false)
        [] [] convOp (Place.XPUPlace 0) [] []).expected_kernel_key.backend = Backend.XPU ∧
    (sampleEnv xpuKey (phiAt [cpuKey] sampleFn) convSig
        (legacyAt [(cpuDesc, { handle := 8 })]) false false).is_xpu_support_op "conv"
        DataType.FLOAT32 = false ∧
    (legacyAt [(cpuDesc, { handle := 8 })] "conv").bind (fun kernels => kernels xpuDesc.onCpu)
      = some { handle := 8 } ∧
    (PreparedOp.Prepare xpuBuild noFlags
        (sampleEnv xpuKey (phiAt [cpuKey] sampleFn) convSig
          (legacyAt [(cpuDesc, { handle := 8 })]) false false)
        [] [] convOp (Place.XPUPlace 0) [] []).result =
      Except.ok
        (PreparedOp.mkPhi convOp empty_ctx cpuKey none
          (some (KernelSignature.ofName "conv2d")) (KernelSignature.ofName "conv2d")
          { fn := some 1, kernel_registered_type := .FUNCTION }
          (samplePool Place.CPUPlace)) := by
  decide

/-- C4 (amended): in a build with XPU support and without XPU-KP, when the
    resolved key has backend XPU (translated to an XPU place) and
    `is_xpu_support_op(op type, dtype)` is false, and no valid CPU-degraded
    unified kernel is available (no signature, or the kernel at the
    CPU-degraded key is invalid), `Prepare` selects the op's legacy kernel at
    the CPU-substituted descriptor if the legacy table has that entry, and
    otherwise fails. -/
theorem C4_xpu_unsupported_degrades {V : Type} (b : BuildConfig) (fl : GlobalFlags)
    (env : Env V) (ins outs : NameVarMap V) (op : OperatorWithKernel) (place : Place)
    (attrs default_attrs : AttributeMap) (r : Resolved)
    (hr : r = ResolvedOf b fl env ins outs op place attrs default_attrs)
    (hx : b.PADDLE_WITH_XPU = true) (hk : b.PADDLE_WITH_XPU_KP = false)
    (hbackend : r.expected_kernel_key.backend = Backend.XPU)
    (hsupport : env.is_xpu_support_op op.Type_ r.expected_kernel_key.dtype = false)
    (hplace : is_xpu_place
      (env.TransPhiKernelKeyToOpKernelType r.expected_kernel_key).place_ = true)
    (hnocpu : (r.sig.has_phi_kernel &&
      (env.KernelFactory_Instance.SelectKernel r.sig.kernel_signature.name
        (env.FallBackToCpu r.expected_kernel_key r.op)).IsValid) = false) :
    (PreparedOp.Prepare b fl env ins outs op place attrs default_attrs).result =
      match env.AllOpKernels op.Type_ with
      | none =>
        Except.error
          (EnforceNotMet.NotFound
            "There are no kernels which are registered in the %s operator."
            [ErrorArg.str op.Type_])
      | some kernels =>
        match kernels (env.TransPhiKernelKeyToOpKernelType r.expected_kernel_key).onCpu with
        | some func =>
          Except.ok
            { op_ := r.op
              ctx_ := empty_ctx
              kernel_key_ := env.TransOpKernelTypeToPhiKernelKey
                (env.TransPhiKernelKeyToOpKernelType r.expected_kernel_key).onCpu
              func_ := some func
              dev_ctx_ := LegacyDevCtx env
                (env.TransPhiKernelKeyToOpKernelType r.expected_kernel_key).onCpu r.dev_ctx
              run_phi_kernel_ := false
              arg_map_fn_ := r.sig.arg_map_fn
              default_kernel_signature_ := r.sig.default_kernel_signature
              kernel_signature_ := KernelSignature.default
              phi_kernel_ := empty_kernel }
        | none =>
          Except.error
            (EnforceNotMet.NotFound "Operator %s does not have kernel for %s."
              [ErrorArg.str op.Type_,
                ErrorArg.kernelType
                  (env.TransPhiKernelKeyToOpKernelType r.expected_kernel_key).onCpu]) := by
  have hty : r.op.Type_ = op.Type_ := by
    rw [hr]
    exact ResolvedOf_op_Type b fl env ins outs op place attrs default_attrs
  have hunsup : r.is_xpu_unsupport = true := by
    rw [hr, ResolvedOf_unsupport_noKP b fl env ins outs op place attrs default_attrs hk,
      ← hr]
    unfold IsXpuUnsupport
    rw [hty, hx, hbackend, hsupport]
    rfl
  have hkp : LegacyKpSupport b fl env r.op r.expected_kernel_key = false :=
    LegacyKpSupport_noKP b fl env _ _ hk
  have hkey : LegacyPhaseKey b fl env r = r.expected_kernel_key :=
    LegacyPhaseKey_of_not_kp b fl env r hkp
  have hfkt : FluidKernelType b fl env r =
      env.TransPhiKernelKeyToOpKernelType r.expected_kernel_key := by
    unfold FluidKernelType
    rw [hkey]
  have hcpuk : PhiCpuKernelKey b fl env r = env.FallBackToCpu r.expected_kernel_key r.op := by
    unfold PhiCpuKernelKey
    rw [hkey]
  have hguard : XpuGuard b r.is_xpu_unsupport = true := by
    unfold XpuGuard
    rw [hx, hk, hunsup]
    rfl
  rw [Prepare_result, ← hr,
    SelectFrom_legacy b fl env _ r (by rw [hguard]; simp) (by rw [hcpuk, hnocpu]; simp),
    hkp, hfkt, ← hty]
  cases ht : env.AllOpKernels r.op.Type_ with
  | none => exact LegacySelect_no_table b env r _ _ ht
  | some kernels =>
    have hl : LegacyLookup b r.is_xpu_unsupport false kernels
        (env.TransPhiKernelKeyToOpKernelType r.expected_kernel_key) =
        CpuRetry kernels (env.TransPhiKernelKeyToOpKernelType r.expected_kernel_key) := by
      rw [hunsup]
      exact LegacyLookup_xpu_unsupport b false kernels _ hx hk hplace
    cases hf : kernels (env.TransPhiKernelKeyToOpKernelType r.expected_kernel_key).onCpu with
    | some f =>
      simp only [hf]
      exact LegacySelect_found b env r _ _
        (env.TransPhiKernelKeyToOpKernelType r.expected_kernel_key).onCpu kernels f ht
        (by rw [hl]; unfold CpuRetry; rw [hf])
    | none =>
      simp only [hf]
      exact LegacySelect_missing b env r _ _
        (env.TransPhiKernelKeyToOpKernelType r.expected_kernel_key).onCpu kernels ht
        (by rw [hl]; unfold CpuRetry; rw [hf])

/-- Witness for C4 (amended): an XPU-unsupported op without a unified kernel,
    although a legacy XPU kernel is registered, gets the legacy CPU kernel on
    the pool's CPU context. -/
theorem C4_xpu_unsupported_degrades_witness :
    (PreparedOp.Prepare xpuBuild noFlags
        (sampleEnv xpuKey (phiAt [] sampleFn) noSig
          (legacyAt [(xpuDesc, { handle := 7 }), (cpuDesc, { handle := 8 })]) false false)
        [] [] convOp (Place.XPUPlace 0) [] []).result =
      Except.ok
        { op_ := convOp
          ctx_ := empty_ctx
          kernel_key_ := cpuKey
          func_ := some { handle := 8 }
          dev_ctx_ := samplePool Place.CPUPlace
          run_phi_kernel_ := false
          arg_map_fn_ := none
          default_kernel_signature_ := none
          kernel_signature_ := KernelSignature.default
          phi_kernel_ := empty_kernel } :=
  C4_xpu_unsupported_degrades xpuBuild noFlags
    (sampleEnv xpuKey (phiAt [] sampleFn) noSig
      (legacyAt [(xpuDesc, { handle := 7 }), (cpuDesc, { handle := 8 })]) false false)
    [] [] convOp (Place.XPUPlace 0) [] []
    (ResolvedOf xpuBuild noFlags
      (sampleEnv xpuKey (phiAt [] sampleFn) noSig
        (legacyAt [(xpuDesc, { handle := 7 }), (cpuDesc, { handle := 8 })]) false false)
      [] [] convOp (Place.XPUPlace 0) [] [])
    rfl rfl rfl (by decide) (by decide) (by decide) (by decide)

/-- The chain ends in exactly one of its three tiers. -/
theorem SelectFrom_cases {V : Type} (b : BuildConfig) (fl : GlobalFlags) (env : Env V)
    (r : Resolved) :
    (Tier1Taken b env r = true ∧
      SelectFrom b fl env env.KernelFactory_Instance r =
        Except.ok
          (PreparedOp.mkPhi r.op empty_ctx r.expected_kernel_key r.sig.arg_map_fn
            r.sig.default_kernel_signature r.sig.kernel_signature
            (env.KernelFactory_Instance.SelectKernel r.sig.kernel_signature.name
              r.expected_kernel_key)
            (PhiDevCtx env r.expected_kernel_key r.dev_ctx))) ∨
    (Tier1Taken b env r = false ∧ Tier2Taken b fl env r = true ∧
      SelectFrom b fl env env.KernelFactory_Instance r =
        Except.ok
          (PreparedOp.mkPhi r.op empty_ctx (PhiCpuKernelKey b fl env r) r.sig.arg_map_fn
            r.sig.default_kernel_signature r.sig.kernel_signature
            (env.KernelFactory_Instance.SelectKernel r.sig.kernel_signature.name
              (PhiCpuKernelKey b fl env r))
            (env.DeviceContextPool_Get Place.CPUPlace))) ∨
    (Tier1Taken b env r = false ∧ Tier2Taken b fl env r = false ∧
      SelectFrom b fl env env.KernelFactory_Instance r =
        LegacySelect b env r (LegacyKpSupport b fl env r.op r.expected_kernel_key)
          (FluidKernelType b fl env r)) := by
  cases h1 : Tier1Taken b env r
  · cases h2 : Tier2Taken b fl env r
    · right
      right
      exact ⟨rfl, rfl, SelectFrom_legacy b fl env _ r h1 h2⟩
    · right
      left
      refine ⟨rfl, rfl, ?_⟩
      unfold SelectFrom
      dsimp only
      unfold Tier1Taken at h1
      unfold Tier2Taken at h2
      rw [if_neg (by rw [h1]; exact Bool.false_ne_true), if_pos h2]
  · left
    refine ⟨rfl, ?_⟩
    unfold SelectFrom
    dsimp only
    unfold Tier1Taken at h1
    rw [if_pos h1]

/-- Every degradation step keeps the cursor on the table: the second
    component is the table's entry at the first. -/
theorem LegacyLookup_entry (b : BuildConfig) (unsup kp : Bool) (kernels : OpKernelMap)
    (t : OpKernelType) :
    (LegacyLookup b unsup kp kernels t).2 = kernels (LegacyLookup b unsup kp kernels t).1 := by
  have hx : ∀ s : LegacyCursor, s.2 = kernels s.1 →
      (XpuDegrade b unsup kernels s).2 = kernels (XpuDegrade b unsup kernels s).1 := by
    intro s hs
    unfold XpuDegrade
    split
    · rfl
    · exact hs
  have hk : ∀ s : LegacyCursor, s.2 = kernels s.1 →
      (XpuKpDegrade b unsup kp kernels s).2 =
        kernels (XpuKpDegrade b unsup kp kernels s).1 := by
    intro s hs
    unfold XpuKpDegrade
    split
    · cases kp
      · simp only [Bool.false_eq_true, if_false, Bool.not_false, Bool.true_and]
        split
        · rfl
        · exact hs
      · simp only [if_true, Bool.not_true, Bool.false_and, Bool.false_eq_true, if_false]
    · exact hs
  have hi : ∀ s : LegacyCursor, s.2 = kernels s.1 →
      (IpuDegrade b kernels s).2 = kernels (IpuDegrade b kernels s).1 := by
    intro s hs
    unfold IpuDegrade
    split
    · rfl
    · exact hs
  have hc : ∀ s : LegacyCursor, s.2 = kernels s.1 →
      (CustomDegrade b kernels s).2 = kernels (CustomDegrade b kernels s).1 := by
    intro s hs
    unfold CustomDegrade
    split
    · rfl
    · exact hs
  unfold LegacyLookup
  exact hc _ (hi _ (hk _ (hx _ rfl)))

/-- The legacy tier ends at one of its two failure sites or on an entry of the
    op's table. -/
theorem LegacySelect_cases {V : Type} (b : BuildConfig) (env : Env V) (r : Resolved)
    (kp : Bool) (t : OpKernelType) :
    (env.AllOpKernels r.op.Type_ = none ∧
      LegacySelect b env r kp t =
        Except.error
          (EnforceNotMet.NotFound
            "There are no kernels which are registered in the %s operator."
            [ErrorArg.str r.op.Type_])) ∨
    (∃ kernels, env.AllOpKernels r.op.Type_ = some kernels ∧
      (LegacyLookup b r.is_xpu_unsupport kp kernels t).2 = none ∧
      LegacySelect b env r kp t =
        Except.error
          (EnforceNotMet.NotFound "Operator %s does not have kernel for %s."
            [ErrorArg.str r.op.Type_,
              ErrorArg.kernelType (LegacyLookup b r.is_xpu_unsupport kp kernels t).1])) ∨
    (∃ kernels f, env.AllOpKernels r.op.Type_ = some kernels ∧
      (LegacyLookup b r.is_xpu_unsupport kp kernels t).2 = some f ∧
      LegacySelect b env r kp t =
        Except.ok
          (PreparedOp.mkLegacy r.op empty_ctx
            (env.TransOpKernelTypeToPhiKernelKey
              (LegacyLookup b r.is_xpu_unsupport kp kernels t).1) f
            r.sig.arg_map_fn r.sig.default_kernel_signature
            (LegacyDevCtx env (LegacyLookup b r.is_xpu_unsupport kp kernels t).1
              r.dev_ctx))) := by
  cases ht : env.AllOpKernels r.op.Type_ with
  | none =>
    left
    exact ⟨rfl, LegacySelect_no_table b env r kp t ht⟩
  | some kernels =>
    right
    cases hl : (LegacyLookup b r.is_xpu_unsupport kp kernels t).2 with
    | none =>
      left
      exact ⟨kernels, rfl, hl,
        LegacySelect_missing b env r kp t _ kernels ht (Prod.ext rfl hl)⟩
    | some f =>
      right
      exact ⟨kernels, f, rfl, hl,
        LegacySelect_found b env r kp t _ kernels f ht (Prod.ext rfl hl)⟩

/-- C5 (as stated, refuted): in a build with XPU and XPU-KP support the
    KP-white-listed op `conv` targets an XPU, no unified kernel is selected,
    the legacy table has no entry for the accelerator descriptor (with or
    without the KP library) and has one for the same descriptor on the CPU
    place, and `Prepare` fails: the KP branch never substitutes the CPU
    place. -/
theorem C5_counterexample :
    xpuKpBuild.PADDLE_WITH_XPU = true ∧
    FluidKernelType xpuKpBuild noFlags
        (sampleEnv xpuKey (phiAt [] sampleFn) convSig
          (legacyAt [(cpuDesc, { handle := 8 }), (cpuKpDesc, { handle := 9 })]) true true)
        (ResolvedOf xpuKpBuild noFlags
          (sampleEnv xpuKey (phiAt [] sampleFn) convSig
            (legacyAt [(cpuDesc, { handle := 8 }), (cpuKpDesc, { handle := 9 })]) true true)
          [] [] convOp (Place.XPUPlace 0) [] []) = xpuKpDesc ∧
    is_xpu_place xpuKpDesc.place_ = true ∧
    ((legacyAt [(cpuDesc, { handle := 8 }), (cpuKpDesc, { handle := 9 })] "conv").bind
      (fun kernels => kernels xpuKpDesc)) = none ∧
    ((legacyAt [(cpuDesc, { handle := 8 }), (cpuKpDesc, { handle := 9 })] "conv").bind
      (fun kernels => kernels xpuKpDesc.onCpu)) = some { handle := 9 } ∧
    ((legacyAt [(cpuDesc, { handle := 8 }), (cpuKpDesc, { handle := 9 })] "conv").bind
      (fun kernels => kernels xpuDesc)) = none ∧
    ((legacyAt [(cpuDesc, { handle := 8 }), (cpuKpDesc, { handle := 9 })] "conv").bind
      (fun kernels => kernels xpuDesc.onCpu)) = some { handle := 8 } ∧
    (PreparedOp.Prepare xpuKpBuild noFlags
        (sampleEnv xpuKey (phiAt [] sampleFn) convSig
          (legacyAt [(cpuDesc, { handle := 8 }), (cpuKpDesc, { handle := 9 })]) true true)
        [] [] convOp (Place.XPUPlace 0) [] []).result =
      Except.error
        (EnforceNotMet.NotFound "Operator %s does not have kernel for %s."
          [ErrorArg.str "conv", ErrorArg.kernelType xpuKpDesc]) := by
  decide

/-- C5 (amended): for every invocation whose legacy descriptor targets an
    accelerator place (XPU, IPU or custom device in a build with that
    support), whose op is not KP-supported, for which no unified kernel is
    selected at the device or the CPU-degraded key, and whose legacy table has
    no entry for the accelerator descriptor but one for the same descriptor
    with the place replaced by CPU, `Prepare` succeeds with that CPU legacy
    kernel, the returned key is the translation of the CPU descriptor, and,
    the held context not being of the CPU class, the returned context is the
    pool's context for the CPU place. -/
theorem C5_accelerator_cpu_legacy {V : Type} (b : BuildConfig) (fl : GlobalFlags)
    (env : Env V) (ins outs : NameVarMap V) (op : OperatorWithKernel) (place : Place)
    (attrs default_attrs : AttributeMap) (r : Resolved) (kernels : OpKernelMap)
    (func : OpKernelFunc)
    (hr : r = ResolvedOf b fl env ins outs op place attrs default_attrs)
    (hacc : AcceleratorTarget b
      (env.TransPhiKernelKeyToOpKernelType r.expected_kernel_key).place_ = true)
    (hkp : LegacyKpSupport b fl env r.op r.expected_kernel_key = false)
    (hno1 : Tier1Taken b env r = false)
    (hno2 : (r.sig.has_phi_kernel &&
      (env.KernelFactory_Instance.SelectKernel r.sig.kernel_signature.name
        (env.FallBackToCpu r.expected_kernel_key r.op)).IsValid) = false)
    (ht : env.AllOpKernels op.Type_ = some kernels)
    (hmiss : kernels (env.TransPhiKernelKeyToOpKernelType r.expected_kernel_key) = none)
    (hcpu : kernels (env.TransPhiKernelKeyToOpKernelType r.expected_kernel_key).onCpu
      = some func)
    (hctx : env.places_are_same_class Place.CPUPlace
      (env.DeviceContextPool_Get place).GetPlace = false) :
    (PreparedOp.Prepare b fl env ins outs op place attrs default_attrs).result =
      Except.ok
        { op_ := r.op
          ctx_ := empty_ctx
          kernel_key_ := env.TransOpKernelTypeToPhiKernelKey
            (env.TransPhiKernelKeyToOpKernelType r.expected_kernel_key).onCpu
          func_ := some func
          dev_ctx_ := env.DeviceContextPool_Get Place.CPUPlace
          run_phi_kernel_ := false
          arg_map_fn_ := r.sig.arg_map_fn
          default_kernel_signature_ := r.sig.default_kernel_signature
          kernel_signature_ := KernelSignature.default
          phi_kernel_ := empty_kernel } := by
  have hty : r.op.Type_ = op.Type_ := by
    rw [hr]
    exact ResolvedOf_op_Type b fl env ins outs op place attrs default_attrs
  have hdev : r.dev_ctx = env.DeviceContextPool_Get place := by
    rw [hr]
    rfl
  have hkey : LegacyPhaseKey b fl env r = r.expected_kernel_key :=
    LegacyPhaseKey_of_not_kp b fl env r hkp
  have hfkt : FluidKernelType b fl env r =
      env.TransPhiKernelKeyToOpKernelType r.expected_kernel_key := by
    unfold FluidKernelType
    rw [hkey]
  have hcpuk : PhiCpuKernelKey b fl env r = env.FallBackToCpu r.expected_kernel_key r.op := by
    unfold PhiCpuKernelKey
    rw [hkey]
  rw [← hty] at ht
  have hl := LegacyLookup_accel_missing b r.is_xpu_unsupport kernels _ hacc hmiss
  have hd : LegacyDevCtx env
      (env.TransPhiKernelKeyToOpKernelType r.expected_kernel_key).onCpu r.dev_ctx =
      env.DeviceContextPool_Get Place.CPUPlace := by
    unfold LegacyDevCtx
    rw [hdev, onCpu_place, hctx]
    rfl
  rw [Prepare_result, ← hr,
    SelectFrom_legacy b fl env _ r hno1 (by rw [hcpuk, hno2]; simp), hkp, hfkt,
    LegacySelect_found b env r _ _
      (env.TransPhiKernelKeyToOpKernelType r.expected_kernel_key).onCpu kernels func ht
      (by rw [hl]; unfold CpuRetry; rw [hcpu]), hd]
  rfl

/-- Witness for C5 (amended): in a build with custom-device support, `conv`
    on a custom device with only a legacy CPU kernel runs on the pool's CPU
    context. -/
theorem C5_accelerator_cpu_legacy_witness :
    (PreparedOp.Prepare customBuild noFlags
        (sampleEnv customKey (phiAt [] sampleFn) convSig
          (legacyAt [(cpuDesc, { handle := 8 })]) true false)
        [] [] convOp (Place.CustomPlace "custom_dev" 0) [] []).result =
      Except.ok
        { op_ := convOp
          ctx_ := empty_ctx
          kernel_key_ := cpuKey
          func_ := some { handle := 8 }
          dev_ctx_ := samplePool Place.CPUPlace
          run_phi_kernel_ := false
          arg_map_fn_ := none
          default_kernel_signature_ := some (KernelSignature.ofName "conv2d")
          kernel_signature_ := KernelSignature.default
          phi_kernel_ := empty_kernel } :=
  C5_accelerator_cpu_legacy customBuild noFlags
    (sampleEnv customKey (phiAt [] sampleFn) convSig
      (legacyAt [(cpuDesc, { handle := 8 })]) true false)
    [] [] convOp (Place.CustomPlace "custom_dev" 0) [] []
    (ResolvedOf customBuild noFlags
      (sampleEnv customKey (phiAt [] sampleFn) convSig
        (legacyAt [(cpuDesc, { handle := 8 })]) true false)
      [] [] convOp (Place.CustomPlace "custom_dev" 0) [] [])
    (tableOf [(cpuDesc, { handle := 8 })]) { handle := 8 }
    rfl (by decide) (by decide) (by decide) (by decide) rfl (by decide) (by decide)
    (by decide)

/-- C6: when the op has no valid unified kernel (no signature is resolved, or
    the unified kernel is invalid at both the resolved key and the CPU-degraded
    key) and its type has no entry in the legacy kernel table, `Prepare` fails
    with the NotFound error of the first site, whose message names the op type;
    no `PreparedOp` is returned. -/
theorem C6_no_kernel_anywhere {V : Type} (b : BuildConfig) (fl : GlobalFlags)
    (env : Env V) (ins outs : NameVarMap V) (op : OperatorWithKernel) (place : Place)
    (attrs default_attrs : AttributeMap) (r : Resolved)
    (hr : r = ResolvedOf b fl env ins outs op place attrs default_attrs)
    (hno : r.sig.has_phi_kernel = false ∨
      ((env.KernelFactory_Instance.SelectKernel r.sig.kernel_signature.name
          r.expected_kernel_key).IsValid = false ∧
        (env.KernelFactory_Instance.SelectKernel r.sig.kernel_signature.name
          (PhiCpuKernelKey b fl env r)).IsValid = false))
    (ht : env.AllOpKernels op.Type_ = none) :
    (PreparedOp.Prepare b fl env ins outs op place attrs default_attrs).result =
      Except.error
        (EnforceNotMet.NotFound
          "There are no kernels which are registered in the %s operator."
          [ErrorArg.str op.Type_]) := by
  have hty : r.op.Type_ = op.Type_ := by
    rw [hr]
    exact ResolvedOf_op_Type b fl env ins outs op place attrs default_attrs
  rw [← hty] at ht
  have h1 : Tier1Taken b env r = false := by
    unfold Tier1Taken
    rcases hno with h | ⟨h, _⟩ <;> simp [h]
  have h2 : Tier2Taken b fl env r = false := by
    unfold Tier2Taken
    rcases hno with h | ⟨_, h⟩ <;> simp [h]
  rw [Prepare_result, ← hr, SelectFrom_legacy b fl env _ r h1 h2,
    LegacySelect_no_table b env r _ _ ht, hty]

/-- Witness for C6: `conv` with no signature and no legacy table. -/
theorem C6_no_kernel_anywhere_witness :
    (PreparedOp.Prepare plainBuild noFlags
        (sampleEnv cpuKey (phiAt [] sampleFn) noSig noLegacy true false)
        [] [] convOp Place.CPUPlace [] []).result =
      Except.error
        (EnforceNotMet.NotFound
          "There are no kernels which are registered in the %s operator."
          [ErrorArg.str "conv"]) :=
  C6_no_kernel_anywhere plainBuild noFlags
    (sampleEnv cpuKey (phiAt [] sampleFn) noSig noLegacy true false)
    [] [] convOp Place.CPUPlace [] []
    (ResolvedOf plainBuild noFlags
      (sampleEnv cpuKey (phiAt [] sampleFn) noSig noLegacy true false)
      [] [] convOp Place.CPUPlace [] [])
    rfl (Or.inl (by decide)) rfl

/-- C7 (as stated, refuted): in an XPU build `conv` has a signature but no
    unified kernel, and an empty legacy table.  The lookup tries the XPU
    descriptor translated from the resolved key, then the CPU-substituted one;
    the failure carries the op type and the CPU descriptor only, not the XPU
    descriptor that was attempted. -/
theorem C7_counterexample :
    FluidKernelType xpuBuild noFlags
        (sampleEnv xpuKey (phiAt [] sampleFn) convSig (legacyAt []) true false)
        (ResolvedOf xpuBuild noFlags
          (sampleEnv xpuKey (phiAt [] sampleFn) convSig (legacyAt []) true false)
          [] [] convOp (Place.XPUPlace 0) [] []) = xpuDesc ∧
    (PreparedOp.Prepare xpuBuild noFlags
        (sampleEnv xpuKey (phiAt [] sampleFn) convSig (legacyAt []) true false)
        [] [] convOp (Place.XPUPlace 0) [] []).result =
      Except.error
        (EnforceNotMet.NotFound "Operator %s does not have kernel for %s."
          [ErrorArg.str "conv", ErrorArg.kernelType cpuDesc]) ∧
    (EnforceNotMet.NotFound "Operator %s does not have kernel for %s."
      [ErrorArg.str "conv", ErrorArg.kernelType cpuDesc]).carriesOpType "conv" = true ∧
    (EnforceNotMet.NotFound "Operator %s does not have kernel for %s."
      [ErrorArg.str "conv", ErrorArg.kernelType cpuDesc]).carriesDescriptor xpuDesc
      = false := by
  decide

/-- C7 (amended): whenever `Prepare` fails, the failure is a NotFound error
    that carries the op type; at the first site (the op has no legacy table) it
    carries nothing else, and at the second site it carries exactly one
    descriptor, the legacy descriptor on which the lookup ended (after any CPU
    or KP substitution).  Unified keys and descriptors tried earlier are not
    carried. -/
theorem C7_failure_payload {V : Type} (b : BuildConfig) (fl : GlobalFlags)
    (env : Env V) (ins outs : NameVarMap V) (op : OperatorWithKernel) (place : Place)
    (attrs default_attrs : AttributeMap) (r : Resolved) (e : EnforceNotMet)
    (hr : r = ResolvedOf b fl env ins outs op place attrs default_attrs)
    (he : (PreparedOp.Prepare b fl env ins outs op place attrs default_attrs).result =
      Except.error e) :
    (env.AllOpKernels op.Type_ = none ∧
      e = EnforceNotMet.NotFound
        "There are no kernels which are registered in the %s operator."
        [ErrorArg.str op.Type_]) ∨
    (∃ kernels, env.AllOpKernels op.Type_ = some kernels ∧
      (LegacyLookup b r.is_xpu_unsupport
        (LegacyKpSupport b fl env r.op r.expected_kernel_key) kernels
        (FluidKernelType b fl env r)).2 = none ∧
      e = EnforceNotMet.NotFound "Operator %s does not have kernel for %s."
        [ErrorArg.str op.Type_,
          ErrorArg.kernelType
            (LegacyLookup b r.is_xpu_unsupport
              (LegacyKpSupport b fl env r.op r.expected_kernel_key) kernels
              (FluidKernelType b fl env r)).1]) := by
  have hty : r.op.Type_ = op.Type_ := by
    rw [hr]
    exact ResolvedOf_op_Type b fl env ins outs op place attrs default_attrs
  rw [Prepare_result, ← hr] at he
  rcases SelectFrom_cases b fl env r with ⟨_, h⟩ | ⟨_, _, h⟩ | ⟨_, _, h⟩
  · rw [h] at he
    cases he
  · rw [h] at he
    cases he
  · rw [h] at he
    rcases LegacySelect_cases b env r
        (LegacyKpSupport b fl env r.op r.expected_kernel_key)
        (FluidKernelType b fl env r) with
      ⟨ht, h2⟩ | ⟨kernels, ht, hl, h2⟩ | ⟨kernels, f, ht, hl, h2⟩
    · rw [h2] at he
      left
      rw [← hty]
      exact ⟨ht, by cases he; rfl⟩
    · rw [h2] at he
      right
      rw [← hty]
      exact ⟨kernels, ht, hl, by cases he; rfl⟩
    · rw [h2] at he
      cases he

/-- Witness for C7 (amended): the failure of `conv` with an empty legacy table
    in an XPU build carries the CPU-substituted descriptor. -/
theorem C7_failure_payload_witness :
    ((sampleEnv xpuKey (phiAt [] sampleFn) noSig (legacyAt []) true false).AllOpKernels
        convOp.Type_ = none ∧
      EnforceNotMet.NotFound "Operator %s does not have kernel for %s."
          [ErrorArg.str "conv", ErrorArg.kernelType cpuDesc] =
        EnforceNotMet.NotFound
          "There are no kernels which are registered in the %s operator."
          [ErrorArg.str convOp.Type_]) ∨
    (∃ kernels,
      (sampleEnv xpuKey (phiAt [] sampleFn) noSig (legacyAt []) true false).AllOpKernels
        convOp.Type_ = some kernels ∧
      (LegacyLookup xpuBuild
        (ResolvedOf xpuBuild noFlags
          (sampleEnv xpuKey (phiAt [] sampleFn) noSig (legacyAt []) true false)
          [] [] convOp (Place.XPUPlace 0) [] []).is_xpu_unsupport
        (LegacyKpSupport xpuBuild noFlags
          (sampleEnv xpuKey (phiAt [] sampleFn) noSig (legacyAt []) true false)
          (ResolvedOf xpuBuild noFlags
            (sampleEnv xpuKey (phiAt [] sampleFn) noSig (legacyAt []) true false)
            [] [] convOp (Place.XPUPlace 0) [] []).op
          (ResolvedOf xpuBuild noFlags
            (sampleEnv xpuKey (phiAt [] sampleFn) noSig (legacyAt []) true false)
            [] [] convOp (Place.XPUPlace 0) [] []).expected_kernel_key) kernels
        (FluidKernelType xpuBuild noFlags
          (sampleEnv xpuKey (phiAt [] sampleFn) noSig (legacyAt []) true false)
          (ResolvedOf xpuBuild noFlags
            (sampleEnv xpuKey (phiAt [] sampleFn) noSig (legacyAt []) true false)
            [] [] convOp (Place.XPUPlace 0) [] []))).2 = none ∧
      EnforceNotMet.NotFound "Operator %s does not have kernel for %s."
          [ErrorArg.str "conv", ErrorArg.kernelType cpuDesc] =
        EnforceNotMet.NotFound "Operator %s does not have kernel for %s."
          [ErrorArg.str convOp.Type_,
            ErrorArg.kernelType
              (LegacyLookup xpuBuild
                (ResolvedOf xpuBuild noFlags
                  (sampleEnv xpuKey (phiAt [] sampleFn) noSig (legacyAt []) true false)
                  [] [] convOp (Place.XPUPlace 0) [] []).is_xpu_unsupport
                (LegacyKpSupport xpuBuild noFlags
                  (sampleEnv xpuKey (phiAt [] sampleFn) noSig (legacyAt []) true false)
                  (ResolvedOf xpuBuild noFlags
                    (sampleEnv xpuKey (phiAt [] sampleFn) noSig (legacyAt []) true false)
                    [] [] convOp (Place.XPUPlace 0) [] []).op
                  (ResolvedOf xpuBuild noFlags
                    (sampleEnv xpuKey (phiAt [] sampleFn) noSig (legacyAt []) true false)
                    [] [] convOp (Place.XPUPlace 0) [] []).expected_kernel_key) kernels
                (FluidKernelType xpuBuild noFlags
                  (sampleEnv xpuKey (phiAt [] sampleFn) noSig (legacyAt []) true false)
                  (ResolvedOf xpuBuild noFlags
                    (sampleEnv xpuKey (phiAt [] sampleFn) noSig (legacyAt []) true false)
                    [] [] convOp (Place.XPUPlace 0) [] []))).1]) :=
  C7_failure_payload xpuBuild noFlags
    (sampleEnv xpuKey (phiAt [] sampleFn) noSig (legacyAt []) true false)
    [] [] convOp (Place.XPUPlace 0) [] []
    (ResolvedOf xpuBuild noFlags
      (sampleEnv xpuKey (phiAt [] sampleFn) noSig (legacyAt []) true false)
      [] [] convOp (Place.XPUPlace 0) [] [])
    (EnforceNotMet.NotFound "Operator %s does not have kernel for %s."
      [ErrorArg.str "conv", ErrorArg.kernelType cpuDesc])
    rfl (by decide)

/-- The sample backend/place translations preserve the device class. -/
theorem sample_backend_roundtrip (bk : Backend) :
    sampleBackendsSameClass bk (sampleTransToPhiBackend (sampleTransToPhiPlace bk)) = true := by
  cases bk <;> rfl

/-- The sample class relation on places is reflexive. -/
theorem samplePlacesSameClass_refl (p : Place) : samplePlacesSameClass p p = true := by
  cases p <;> simp [samplePlacesSameClass]

/-- The sample descriptor-to-key translation preserves the class of the
    descriptor's place. -/
theorem sample_descriptor_class (d : OpKernelType) (p : Place)
    (h : samplePlacesSameClass d.place_ p = true) :
    sampleBackendsSameClass (sampleTypeToKey d).backend (sampleTransToPhiBackend p) = true := by
  rcases d with ⟨dt, dl, pl, lib⟩
  cases lib <;> cases pl <;> cases p <;>
    simp_all [samplePlacesSameClass, sampleBackendsSameClass, sampleTypeToKey,
      sampleTransToPhiBackend, sampleTransToPhiPlace]

/-- C8: assuming the pool returns for each place a context of that place, the
    backend/place translations preserve the device class (a backend and the
    backend of its place; a legacy descriptor's place and the backend of its
    key; the CPU-degraded key and the CPU place) and the class relation on
    places is reflexive, every successful `Prepare` returns a context whose
    place is of the backend class of the returned kernel key.  On the tier-1
    unified path the context is refetched from the pool for the key's backend
    exactly when `backends_are_same_class` is false, the CPU-degraded unified
    path binds the pool's CPU context, and the legacy path refetches for the
    chosen descriptor's place exactly when `places_are_same_class` is false. -/
theorem C8_device_context_consistency {V : Type} (b : BuildConfig) (fl : GlobalFlags)
    (env : Env V) (ins outs : NameVarMap V) (op : OperatorWithKernel) (place : Place)
    (attrs default_attrs : AttributeMap) (r : Resolved) (p : PreparedOp)
    (hr : r = ResolvedOf b fl env ins outs op place attrs default_attrs)
    (hpool : ∀ q, (env.DeviceContextPool_Get q).GetPlace = q)
    (hback : ∀ bk, env.backends_are_same_class bk
      (env.TransToPhiBackend (env.TransToPhiPlace bk)) = true)
    (hcpu : ∀ k o, env.backends_are_same_class (env.FallBackToCpu k o).backend
      (env.TransToPhiBackend Place.CPUPlace) = true)
    (hleg : ∀ d q, env.places_are_same_class d.place_ q = true →
      env.backends_are_same_class (env.TransOpKernelTypeToPhiKernelKey d).backend
        (env.TransToPhiBackend q) = true)
    (hrefl : ∀ q, env.places_are_same_class q q = true)
    (hok : (PreparedOp.Prepare b fl env ins outs op place attrs default_attrs).result =
      Except.ok p) :
    env.backends_are_same_class p.kernel_key_.backend
        (env.TransToPhiBackend p.dev_ctx_.GetPlace) = true ∧
    ((Tier1Taken b env r = true ∧ p.kernel_key_ = r.expected_kernel_key ∧
        p.dev_ctx_ =
          if env.backends_are_same_class r.expected_kernel_key.backend
              (env.TransToPhiBackend (env.DeviceContextPool_Get place).GetPlace) = false then
            env.DeviceContextPool_Get (env.TransToPhiPlace r.expected_kernel_key.backend)
          else env.DeviceContextPool_Get place) ∨
      (Tier1Taken b env r = false ∧ Tier2Taken b fl env r = true ∧
        p.kernel_key_ = PhiCpuKernelKey b fl env r ∧
        p.dev_ctx_ = env.DeviceContextPool_Get Place.CPUPlace) ∨
      (Tier1Taken b env r = false ∧ Tier2Taken b fl env r = false ∧
        ∃ kernels d, env.AllOpKernels op.Type_ = some kernels ∧
          d = (LegacyLookup b r.is_xpu_unsupport
            (LegacyKpSupport b fl env r.op r.expected_kernel_key) kernels
            (FluidKernelType b fl env r)).1 ∧
          p.kernel_key_ = env.TransOpKernelTypeToPhiKernelKey d ∧
          p.dev_ctx_ =
            if env.places_are_same_class d.place_
                (env.DeviceContextPool_Get place).GetPlace = false then
              env.DeviceContextPool_Get d.place_
            else env.DeviceContextPool_Get place)) := by
  have hty : r.op.Type_ = op.Type_ := by
    rw [hr]
    exact ResolvedOf_op_Type b fl env ins outs op place attrs default_attrs
  have hdev : r.dev_ctx = env.DeviceContextPool_Get place := by
    rw [hr]
    rfl
  rw [Prepare_result, ← hr] at hok
  rcases SelectFrom_cases b fl env r with ⟨h1, h⟩ | ⟨h1, h2, h⟩ | ⟨h1, h2, h⟩
  · -- tier 1
    rw [h] at hok
    cases hok
    have hctx : PhiDevCtx env r.expected_kernel_key r.dev_ctx =
        if env.backends_are_same_class r.expected_kernel_key.backend
            (env.TransToPhiBackend (env.DeviceContextPool_Get place).GetPlace) = false then
          env.DeviceContextPool_Get (env.TransToPhiPlace r.expected_kernel_key.backend)
        else env.DeviceContextPool_Get place := by
      unfold PhiDevCtx
      rw [hdev]
      cases env.backends_are_same_class r.expected_kernel_key.backend
        (env.TransToPhiBackend (env.DeviceContextPool_Get place).GetPlace) <;> rfl
    refine ⟨?_, Or.inl ⟨h1, rfl, hctx⟩⟩
    show env.backends_are_same_class r.expected_kernel_key.backend
      (env.TransToPhiBackend (PhiDevCtx env r.expected_kernel_key r.dev_ctx).GetPlace) = true
    rw [hctx]
    cases hc : env.backends_are_same_class r.expected_kernel_key.backend
        (env.TransToPhiBackend (env.DeviceContextPool_Get place).GetPlace)
    · rw [if_pos rfl, hpool]
      exact hback _
    · rw [if_neg (by simp)]
      exact hc
  · -- CPU-degraded unified kernel
    rw [h] at hok
    cases hok
    refine ⟨?_, Or.inr (Or.inl ⟨h1, h2, rfl, rfl⟩)⟩
    show env.backends_are_same_class (PhiCpuKernelKey b fl env r).backend
      (env.TransToPhiBackend (env.DeviceContextPool_Get Place.CPUPlace).GetPlace) = true
    rw [hpool]
    exact hcpu _ _
  · -- legacy kernel
    rw [h] at hok
    rcases LegacySelect_cases b env r
        (LegacyKpSupport b fl env r.op r.expected_kernel_key)
        (FluidKernelType b fl env r) with
      ⟨_, h3⟩ | ⟨_, _, _, h3⟩ | ⟨kernels, f, ht, hl, h3⟩
    · rw [h3] at hok
      cases hok
    · rw [h3] at hok
      cases hok
    · rw [h3] at hok
      cases hok
      have hctx : ∀ d : OpKernelType, LegacyDevCtx env d r.dev_ctx =
          if env.places_are_same_class d.place_
              (env.DeviceContextPool_Get place).GetPlace = false then
            env.DeviceContextPool_Get d.place_
          else env.DeviceContextPool_Get place := by
        intro d
        unfold LegacyDevCtx
        rw [hdev]
        cases env.places_are_same_class d.place_
          (env.DeviceContextPool_Get place).GetPlace <;> rfl
      rw [hty] at ht
      refine ⟨?_, Or.inr (Or.inr ⟨h1, h2, kernels, _, ht, rfl, rfl, hctx _⟩)⟩
      show env.backends_are_same_class
        (env.TransOpKernelTypeToPhiKernelKey
          (LegacyLookup b r.is_xpu_unsupport
            (LegacyKpSupport b fl env r.op r.expected_kernel_key) kernels
            (FluidKernelType b fl env r)).1).backend
        (env.TransToPhiBackend
          (LegacyDevCtx env
            (LegacyLookup b r.is_xpu_unsupport
              (LegacyKpSupport b fl env r.op r.expected_kernel_key) kernels
              (FluidKernelType b fl env r)).1 r.dev_ctx).GetPlace) = true
      rw [hctx]
      cases hc : env.places_are_same_class
          (LegacyLookup b r.is_xpu_unsupport
            (LegacyKpSupport b fl env r.op r.expected_kernel_key) kernels
            (FluidKernelType b fl env r)).1.place_
          (env.DeviceContextPool_Get place).GetPlace
      · rw [if_pos rfl, hpool]
        exact hleg _ _ (hrefl _)
      · rw [if_neg (by simp)]
        exact hleg _ _ hc

/-- Witness for C8: in an XPU build, `conv` invoked on the CPU place with a
    valid unified kernel at the XPU key is bound to the pool's XPU context,
    refetched because the held CPU context is of another class. -/
theorem C8_device_context_consistency_witness :
    (PreparedOp.Prepare xpuBuild noFlags
        (sampleEnv xpuKey (phiAt [xpuKey] sampleFn) convSig noLegacy true false)
        [] [] convOp Place.CPUPlace [] []).result =
      Except.ok
        (PreparedOp.mkPhi convOp empty_ctx xpuKey none
          (some (KernelSignature.ofName "conv2d")) (KernelSignature.ofName "conv2d")
          { fn := some 2, kernel_registered_type := .FUNCTION }
          (samplePool (Place.XPUPlace 0))) ∧
    (sampleEnv xpuKey (phiAt [xpuKey] sampleFn) convSig noLegacy true
        false).backends_are_same_class
      (PreparedOp.mkPhi convOp empty_ctx xpuKey none
          (some (KernelSignature.ofName "conv2d")) (KernelSignature.ofName "conv2d")
          { fn := some 2, kernel_registered_type := .FUNCTION }
          (samplePool (Place.XPUPlace 0))).kernel_key_.backend
      ((sampleEnv xpuKey (phiAt [xpuKey] sampleFn) convSig noLegacy true
          false).TransToPhiBackend
        (PreparedOp.mkPhi convOp empty_ctx xpuKey none
          (some (KernelSignature.ofName "conv2d")) (KernelSignature.ofName "conv2d")
          { fn := some 2, kernel_registered_type := .FUNCTION }
          (samplePool (Place.XPUPlace 0))).dev_ctx_.GetPlace) = true :=
  ⟨by decide,
    (C8_device_context_consistency xpuBuild noFlags
      (sampleEnv xpuKey (phiAt [xpuKey] sampleFn) convSig noLegacy true false)
      [] [] convOp Place.CPUPlace [] []
      (ResolvedOf xpuBuild noFlags
        (sampleEnv xpuKey (phiAt [xpuKey] sampleFn) convSig noLegacy true false)
        [] [] convOp Place.CPUPlace [] [])
      (PreparedOp.mkPhi convOp empty_ctx xpuKey none
        (some (KernelSignature.ofName "conv2d")) (KernelSignature.ofName "conv2d")
        { fn := some 2, kernel_registered_type := .FUNCTION }
        (samplePool (Place.XPUPlace 0)))
      rfl (fun _ => rfl) sample_backend_roundtrip (fun _ _ => rfl)
      sample_descriptor_class samplePlacesSameClass_refl (by decide)).1⟩

/-- C9: for every invocation `Prepare` either fails with a reported NotFound
    error or returns a `PreparedOp` bound to a kernel that exists: a unified
    result holds the kernel that the factory selected for the resolved name at
    the returned key, and that kernel is valid; a legacy result holds the
    entry of the op's legacy table under a descriptor whose translation is the
    returned key.  Never the empty kernel, never an absent entry. -/
theorem C9_never_a_silent_noop {V : Type} (b : BuildConfig) (fl : GlobalFlags)
    (env : Env V) (ins outs : NameVarMap V) (op : OperatorWithKernel) (place : Place)
    (attrs default_attrs : AttributeMap) :
    (∃ format args,
      (PreparedOp.Prepare b fl env ins outs op place attrs default_attrs).result =
        Except.error (EnforceNotMet.NotFound format args)) ∨
    (∃ p,
      (PreparedOp.Prepare b fl env ins outs op place attrs default_attrs).result =
        Except.ok p ∧
      ((p.run_phi_kernel_ = true ∧ p.func_ = none ∧ p.phi_kernel_.IsValid = true ∧
          p.phi_kernel_ ≠ empty_kernel ∧
          p.phi_kernel_ = env.KernelFactory_Instance.SelectKernel
            (ResolvedOf b fl env ins outs op place attrs
              default_attrs).sig.kernel_signature.name p.kernel_key_) ∨
        (p.run_phi_kernel_ = false ∧
          ∃ kernels descriptor func, env.AllOpKernels op.Type_ = some kernels ∧
            kernels descriptor = some func ∧ p.func_ = some func ∧
            p.kernel_key_ = env.TransOpKernelTypeToPhiKernelKey descriptor))) := by
  have hty := ResolvedOf_op_Type b fl env ins outs op place attrs default_attrs
  have hvalid : ∀ k : Kernel, k.IsValid = true → k ≠ empty_kernel := by
    intro k hk hkk
    rw [hkk] at hk
    cases hk
  rw [Prepare_result]
  generalize ResolvedOf b fl env ins outs op place attrs default_attrs = r at hty ⊢
  rcases SelectFrom_cases b fl env r with ⟨h1, h⟩ | ⟨h1, h2, h⟩ | ⟨h1, h2, h⟩
  · right
    have hv : (env.KernelFactory_Instance.SelectKernel r.sig.kernel_signature.name
        r.expected_kernel_key).IsValid = true := by
      unfold Tier1Taken at h1
      simp only [Bool.and_eq_true] at h1
      exact h1.2.1
    exact ⟨_, h, Or.inl ⟨rfl, rfl, hv, hvalid _ hv, rfl⟩⟩
  · right
    have hv : (env.KernelFactory_Instance.SelectKernel r.sig.kernel_signature.name
        (PhiCpuKernelKey b fl env r)).IsValid = true := by
      unfold Tier2Taken at h2
      simp only [Bool.and_eq_true] at h2
      exact h2.2.2
    exact ⟨_, h, Or.inl ⟨rfl, rfl, hv, hvalid _ hv, rfl⟩⟩
  · rw [h]
    rcases LegacySelect_cases b env r
        (LegacyKpSupport b fl env r.op r.expected_kernel_key)
        (FluidKernelType b fl env r) with
      ⟨_, h3⟩ | ⟨_, _, _, h3⟩ | ⟨kernels, f, ht, hl, h3⟩
    · left
      exact ⟨_, _, h3⟩
    · left
      exact ⟨_, _, h3⟩
    · right
      rw [hty] at ht
      refine ⟨_, h3, Or.inr ⟨rfl, kernels, _, f, ht, ?_, rfl, rfl⟩⟩
      exact (LegacyLookup_entry b r.is_xpu_unsupport _ kernels _).symm.trans hl

/-- C10: the unified signature used by `PrepareImpl` is (1) the result of the
    registered argument-mapping function when one is registered; else (2) the
    op type's own name with empty input, output and attribute lists when a
    structured kernel is registered under that name; else (3) the
    default-signature table's entry when present; `has_phi_kernel` holds iff
    one of the three matched; and every unified result of `Prepare` carries
    that signature. -/
theorem C10_signature_lookup_priority {V : Type} (b : BuildConfig) (fl : GlobalFlags)
    (env : Env V) (ins outs : NameVarMap V) (op : OperatorWithKernel) (place : Place)
    (attrs default_attrs : AttributeMap) (r : Resolved)
    (hr : r = ResolvedOf b fl env ins outs op place attrs default_attrs) :
    (∀ arg_map_fn, env.OpUtilsMap_Instance.GetArgumentMappingFn op.Type_ = some arg_map_fn →
      r.sig.has_phi_kernel = true ∧
      r.sig.kernel_signature = env.ArgumentMappingFn_call arg_map_fn
        { op := r.op, device_context := r.dev_ctx, ctx := empty_ctx, ins := ins,
          outs := outs, attrs := attrs, default_attrs := default_attrs }) ∧
    (env.OpUtilsMap_Instance.GetArgumentMappingFn op.Type_ = none →
      env.KernelFactory_Instance.HasStructuredKernel op.Type_ = true →
      r.sig.has_phi_kernel = true ∧
      r.sig.kernel_signature =
        { name := op.Type_, input_names := [], output_names := [], attr_names := [] }) ∧
    (env.OpUtilsMap_Instance.GetArgumentMappingFn op.Type_ = none →
      env.KernelFactory_Instance.HasStructuredKernel op.Type_ = false →
      ∀ s, env.DefaultKernelSignatureMap_Instance.GetNullable op.Type_ = some s →
        r.sig.has_phi_kernel = true ∧ r.sig.kernel_signature = s) ∧
    (r.sig.has_phi_kernel = true ↔
      ((env.OpUtilsMap_Instance.GetArgumentMappingFn op.Type_).isSome = true ∨
        env.KernelFactory_Instance.HasStructuredKernel op.Type_ = true ∨
        (env.DefaultKernelSignatureMap_Instance.GetNullable op.Type_).isSome = true)) ∧
    (∀ p, (PreparedOp.Prepare b fl env ins outs op place attrs default_attrs).result =
        Except.ok p → p.run_phi_kernel_ = true →
      p.kernel_signature_ = r.sig.kernel_signature) := by
  have hty : (OverwriteOpAttrs b fl op attrs default_attrs).Type_ = op.Type_ :=
    OverwriteOpAttrs_Type b fl op attrs default_attrs
  have hsig : r.sig = LookupSignature env env.OpUtilsMap_Instance
      env.DefaultKernelSignatureMap_Instance r.op
      { op := r.op, device_context := r.dev_ctx, ctx := empty_ctx, ins := ins,
        outs := outs, attrs := attrs, default_attrs := default_attrs } := by
    rw [hr]
    rfl
  have hop : r.op.Type_ = op.Type_ := by
    rw [hr]
    exact hty
  refine ⟨?_, ?_, ?_, ?_, ?_⟩
  · intro f hf
    rw [hsig]
    unfold LookupSignature
    rw [hop, hf]
    exact ⟨rfl, rfl⟩
  · intro hf hs
    rw [hsig]
    unfold LookupSignature
    rw [hop, hf]
    simp [hs, KernelSignature.ofName]
  · intro hf hs s hd
    rw [hsig]
    unfold LookupSignature
    rw [hop, hf]
    simp [hs, hd]
  · rw [hsig]
    unfold LookupSignature
    rw [hop]
    cases hf : env.OpUtilsMap_Instance.GetArgumentMappingFn op.Type_ with
    | some f => simp
    | none =>
      cases hs : env.KernelFactory_Instance.HasStructuredKernel op.Type_ with
      | true => simp
      | false =>
        cases hd : env.DefaultKernelSignatureMap_Instance.GetNullable op.Type_ with
        | some s => simp
        | none => simp
  · intro p hp hrun
    rw [Prepare_result, ← hr] at hp
    rcases SelectFrom_cases b fl env r with ⟨_, h⟩ | ⟨_, _, h⟩ | ⟨_, _, h⟩
    · rw [h] at hp
      cases hp
      rfl
    · rw [h] at hp
      cases hp
      rfl
    · rw [h] at hp
      have := LegacySelect_not_phi b env r _ _ p hp
      rw [this] at hrun
      cases hrun

/-- Witness for C10: with all three registrations present for `conv`, the
    signature is the one built by the argument-mapping function. -/
theorem C10_signature_lookup_priority_witness :
    (ResolvedOf plainBuild noFlags priorityEnv [] [] convOp Place.CPUPlace [] []
        ).sig.has_phi_kernel = true ∧
    (ResolvedOf plainBuild noFlags priorityEnv [] [] convOp Place.CPUPlace [] []
        ).sig.kernel_signature =
      priorityEnv.ArgumentMappingFn_call { addr := 100 }
        { op := (ResolvedOf plainBuild noFlags priorityEnv [] [] convOp Place.CPUPlace []
            []).op
          device_context := (ResolvedOf plainBuild noFlags priorityEnv [] [] convOp
            Place.CPUPlace [] []).dev_ctx
          ctx := empty_ctx, ins := [], outs := [], attrs := [], default_attrs := [] } :=
  (C10_signature_lookup_priority plainBuild noFlags priorityEnv [] [] convOp
    Place.CPUPlace [] []
    (ResolvedOf plainBuild noFlags priorityEnv [] [] convOp Place.CPUPlace [] [])
    rfl).1 { addr := 100 } (by decide)

/-- No argument-mapping function, no structured kernel and no default
    signature: the lookup finds no unified signature. -/
theorem LookupSignature_none {V : Type} (env : Env V) (m : OpUtilsMap)
    (d : DefaultKernelSignatureMap) (op : OperatorWithKernel)
    (ctx : DygraphExecutionContext V)
    (h1 : m.GetArgumentMappingFn op.Type_ = none)
    (h2 : env.KernelFactory_Instance.HasStructuredKernel op.Type_ = false)
    (h3 : d.GetNullable op.Type_ = none) :
    LookupSignature env m d op ctx =
      { has_phi_kernel := false, arg_map_fn := none, default_kernel_signature := none,
        kernel_signature := KernelSignature.default } := by
  unfold LookupSignature
  rw [h1]
  simp only [h2, h3, Bool.false_eq_true, if_false]

/-- With no unified signature the resolved locals are those of the lookup
    with every field empty, whatever the factory selects. -/
theorem ResolvedOf_sig_none {V : Type} (b : BuildConfig) (fl : GlobalFlags) (env : Env V)
    (ins outs : NameVarMap V) (op : OperatorWithKernel) (place : Place)
    (attrs default_attrs : AttributeMap)
    (h1 : env.OpUtilsMap_Instance.GetArgumentMappingFn op.Type_ = none)
    (h2 : env.KernelFactory_Instance.HasStructuredKernel op.Type_ = false)
    (h3 : env.DefaultKernelSignatureMap_Instance.GetNullable op.Type_ = none) :
    (ResolvedOf b fl env ins outs op place attrs default_attrs).sig =
      { has_phi_kernel := false, arg_map_fn := none, default_kernel_signature := none,
        kernel_signature := KernelSignature.default } := by
  have hty := OverwriteOpAttrs_Type b fl op attrs default_attrs
  exact LookupSignature_none env _ _ _ _ (by rw [hty]; exact h1) (by rw [hty]; exact h2)
    (by rw [hty]; exact h3)

/-- With no unified signature, replacing what the factory selects changes none
    of the resolved locals. -/
theorem ResolvedOf_withSelectKernel {V : Type} (b : BuildConfig) (fl : GlobalFlags)
    (env : Env V) (select : String → KernelKey → Kernel)
    (has : String → KernelKey → Bool) (ins outs : NameVarMap V)
    (op : OperatorWithKernel) (place : Place) (attrs default_attrs : AttributeMap)
    (h : (ResolvedOf b fl env ins outs op place attrs default_attrs).sig.has_phi_kernel
      = false) :
    ResolvedOf b fl (env.withSelectKernel select has) ins outs op place attrs default_attrs
      = ResolvedOf b fl env ins outs op place attrs default_attrs := by
  have hsig : (ResolvedOf b fl (env.withSelectKernel select has) ins outs op place attrs
      default_attrs).sig =
      (ResolvedOf b fl env ins outs op place attrs default_attrs).sig := rfl
  have h2 := h
  rw [← hsig] at h2
  unfold ResolvedOf Resolve at h h2 ⊢
  simp only at h h2 ⊢
  rw [if_neg (by rw [h2]; exact Bool.false_ne_true),
    if_neg (by rw [h]; exact Bool.false_ne_true)]
  rfl

/-- The legacy lookup ends on the substituted descriptor and on the table's
    entry there. -/
theorem LegacyLookup_eq (b : BuildConfig) (unsup kp : Bool) (kernels : OpKernelMap)
    (d0 : OpKernelType) :
    LegacyLookup b unsup kp kernels d0 =
      (SubstitutedDescriptor b unsup kp kernels d0,
        kernels (SubstitutedDescriptor b unsup kp kernels d0)) := by
  unfold LegacyLookup XpuDegrade XpuKpDegrade IpuDegrade CustomDegrade SubstitutedDescriptor
    CpuRetry OpKernelType.onCpu
  cases hp : d0.place_ with
  | XPUPlace n =>
    cases hx : b.PADDLE_WITH_XPU <;> cases hk : b.PADDLE_WITH_XPU_KP <;>
      cases hu : unsup <;> cases hkp : kp <;> cases hf : kernels d0 <;>
      simp [is_xpu_place, is_ipu_place, is_custom_place, hf, hp]
  | IPUPlace n =>
    cases hi : b.PADDLE_WITH_IPU <;> cases hf : kernels d0 <;>
      simp [is_xpu_place, is_ipu_place, is_custom_place, hf, hp]
  | CustomPlace t n =>
    cases hc : b.PADDLE_WITH_CUSTOM_DEVICE <;> cases hf : kernels d0 <;>
      simp [is_xpu_place, is_ipu_place, is_custom_place, hf, hp]
  | CPUPlace => simp [is_xpu_place, is_ipu_place, is_custom_place, hp]
  | GPUPlace n => simp [is_xpu_place, is_ipu_place, is_custom_place, hp]
  | GPUPinnedPlace => simp [is_xpu_place, is_ipu_place, is_custom_place, hp]
  | UNDEFINED => simp [is_xpu_place, is_ipu_place, is_custom_place, hp]

/-- C11: when the op type has no argument-mapping function, no structured
    kernel under its name and no default signature, resolution goes directly
    to the legacy table: the outcome does not depend on what the factory's
    `SelectKernel` and `HasKernel` answer, and it is never a unified
    `PreparedOp`.  With `d0` the descriptor translated from the key, the
    outcome is the table's entry at the substituted descriptor (written out in
    `SubstitutedDescriptor`) when the table has it and a NotFound failure
    naming that descriptor otherwise; in particular an entry at `d0` is
    returned as it is for an op that is neither XPU-unsupported nor
    KP-supported, and when the table has no entry at an accelerator
    descriptor `d0` the outcome is the entry at `d0` with the place replaced
    by `CPUPlace`, or the failure naming that CPU descriptor. -/
theorem C11_no_signature_goes_to_legacy {V : Type} (b : BuildConfig) (fl : GlobalFlags)
    (env : Env V) (ins outs : NameVarMap V) (op : OperatorWithKernel) (place : Place)
    (attrs default_attrs : AttributeMap) (r : Resolved) (kp : Bool) (d0 : OpKernelType)
    (hr : r = ResolvedOf b fl env ins outs op place attrs default_attrs)
    (hkp : kp = LegacyKpSupport b fl env r.op r.expected_kernel_key)
    (hd0 : d0 = env.TransPhiKernelKeyToOpKernelType
      (if kp = true then r.expected_kernel_key.set_backend Backend.KPS
        else r.expected_kernel_key))
    (h1 : env.OpUtilsMap_Instance.GetArgumentMappingFn op.Type_ = none)
    (h2 : env.KernelFactory_Instance.HasStructuredKernel op.Type_ = false)
    (h3 : env.DefaultKernelSignatureMap_Instance.GetNullable op.Type_ = none) :
    (∀ select has,
      (PreparedOp.Prepare b fl (env.withSelectKernel select has) ins outs op place attrs
        default_attrs).result =
      (PreparedOp.Prepare b fl env ins outs op place attrs default_attrs).result) ∧
    (∀ p, (PreparedOp.Prepare b fl env ins outs op place attrs default_attrs).result =
      Except.ok p → p.run_phi_kernel_ = false ∧ p.phi_kernel_ = empty_kernel) ∧
    (PreparedOp.Prepare b fl env ins outs op place attrs default_attrs).result =
      (match env.AllOpKernels op.Type_ with
      | none =>
        Except.error
          (EnforceNotMet.NotFound
            "There are no kernels which are registered in the %s operator."
            [ErrorArg.str op.Type_])
      | some kernels =>
        match kernels (SubstitutedDescriptor b r.is_xpu_unsupport kp kernels d0) with
        | some func =>
          Except.ok
            (PreparedOp.mkLegacy r.op empty_ctx
              (env.TransOpKernelTypeToPhiKernelKey
                (SubstitutedDescriptor b r.is_xpu_unsupport kp kernels d0))
              func none none
              (LegacyDevCtx env (SubstitutedDescriptor b r.is_xpu_unsupport kp kernels d0)
                r.dev_ctx))
        | none =>
          Except.error
            (EnforceNotMet.NotFound "Operator %s does not have kernel for %s."
              [ErrorArg.str op.Type_,
                ErrorArg.kernelType
                  (SubstitutedDescriptor b r.is_xpu_unsupport kp kernels d0)])) ∧
    (∀ kernels func, env.AllOpKernels op.Type_ = some kernels →
      kernels d0 = some func → r.is_xpu_unsupport = false → kp = false →
      (PreparedOp.Prepare b fl env ins outs op place attrs default_attrs).result =
        Except.ok
          (PreparedOp.mkLegacy r.op empty_ctx (env.TransOpKernelTypeToPhiKernelKey d0)
            func none none (LegacyDevCtx env d0 r.dev_ctx))) ∧
    (∀ kernels, env.AllOpKernels op.Type_ = some kernels →
      kernels d0 = none → AcceleratorTarget b d0.place_ = true → kp = false →
      (PreparedOp.Prepare b fl env ins outs op place attrs default_attrs).result =
        match kernels { d0 with place_ := Place.CPUPlace } with
        | some func =>
          Except.ok
            (PreparedOp.mkLegacy r.op empty_ctx
              (env.TransOpKernelTypeToPhiKernelKey { d0 with place_ := Place.CPUPlace })
              func none none
              (LegacyDevCtx env { d0 with place_ := Place.CPUPlace } r.dev_ctx))
        | none =>
          Except.error
            (EnforceNotMet.NotFound "Operator %s does not have kernel for %s."
              [ErrorArg.str op.Type_,
                ErrorArg.kernelType { d0 with place_ := Place.CPUPlace }])) := by
  have hty : r.op.Type_ = op.Type_ := by
    rw [hr]
    exact ResolvedOf_op_Type b fl env ins outs op place attrs default_attrs
  have hsig : r.sig =
      { has_phi_kernel := false, arg_map_fn := none, default_kernel_signature := none,
        kernel_signature := KernelSignature.default } := by
    rw [hr]
    exact ResolvedOf_sig_none b fl env ins outs op place attrs default_attrs h1 h2 h3
  have hhas : r.sig.has_phi_kernel = false := by rw [hsig]
  have hleg : ∀ (e : Env V) (pkf : KernelFactory), SelectFrom b fl e pkf r =
      LegacySelect b e r (LegacyKpSupport b fl e r.op r.expected_kernel_key)
        (FluidKernelType b fl e r) := by
    intro e pkf
    exact SelectFrom_legacy b fl e pkf r (by rw [hhas]; rfl) (by rw [hhas]; simp)
  have hfk : FluidKernelType b fl env r = d0 := by
    rw [hd0, hkp]
    unfold FluidKernelType LegacyPhaseKey LegacyKpKey
    rfl
  have hres : (PreparedOp.Prepare b fl env ins outs op place attrs default_attrs).result =
      LegacySelect b env r kp d0 := by
    rw [Prepare_result, ← hr, hleg env _, hfk, ← hkp]
  have hexpl : LegacySelect b env r kp d0 =
      (match env.AllOpKernels op.Type_ with
      | none =>
        Except.error
          (EnforceNotMet.NotFound
            "There are no kernels which are registered in the %s operator."
            [ErrorArg.str op.Type_])
      | some kernels =>
        match kernels (SubstitutedDescriptor b r.is_xpu_unsupport kp kernels d0) with
        | some func =>
          Except.ok
            (PreparedOp.mkLegacy r.op empty_ctx
              (env.TransOpKernelTypeToPhiKernelKey
                (SubstitutedDescriptor b r.is_xpu_unsupport kp kernels d0))
              func none none
              (LegacyDevCtx env (SubstitutedDescriptor b r.is_xpu_unsupport kp kernels d0)
                r.dev_ctx))
        | none =>
          Except.error
            (EnforceNotMet.NotFound "Operator %s does not have kernel for %s."
              [ErrorArg.str op.Type_,
                ErrorArg.kernelType
                  (SubstitutedDescriptor b r.is_xpu_unsupport kp kernels d0)])) := by
    unfold LegacySelect
    rw [hty, hsig]
    cases env.AllOpKernels op.Type_ with
    | none => rfl
    | some kernels =>
      simp only
      rw [LegacyLookup_eq]
      simp only
      cases kernels (SubstitutedDescriptor b r.is_xpu_unsupport kp kernels d0) <;> rfl
  refine ⟨?_, ?_, ?_, ?_, ?_⟩
  · intro select has
    rw [Prepare_result, Prepare_result,
      ResolvedOf_withSelectKernel b fl env select has ins outs op place attrs default_attrs
        (by rw [← hr]; exact hhas), ← hr, hleg, hleg]
    rfl
  · intro p hp
    rw [hres] at hp
    unfold LegacySelect at hp
    split at hp
    · cases hp
    · simp only at hp
      split at hp
      · cases hp
      · cases hp
        exact ⟨rfl, rfl⟩
  · rw [hres, hexpl]
  · intro kernels func ht hf hu hk
    rw [hres, hexpl, ht]
    simp only
    have hd : SubstitutedDescriptor b r.is_xpu_unsupport kp kernels d0 = d0 := by
      unfold SubstitutedDescriptor
      simp [hu, hk, hf]
    rw [hd, hf]
  · intro kernels ht hf hacc hk
    rw [hres, hexpl, ht]
    simp only
    have hd : SubstitutedDescriptor b r.is_xpu_unsupport kp kernels d0 =
        { d0 with place_ := Place.CPUPlace } := by
      unfold AcceleratorTarget at hacc
      unfold SubstitutedDescriptor
      cases hx : b.PADDLE_WITH_XPU <;> cases hi : b.PADDLE_WITH_IPU <;>
        cases hc : b.PADDLE_WITH_CUSTOM_DEVICE <;> cases hp : d0.place_ <;>
        simp_all [is_xpu_place, is_ipu_place, is_custom_place]
    rw [hd]

/-- Witness for C11: in an XPU build `conv` has no signature registration and
    targets an XPU, the legacy table has an entry for the CPU descriptor only,
    and `Prepare` returns that CPU legacy kernel on the pool's CPU context,
    although the factory holds a valid unified kernel at the XPU key. -/
theorem C11_no_signature_goes_to_legacy_witness :
    (phiAt [xpuKey] sampleFn "conv2d" xpuKey).IsValid = true ∧
    tableOf [(cpuDesc, { handle := 8 })] xpuDesc = none ∧
    (PreparedOp.Prepare xpuBuild noFlags
        (sampleEnv xpuKey (phiAt [xpuKey] sampleFn) noSig
          (legacyAt [(cpuDesc, { handle := 8 })]) true false)
        [] [] convOp (Place.XPUPlace 0) [] []).result =
      Except.ok
        (PreparedOp.mkLegacy convOp empty_ctx cpuKey { handle := 8 } none none
          (samplePool Place.CPUPlace)) :=
  ⟨by decide, by decide,
    (C11_no_signature_goes_to_legacy xpuBuild noFlags
      (sampleEnv xpuKey (phiAt [xpuKey] sampleFn) noSig
        (legacyAt [(cpuDesc, { handle := 8 })]) true false)
      [] [] convOp (Place.XPUPlace 0) [] []
      (ResolvedOf xpuBuild noFlags
        (sampleEnv xpuKey (phiAt [xpuKey] sampleFn) noSig
          (legacyAt [(cpuDesc, { handle := 8 })]) true false)
        [] [] convOp (Place.XPUPlace 0) [] [])
      false xpuDesc rfl (by decide) (by decide) rfl rfl rfl).2.2.2.2
      (tableOf [(cpuDesc, { handle := 8 })]) rfl (by decide) (by decide) rfl⟩

/-- The resolved key is the library key, passed through the KP override when a
    signature was found. -/
theorem ResolvedOf_key {V : Type} (b : BuildConfig) (fl : GlobalFlags) (env : Env V)
    (ins outs : NameVarMap V) (op : OperatorWithKernel) (place : Place)
    (attrs default_attrs : AttributeMap) :
    (ResolvedOf b fl env ins outs op place attrs default_attrs).expected_kernel_key =
      if (ResolvedOf b fl env ins outs op place attrs default_attrs).sig.has_phi_kernel
      then
        PhiKpKey b fl env env.KernelFactory_Instance
          (ResolvedOf b fl env ins outs op place attrs default_attrs).op
          (ResolvedOf b fl env ins outs op place attrs
            default_attrs).sig.kernel_signature.name
          (LibraryKey b fl env ins outs op place attrs default_attrs)
      else LibraryKey b fl env ins outs op place attrs default_attrs := rfl

/-- The KP override of the unified stage acts on XPU keys only. -/
theorem PhiKpKey_not_xpu {V : Type} (b : BuildConfig) (fl : GlobalFlags) (env : Env V)
    (pkf : KernelFactory) (op : OperatorWithKernel) (n : String) (k : KernelKey)
    (h : k.backend ≠ Backend.XPU) : PhiKpKey b fl env pkf op n k = k := by
  unfold PhiKpKey
  simp [h]

/-- The KP override of the legacy stage acts on XPU keys only. -/
theorem LegacyKpSupport_not_xpu {V : Type} (b : BuildConfig) (fl : GlobalFlags)
    (env : Env V) (op : OperatorWithKernel) (k : KernelKey)
    (h : k.backend ≠ Backend.XPU) : LegacyKpSupport b fl env op k = false := by
  unfold LegacyKpSupport
  simp [h]

/-- The KP override never changes the dtype of the key. -/
theorem PhiKpKey_dtype {V : Type} (b : BuildConfig) (fl : GlobalFlags) (env : Env V)
    (pkf : KernelFactory) (op : OperatorWithKernel) (n : String) (k : KernelKey) :
    (PhiKpKey b fl env pkf op n k).dtype = k.dtype := by
  unfold PhiKpKey
  dsimp only
  split
  · split
    · split <;> rfl
    · rfl
  · rfl

/-- The KP override of a KP-supported op whose KPS key has no unified kernel
    gives the key back. -/
theorem PhiKpKey_revert {V : Type} (b : BuildConfig) (fl : GlobalFlags) (env : Env V)
    (pkf : KernelFactory) (op : OperatorWithKernel) (n : String) (k : KernelKey)
    (hb : k.backend = Backend.XPU)
    (hno : pkf.HasKernel n (k.set_backend Backend.KPS) = false) :
    PhiKpKey b fl env pkf op n k = k := by
  unfold PhiKpKey
  dsimp only
  split
  · split
    · rw [hno]
      simp only [Bool.not_false, if_true]
      cases k
      rfl
    · rfl
  · rfl

/-- C15 (as stated, refuted): in a CUDA build the key of `conv` is upgraded
    from GPU to GPUDNN by the cuDNN override; no unified kernel and no legacy
    kernel is registered under the upgraded key, both are registered under the
    pre-override GPU key, and `Prepare` fails instead of reverting. -/
theorem C15_counterexample :
    DerivedKey cudaBuild noFlags
        (cudnnEnv (phiAt [gpuKey] sampleFn) (legacyAt [(gpuDesc, { handle := 7 })]))
        [] [] convOp (Place.GPUPlace 0) [] [] = gpuKey ∧
    (ResolvedOf cudaBuild noFlags
        (cudnnEnv (phiAt [gpuKey] sampleFn) (legacyAt [(gpuDesc, { handle := 7 })]))
        [] [] convOp (Place.GPUPlace 0) [] []).expected_kernel_key = gpudnnKey ∧
    (phiAt [gpuKey] sampleFn "conv2d" gpudnnKey).IsValid = false ∧
    tableOf [(gpuDesc, { handle := 7 })] gpudnnDesc = none ∧
    (phiAt [gpuKey] sampleFn "conv2d" gpuKey).IsValid = true ∧
    tableOf [(gpuDesc, { handle := 7 })] gpuDesc = some { handle := 7 } ∧
    (PreparedOp.Prepare cudaBuild noFlags
        (cudnnEnv (phiAt [gpuKey] sampleFn) (legacyAt [(gpuDesc, { handle := 7 })]))
        [] [] convOp (Place.GPUPlace 0) [] []).result =
      Except.error
        (EnforceNotMet.NotFound "Operator %s does not have kernel for %s."
          [ErrorArg.str "conv", ErrorArg.kernelType gpudnnDesc]) := by
  decide

/-- C15 (amended): only the XPU-KP override is advisory, and only for the
    unified lookup.  In an XPU-KP build, when the key before the KP override
    has backend XPU and the factory has no kernel of the signature's name at
    the KPS-upgraded key, the resolved key is the pre-override key, and a valid
    unified kernel registered under it is selected.  A key that the oneDNN or
    cuDNN override moved off the XPU backend is never reverted: the unified
    lookup and the legacy phase both hold the upgraded key. -/
theorem C15_only_kp_override_reverts {V : Type} (b : BuildConfig) (fl : GlobalFlags)
    (env : Env V) (ins outs : NameVarMap V) (op : OperatorWithKernel) (place : Place)
    (attrs default_attrs : AttributeMap) (r : Resolved)
    (hr : r = ResolvedOf b fl env ins outs op place attrs default_attrs) :
    ((LibraryKey b fl env ins outs op place attrs default_attrs).backend ≠ Backend.XPU →
      r.expected_kernel_key = LibraryKey b fl env ins outs op place attrs default_attrs ∧
      LegacyPhaseKey b fl env r =
        LibraryKey b fl env ins outs op place attrs default_attrs) ∧
    (b.PADDLE_WITH_XPU_KP = true →
      (LibraryKey b fl env ins outs op place attrs default_attrs).backend = Backend.XPU →
      r.sig.has_phi_kernel = true →
      env.KernelFactory_Instance.HasKernel r.sig.kernel_signature.name
        ((LibraryKey b fl env ins outs op place attrs default_attrs).set_backend
          Backend.KPS) = false →
      r.expected_kernel_key = LibraryKey b fl env ins outs op place attrs default_attrs ∧
      ((env.KernelFactory_Instance.SelectKernel r.sig.kernel_signature.name
          (LibraryKey b fl env ins outs op place attrs default_attrs)).IsValid = true →
        (PreparedOp.Prepare b fl env ins outs op place attrs default_attrs).result =
          Except.ok
            { op_ := r.op
              ctx_ := empty_ctx
              kernel_key_ := LibraryKey b fl env ins outs op place attrs default_attrs
              func_ := none
              dev_ctx_ := PhiDevCtx env
                (LibraryKey b fl env ins outs op place attrs default_attrs) r.dev_ctx
              run_phi_kernel_ := true
              arg_map_fn_ := r.sig.arg_map_fn
              default_kernel_signature_ := r.sig.default_kernel_signature
              kernel_signature_ := r.sig.kernel_signature
              phi_kernel_ := env.KernelFactory_Instance.SelectKernel
                r.sig.kernel_signature.name
                (LibraryKey b fl env ins outs op place attrs default_attrs) })) := by
  have hkey := ResolvedOf_key b fl env ins outs op place attrs default_attrs
  rw [← hr] at hkey
  constructor
  · intro hne
    have h1 : r.expected_kernel_key =
        LibraryKey b fl env ins outs op place attrs default_attrs := by
      rw [hkey]
      split
      · exact PhiKpKey_not_xpu b fl env _ _ _ _ hne
      · rfl
    refine ⟨h1, ?_⟩
    unfold LegacyPhaseKey LegacyKpKey
    rw [LegacyKpSupport_not_xpu b fl env r.op r.expected_kernel_key (by rw [h1]; exact hne)]
    exact h1
  · intro hkp hxpu hsig hno
    have h1 : r.expected_kernel_key =
        LibraryKey b fl env ins outs op place attrs default_attrs := by
      rw [hkey, if_pos hsig]
      exact PhiKpKey_revert b fl env _ _ _ _ hxpu hno
    refine ⟨h1, ?_⟩
    intro hvalid
    have hguard : XpuGuard b r.is_xpu_unsupport = false := by
      unfold XpuGuard
      simp [hkp]
    rw [Prepare_result, ← hr, SelectFrom_tier1 b fl env _ r hsig (by rw [h1]; exact hvalid)
      hguard, h1]
    rfl

/-- Witness for C15 (amended): in an XPU-KP build the KP-white-listed `conv`
    has no unified KPS kernel, and the unified kernel registered under the
    pre-override XPU key is selected. -/
theorem C15_only_kp_override_reverts_witness :
    (PreparedOp.Prepare xpuKpBuild noFlags
        (sampleEnv xpuKey (phiAt [xpuKey] sampleFn) convSig noLegacy true true)
        [] [] convOp (Place.XPUPlace 0) [] []).result =
      Except.ok
        { op_ := convOp
          ctx_ := empty_ctx
          kernel_key_ := xpuKey
          func_ := none
          dev_ctx_ := samplePool (Place.XPUPlace 0)
          run_phi_kernel_ := true
          arg_map_fn_ := none
          default_kernel_signature_ := some (KernelSignature.ofName "conv2d")
          kernel_signature_ := KernelSignature.ofName "conv2d"
          phi_kernel_ := { fn := some 2, kernel_registered_type := .FUNCTION } } :=
  ((C15_only_kp_override_reverts xpuKpBuild noFlags
    (sampleEnv xpuKey (phiAt [xpuKey] sampleFn) convSig noLegacy true true)
    [] [] convOp (Place.XPUPlace 0) [] []
    (ResolvedOf xpuKpBuild noFlags
      (sampleEnv xpuKey (phiAt [xpuKey] sampleFn) convSig noLegacy true true)
      [] [] convOp (Place.XPUPlace 0) [] [])
    rfl).2 rfl (by decide) (by decide) (by decide)).2 (by decide)

/-- The net effect of the KP override of the unified stage: the key moves to
    backend KPS exactly when the build has KP, the key is on XPU, the op is
    KP-supported (by the run-time flag and the support list, or by the white
    list) and the factory has a kernel of that name at the KPS key. -/
theorem PhiKpKey_eq {V : Type} (b : BuildConfig) (fl : GlobalFlags) (env : Env V)
    (pkf : KernelFactory) (op : OperatorWithKernel) (n : String) (k : KernelKey) :
    PhiKpKey b fl env pkf op n k =
      if b.PADDLE_WITH_XPU_KP = true ∧ k.backend = Backend.XPU ∧
          (fl.FLAGS_run_kp_kernel = true ∧
              env.is_xpu_kp_support_op op.Type_ k.dtype = true ∨
            env.is_in_xpu_kpwhite_list op.Type_ = true) ∧
          pkf.HasKernel n (k.set_backend Backend.KPS) = true then
        k.set_backend Backend.KPS
      else k := by
  unfold PhiKpKey
  cases k with
  | mk bk ly dt =>
    by_cases hb : bk = Backend.XPU <;>
      cases hkp : b.PADDLE_WITH_XPU_KP <;> cases hr : fl.FLAGS_run_kp_kernel <;>
      cases hs : env.is_xpu_kp_support_op op.Type_ dt <;>
      cases hw : env.is_in_xpu_kpwhite_list op.Type_ <;>
      cases hh : pkf.HasKernel n { backend := Backend.KPS, layout := ly, dtype := dt } <;>
      simp_all [KernelKey.set_backend]

/-- C16 (as stated, refuted): in a build with oneDNN and CUDA the oneDNN
    override has bound the key of `conv` to the library backend ONEDNN, and the
    cuDNN override, whose only condition is its probe, upgrades the backend
    again, to GPUDNN: the resolved key is GPUDNN with the ONEDNN layout. -/
theorem C16_counterexample :
    DerivedKey dnnlCudaBuild noFlags (onednnEnv true) [] [] convOp Place.CPUPlace [] [] =
      cpuKey ∧
    MkldnnKey dnnlCudaBuild noFlags (onednnEnv true) [] [] convOp Place.CPUPlace [] [] =
      onednnKey ∧
    (ResolvedOf dnnlCudaBuild noFlags (onednnEnv true) [] [] convOp Place.CPUPlace [] []
      ).expected_kernel_key =
      { backend := Backend.GPUDNN, layout := DataLayout.ONEDNN, dtype := DataType.FLOAT32 } := by
  decide

/-- C16 (amended): the oneDNN override (compiled under `PADDLE_WITH_DNNL`)
    sets backend and layout of the derived key to ONEDNN exactly when
    `!DnnFallback()`, `!in_mkldnn_white_list(op type)` and `CanMKLDNNBeUsed`
    all hold; the cuDNN override (compiled under CUDA or HIP) sets the backend
    to GPUDNN exactly when its probe `CanCUDNNBeUsed` approves, whatever the
    backend the key has by then; the key that `Prepare` resolves is the key
    after these two overrides, moved to backend KPS exactly when a signature
    was found, the build has KP, that key is on XPU, the op is KP-supported and
    the factory has a kernel of the signature's name at the KPS key.  So the
    resolved key is ONEDNN / ONEDNN when only the oneDNN condition holds, has
    backend GPUDNN when the cuDNN probe approves, and is exactly the derived
    key when neither holds and the KP override does not apply; no override
    changes the dtype. -/
theorem C16_library_override_condition {V : Type} (b : BuildConfig) (fl : GlobalFlags)
    (env : Env V) (ins outs : NameVarMap V) (op : OperatorWithKernel) (place : Place)
    (attrs default_attrs : AttributeMap) :
    MkldnnKey b fl env ins outs op place attrs default_attrs =
      (if b.PADDLE_WITH_DNNL = true ∧
          env.DnnFallback (OverwriteOpAttrs b fl op attrs default_attrs) = false ∧
          env.in_mkldnn_white_list op.Type_ = false ∧
          env.CanMKLDNNBeUsed (OverwriteOpAttrs b fl op attrs default_attrs)
            (ExeCtxOf b fl env ins outs op place attrs default_attrs)
            (DerivedKey b fl env ins outs op place attrs default_attrs).dtype = true then
        { backend := Backend.ONEDNN, layout := DataLayout.ONEDNN,
          dtype := (DerivedKey b fl env ins outs op place attrs default_attrs).dtype }
      else DerivedKey b fl env ins outs op place attrs default_attrs) ∧
    LibraryKey b fl env ins outs op place attrs default_attrs =
      (if (b.PADDLE_WITH_CUDA = true ∨ b.PADDLE_WITH_HIP = true) ∧
          env.CanCUDNNBeUsed (OverwriteOpAttrs b fl op attrs default_attrs)
            (ExeCtxOf b fl env ins outs op place attrs default_attrs)
            (MkldnnKey b fl env ins outs op place attrs default_attrs).dtype = true then
        { backend := Backend.GPUDNN,
          layout := (MkldnnKey b fl env ins outs op place attrs default_attrs).layout,
          dtype := (MkldnnKey b fl env ins outs op place attrs default_attrs).dtype }
      else MkldnnKey b fl env ins outs op place attrs default_attrs) ∧
    (MkldnnKey b fl env ins outs op place attrs default_attrs).dtype =
      (DerivedKey b fl env ins outs op place attrs default_attrs).dtype ∧
    (LibraryKey b fl env ins outs op place attrs default_attrs).dtype =
      (DerivedKey b fl env ins outs op place attrs default_attrs).dtype ∧
    (ResolvedOf b fl env ins outs op place attrs default_attrs).expected_kernel_key.dtype =
      (DerivedKey b fl env ins outs op place attrs default_attrs).dtype ∧
    (ResolvedOf b fl env ins outs op place attrs default_attrs).expected_kernel_key =
      (if ((ResolvedOf b fl env ins outs op place attrs default_attrs).sig.has_phi_kernel = true ∧
          b.PADDLE_WITH_XPU_KP = true ∧
          (LibraryKey b fl env ins outs op place attrs default_attrs).backend = Backend.XPU ∧
          (fl.FLAGS_run_kp_kernel = true ∧
              env.is_xpu_kp_support_op op.Type_
                (LibraryKey b fl env ins outs op place attrs default_attrs).dtype = true ∨
            env.is_in_xpu_kpwhite_list op.Type_ = true) ∧
          env.KernelFactory_Instance.HasKernel
            (ResolvedOf b fl env ins outs op place attrs default_attrs).sig.kernel_signature.name
            ((LibraryKey b fl env ins outs op place attrs default_attrs).set_backend Backend.KPS) = true) then
        (LibraryKey b fl env ins outs op place attrs default_attrs).set_backend Backend.KPS
      else LibraryKey b fl env ins outs op place attrs default_attrs) ∧
    ((b.PADDLE_WITH_DNNL = true ∧
          env.DnnFallback (OverwriteOpAttrs b fl op attrs default_attrs) = false ∧
          env.in_mkldnn_white_list op.Type_ = false ∧
          env.CanMKLDNNBeUsed (OverwriteOpAttrs b fl op attrs default_attrs)
            (ExeCtxOf b fl env ins outs op place attrs default_attrs)
            (DerivedKey b fl env ins outs op place attrs default_attrs).dtype = true) →
      ¬ ((b.PADDLE_WITH_CUDA = true ∨ b.PADDLE_WITH_HIP = true) ∧
          env.CanCUDNNBeUsed (OverwriteOpAttrs b fl op attrs default_attrs)
            (ExeCtxOf b fl env ins outs op place attrs default_attrs)
            (MkldnnKey b fl env ins outs op place attrs default_attrs).dtype = true) →
      (ResolvedOf b fl env ins outs op place attrs default_attrs).expected_kernel_key =
        { backend := Backend.ONEDNN, layout := DataLayout.ONEDNN,
          dtype := (DerivedKey b fl env ins outs op place attrs default_attrs).dtype }) ∧
    (((b.PADDLE_WITH_CUDA = true ∨ b.PADDLE_WITH_HIP = true) ∧
          env.CanCUDNNBeUsed (OverwriteOpAttrs b fl op attrs default_attrs)
            (ExeCtxOf b fl env ins outs op place attrs default_attrs)
            (MkldnnKey b fl env ins outs op place attrs default_attrs).dtype = true) →
      (ResolvedOf b fl env ins outs op place attrs default_attrs).expected_kernel_key =
        { backend := Backend.GPUDNN,
          layout := (MkldnnKey b fl env ins outs op place attrs default_attrs).layout,
          dtype := (DerivedKey b fl env ins outs op place attrs default_attrs).dtype }) ∧
    (¬ (b.PADDLE_WITH_DNNL = true ∧
          env.DnnFallback (OverwriteOpAttrs b fl op attrs default_attrs) = false ∧
          env.in_mkldnn_white_list op.Type_ = false ∧
          env.CanMKLDNNBeUsed (OverwriteOpAttrs b fl op attrs default_attrs)
            (ExeCtxOf b fl env ins outs op place attrs default_attrs)
            (DerivedKey b fl env ins outs op place attrs default_attrs).dtype = true) →
      ¬ ((b.PADDLE_WITH_CUDA = true ∨ b.PADDLE_WITH_HIP = true) ∧
          env.CanCUDNNBeUsed (OverwriteOpAttrs b fl op attrs default_attrs)
            (ExeCtxOf b fl env ins outs op place attrs default_attrs)
            (MkldnnKey b fl env ins outs op place attrs default_attrs).dtype = true) →
      b.PADDLE_WITH_XPU_KP = false ∨
        (DerivedKey b fl env ins outs op place attrs default_attrs).backend ≠ Backend.XPU →
      (ResolvedOf b fl env ins outs op place attrs default_attrs).expected_kernel_key =
        DerivedKey b fl env ins outs op place attrs default_attrs) := by
  have hty := OverwriteOpAttrs_Type b fl op attrs default_attrs
  have hm : MkldnnKey b fl env ins outs op place attrs default_attrs =
      (if b.PADDLE_WITH_DNNL = true ∧
          env.DnnFallback (OverwriteOpAttrs b fl op attrs default_attrs) = false ∧
          env.in_mkldnn_white_list op.Type_ = false ∧
          env.CanMKLDNNBeUsed (OverwriteOpAttrs b fl op attrs default_attrs)
            (ExeCtxOf b fl env ins outs op place attrs default_attrs)
            (DerivedKey b fl env ins outs op place attrs default_attrs).dtype = true then
        { backend := Backend.ONEDNN, layout := DataLayout.ONEDNN,
          dtype := (DerivedKey b fl env ins outs op place attrs default_attrs).dtype }
      else DerivedKey b fl env ins outs op place attrs default_attrs) := by
    unfold MkldnnKey ApplyMKLDNN
    rw [hty]
    cases b.PADDLE_WITH_DNNL <;>
      cases env.DnnFallback (OverwriteOpAttrs b fl op attrs default_attrs) <;>
      cases env.in_mkldnn_white_list op.Type_ <;>
      cases env.CanMKLDNNBeUsed (OverwriteOpAttrs b fl op attrs default_attrs)
        (ExeCtxOf b fl env ins outs op place attrs default_attrs)
        (DerivedKey b fl env ins outs op place attrs default_attrs).dtype <;>
      simp [KernelKey.set_backend, KernelKey.set_layout]
  have hc : LibraryKey b fl env ins outs op place attrs default_attrs =
      (if (b.PADDLE_WITH_CUDA = true ∨ b.PADDLE_WITH_HIP = true) ∧
          env.CanCUDNNBeUsed (OverwriteOpAttrs b fl op attrs default_attrs)
            (ExeCtxOf b fl env ins outs op place attrs default_attrs)
            (MkldnnKey b fl env ins outs op place attrs default_attrs).dtype = true then
        { backend := Backend.GPUDNN,
          layout := (MkldnnKey b fl env ins outs op place attrs default_attrs).layout,
          dtype := (MkldnnKey b fl env ins outs op place attrs default_attrs).dtype }
      else MkldnnKey b fl env ins outs op place attrs default_attrs) := by
    unfold LibraryKey ApplyCUDNN
    cases b.PADDLE_WITH_CUDA <;> cases b.PADDLE_WITH_HIP <;>
      cases env.CanCUDNNBeUsed (OverwriteOpAttrs b fl op attrs default_attrs)
        (ExeCtxOf b fl env ins outs op place attrs default_attrs)
        (MkldnnKey b fl env ins outs op place attrs default_attrs).dtype <;>
      simp [KernelKey.set_backend]
  have hmd : (MkldnnKey b fl env ins outs op place attrs default_attrs).dtype =
      (DerivedKey b fl env ins outs op place attrs default_attrs).dtype := by
    rw [hm]
    split <;> rfl
  have hcd : (LibraryKey b fl env ins outs op place attrs default_attrs).dtype =
      (DerivedKey b fl env ins outs op place attrs default_attrs).dtype := by
    rw [hc]
    split
    · exact hmd
    · exact hmd
  have hty2 := ResolvedOf_op_Type b fl env ins outs op place attrs default_attrs
  have hkey : (ResolvedOf b fl env ins outs op place attrs default_attrs).expected_kernel_key =
      (if ((ResolvedOf b fl env ins outs op place attrs default_attrs).sig.has_phi_kernel = true ∧
          b.PADDLE_WITH_XPU_KP = true ∧
          (LibraryKey b fl env ins outs op place attrs default_attrs).backend = Backend.XPU ∧
          (fl.FLAGS_run_kp_kernel = true ∧
              env.is_xpu_kp_support_op op.Type_
                (LibraryKey b fl env ins outs op place attrs default_attrs).dtype = true ∨
            env.is_in_xpu_kpwhite_list op.Type_ = true) ∧
          env.KernelFactory_Instance.HasKernel
            (ResolvedOf b fl env ins outs op place attrs default_attrs).sig.kernel_signature.name
            ((LibraryKey b fl env ins outs op place attrs default_attrs).set_backend Backend.KPS) = true) then
        (LibraryKey b fl env ins outs op place attrs default_attrs).set_backend Backend.KPS
      else LibraryKey b fl env ins outs op place attrs default_attrs) := by
    rw [ResolvedOf_key]
    by_cases hs : (ResolvedOf b fl env ins outs op place attrs default_attrs).sig.has_phi_kernel = true
    · rw [if_pos hs, PhiKpKey_eq, hty2]
      simp only [hs, true_and]
    · rw [if_neg hs, if_neg (fun h => hs h.1)]
  have hnx : (LibraryKey b fl env ins outs op place attrs default_attrs).backend ≠ Backend.XPU →
      (ResolvedOf b fl env ins outs op place attrs default_attrs).expected_kernel_key = LibraryKey b fl env ins outs op place attrs default_attrs := by
    intro h
    rw [hkey, if_neg (fun hh => h hh.2.2.1)]
  refine ⟨hm, hc, hmd, hcd, ?_, hkey, ?_, ?_, ?_⟩
  · rw [ResolvedOf_key]
    split
    · rw [PhiKpKey_dtype]
      exact hcd
    · exact hcd
  · intro h1 h2
    have hl : LibraryKey b fl env ins outs op place attrs default_attrs =
        { backend := Backend.ONEDNN, layout := DataLayout.ONEDNN,
          dtype := (DerivedKey b fl env ins outs op place attrs default_attrs).dtype } := by
      rw [hc, if_neg h2, hm, if_pos h1]
    rw [hnx (by rw [hl]; exact (by decide : Backend.ONEDNN ≠ Backend.XPU)), hl]
  · intro h1
    have hl : LibraryKey b fl env ins outs op place attrs default_attrs =
        { backend := Backend.GPUDNN,
          layout := (MkldnnKey b fl env ins outs op place attrs default_attrs).layout,
          dtype := (DerivedKey b fl env ins outs op place attrs default_attrs).dtype } := by
      rw [hc, if_pos h1, hmd]
    rw [hnx (by rw [hl]; exact (by decide : Backend.GPUDNN ≠ Backend.XPU)), hl]
  · intro h1 h2 h3
    have hl : LibraryKey b fl env ins outs op place attrs default_attrs =
        DerivedKey b fl env ins outs op place attrs default_attrs := by
      rw [hc, if_neg h2, hm, if_neg h1]
    rw [hkey, hl]
    rcases h3 with h3 | h3
    · rw [if_neg (fun hh => by rw [h3] at hh; exact Bool.false_ne_true hh.2.1)]
    · rw [if_neg (fun hh => h3 hh.2.2.1)]

/-- Witness for C16 (amended): in a oneDNN build in which `conv` does not
    fall back, is not white-listed and passes the oneDNN probe, the key that
    `Prepare` resolves is ONEDNN / ONEDNN / float32. -/
theorem C16_library_override_condition_witness :
    (ResolvedOf dnnlBuild noFlags (onednnEnv false) [] [] convOp Place.CPUPlace [] []
      ).expected_kernel_key = onednnKey :=
  (C16_library_override_condition dnnlBuild noFlags (onednnEnv false) [] [] convOp
    Place.CPUPlace [] []).2.2.2.2.2.2.1 (by decide) (by decide)

/-- Lookup on a non-empty association list. -/
theorem AttributeMap_find_cons (e : String × Attribute) (m : AttributeMap) (k : String) :
    AttributeMap.find (e :: m) k = if e.1 = k then some e.2 else AttributeMap.find m k := by
  unfold AttributeMap.find
  rw [List.find?_cons]
  by_cases h : e.1 = k
  · have hb : (e.1 == k) = true := by simp [h]
    rw [hb, if_pos h]
    rfl
  · have hb : (e.1 == k) = false := by simp [h]
    rw [hb, if_neg h]

/-- The assignment `m[k] = v` is read back at `k` and leaves every other key
    as it was. -/
theorem AttributeMap_find_assign (m : AttributeMap) (k k2 : String) (v : Attribute) :
    AttributeMap.find (AttributeMap.assign m k v) k2 =
      if k2 = k then some v else AttributeMap.find m k2 := by
  induction m with
  | nil =>
    unfold AttributeMap.assign
    rw [AttributeMap_find_cons]
    by_cases h : k2 = k
    · rw [if_pos h.symm, if_pos h]
    · rw [if_neg (fun e => h e.symm), if_neg h]
  | cons e m ih =>
    unfold AttributeMap.assign
    by_cases he : e.1 = k
    · have hb : (e.1 == k) = true := by simp [he]
      rw [hb, if_pos rfl, AttributeMap_find_cons, AttributeMap_find_cons]
      by_cases h : k2 = k
      · rw [if_pos h.symm, if_pos h]
      · rw [if_neg (fun e => h e.symm), if_neg h, if_neg (by rw [he]; exact fun e => h e.symm)]
    · have hb : (e.1 == k) = false := by simp [he]
      rw [hb, if_neg Bool.false_ne_true, AttributeMap_find_cons, AttributeMap_find_cons, ih]
      by_cases h : k2 = k
      · rw [if_pos h, if_neg (by rw [h]; exact he), if_pos h]
      · rw [if_neg h, if_neg h]

/-- A key absent from the key list is not found. -/
theorem AttributeMap_find_none (m : AttributeMap) (k : String)
    (h : k ∉ m.map Prod.fst) : AttributeMap.find m k = none := by
  induction m with
  | nil => rfl
  | cons e m ih =>
    have h1 : ¬ e.1 = k := fun he => h (by simp [he])
    have h2 : k ∉ m.map Prod.fst := fun hm => h (by simp at hm ⊢; exact Or.inr hm)
    rw [AttributeMap_find_cons, if_neg h1]
    exact ih h2

/-- The merge reads the call-site attribute when there is one, else the
    default, for call-site maps with one entry per key. -/
theorem MergeAttrs_find (default_attrs attrs : AttributeMap) (k : String)
    (hnodup : (attrs.map Prod.fst).Nodup) :
    AttributeMap.find (MergeAttrs default_attrs attrs) k =
      match AttributeMap.find attrs k with
      | some v => some v
      | none => AttributeMap.find default_attrs k := by
  unfold MergeAttrs
  induction attrs generalizing default_attrs with
  | nil => rfl
  | cons a rest ih =>
    simp only [List.map_cons, List.nodup_cons] at hnodup
    rw [List.foldl_cons, ih _ hnodup.2, AttributeMap_find_assign]
    rw [AttributeMap_find_cons]
    by_cases h : k = a.1
    · have hr : AttributeMap.find rest k = none :=
        AttributeMap_find_none rest k (by rw [h]; exact hnodup.1)
      rw [hr, if_pos h, if_pos h.symm]
    · rw [if_neg h, if_neg (fun e => h e.symm)]

/-- The operator that `Prepare` leaves behind is the overwritten one. -/
theorem Prepare_op {V : Type} (b : BuildConfig) (fl : GlobalFlags) (env : Env V)
    (ins outs : NameVarMap V) (op : OperatorWithKernel) (place : Place)
    (attrs default_attrs : AttributeMap) :
    (PreparedOp.Prepare b fl env ins outs op place attrs default_attrs).op =
      OverwriteOpAttrs b fl op attrs default_attrs := rfl

/-- C18: in a build with oneDNN and with `FLAGS_use_mkldnn` set, `Prepare`
    first overwrites the operator's attribute map with the merge of the
    default and the call-site attributes (a call-site map having one entry per
    name): afterwards the map holds, for every name, the call-site attribute if
    there is one, else the default if there is one, else nothing; what the
    operator stored before is discarded; and the operator's policies are asked
    on the overwritten operator.  Without the build option or without the flag
    `Prepare` leaves the operator as it was.  The type name and the id are
    never touched. -/
theorem C18_attribute_merge {V : Type} (b : BuildConfig) (fl : GlobalFlags)
    (env : Env V) (ins outs : NameVarMap V) (op : OperatorWithKernel) (place : Place)
    (attrs default_attrs : AttributeMap)
    (hnodup : (attrs.map Prod.fst).Nodup) :
    (b.PADDLE_WITH_DNNL = true → fl.FLAGS_use_mkldnn = true →
      (∀ k, AttributeMap.find
          (PreparedOp.Prepare b fl env ins outs op place attrs default_attrs).op.Attrs k =
        match AttributeMap.find attrs k with
        | some v => some v
        | none => AttributeMap.find default_attrs k) ∧
      (∀ stored : AttributeMap,
        (PreparedOp.Prepare b fl env ins outs { op with Attrs := stored } place attrs
          default_attrs).op =
        (PreparedOp.Prepare b fl env ins outs op place attrs default_attrs).op)) ∧
    ((b.PADDLE_WITH_DNNL = false ∨ fl.FLAGS_use_mkldnn = false) →
      (PreparedOp.Prepare b fl env ins outs op place attrs default_attrs).op = op) ∧
    (ExeCtxOf b fl env ins outs op place attrs default_attrs).op =
      (PreparedOp.Prepare b fl env ins outs op place attrs default_attrs).op ∧
    (PreparedOp.Prepare b fl env ins outs op place attrs default_attrs).op.Type_ =
      op.Type_ ∧
    (PreparedOp.Prepare b fl env ins outs op place attrs default_attrs).op.Id = op.Id := by
  refine ⟨?_, ?_, rfl, ?_, ?_⟩
  · intro hb hf
    constructor
    · intro k
      rw [Prepare_op]
      unfold OverwriteOpAttrs
      rw [hb, hf]
      exact MergeAttrs_find default_attrs attrs k hnodup
    · intro stored
      rw [Prepare_op, Prepare_op]
      unfold OverwriteOpAttrs
      rw [hb, hf]
      rfl
  · intro h
    rw [Prepare_op]
    unfold OverwriteOpAttrs
    rcases h with h | h <;> simp [h]
  · rw [Prepare_op]
    exact OverwriteOpAttrs_Type b fl op attrs default_attrs
  · rw [Prepare_op]
    unfold OverwriteOpAttrs
    split <;> rfl

/-- Witness for C18: with oneDNN and the flag, the call-site `strides`
    overrides the default, the default `groups` is kept, and the attribute
    stored on the operator before is gone. -/
theorem C18_attribute_merge_witness :
    AttributeMap.find
        (PreparedOp.Prepare dnnlBuild mkldnnFlags
          (sampleEnv cpuKey (phiAt [] sampleFn) noSig noLegacy true false)
          [] [] convOpWithAttrs Place.CPUPlace [("strides", Attribute.int 2)]
          [("strides", Attribute.int 1), ("groups", Attribute.int 4)]).op.Attrs "strides"
      = (match AttributeMap.find [("strides", Attribute.int 2)] "strides" with
        | some v => some v
        | none => AttributeMap.find
            [("strides", Attribute.int 1), ("groups", Attribute.int 4)] "strides") ∧
    AttributeMap.find
        (PreparedOp.Prepare dnnlBuild mkldnnFlags
          (sampleEnv cpuKey (phiAt [] sampleFn) noSig noLegacy true false)
          [] [] convOpWithAttrs Place.CPUPlace [("strides", Attribute.int 2)]
          [("strides", Attribute.int 1), ("groups", Attribute.int 4)]).op.Attrs "strides"
      = some (Attribute.int 2) ∧
    AttributeMap.find
        (PreparedOp.Prepare dnnlBuild mkldnnFlags
          (sampleEnv cpuKey (phiAt [] sampleFn) noSig noLegacy true false)
          [] [] convOpWithAttrs Place.CPUPlace [("strides", Attribute.int 2)]
          [("strides", Attribute.int 1), ("groups", Attribute.int 4)]).op.Attrs "groups"
      = some (Attribute.int 4) ∧
    AttributeMap.find
        (PreparedOp.Prepare dnnlBuild mkldnnFlags
          (sampleEnv cpuKey (phiAt [] sampleFn) noSig noLegacy true false)
          [] [] convOpWithAttrs Place.CPUPlace [("strides", Attribute.int 2)]
          [("strides", Attribute.int 1), ("groups", Attribute.int 4)]).op.Attrs "stale"
      = none :=
  ⟨((C18_attribute_merge dnnlBuild mkldnnFlags
      (sampleEnv cpuKey (phiAt [] sampleFn) noSig noLegacy true false)
      [] [] convOpWithAttrs Place.CPUPlace [("strides", Attribute.int 2)]
      [("strides", Attribute.int 1), ("groups", Attribute.int 4)]
      (by decide)).1 rfl rfl).1 "strides",
    by decide, by decide, by decide⟩

/-- The attribute overwrite is idempotent. -/
theorem OverwriteOpAttrs_idem (b : BuildConfig) (fl : GlobalFlags)
    (op : OperatorWithKernel) (attrs default_attrs : AttributeMap) :
    OverwriteOpAttrs b fl (OverwriteOpAttrs b fl op attrs default_attrs) attrs default_attrs
      = OverwriteOpAttrs b fl op attrs default_attrs := by
  unfold OverwriteOpAttrs
  split <;> rfl

/-- Resolving from the operator that a resolution left behind resolves to the
    same locals. -/
theorem ResolvedOf_idem {V : Type} (b : BuildConfig) (fl : GlobalFlags) (env : Env V)
    (ins outs : NameVarMap V) (op : OperatorWithKernel) (place : Place)
    (attrs default_attrs : AttributeMap) :
    ResolvedOf b fl env ins outs (OverwriteOpAttrs b fl op attrs default_attrs) place attrs
        default_attrs =
      ResolvedOf b fl env ins outs op place attrs default_attrs := by
  unfold ResolvedOf Resolve
  rw [OverwriteOpAttrs_idem]

/-- The KP predicate of the legacy phase reads the operator's type only. -/
theorem LegacyKpSupport_congr {V : Type} (b : BuildConfig) (fl : GlobalFlags) (env : Env V)
    (op op2 : OperatorWithKernel) (k : KernelKey) (hty : op2.Type_ = op.Type_) :
    LegacyKpSupport b fl env op2 k = LegacyKpSupport b fl env op k := by
  unfold LegacyKpSupport
  rw [hty]

/-- The KP override of the unified phase reads the operator's type only. -/
theorem PhiKpKey_congr {V : Type} (b : BuildConfig) (fl : GlobalFlags) (env : Env V)
    (pkf : KernelFactory) (op op2 : OperatorWithKernel) (n : String) (k : KernelKey)
    (hty : op2.Type_ = op.Type_) :
    PhiKpKey b fl env pkf op2 n k = PhiKpKey b fl env pkf op n k := by
  unfold PhiKpKey
  rw [hty]

/-- The XPU predicate reads the operator's type only. -/
theorem IsXpuUnsupport_congr {V : Type} (b : BuildConfig) (env : Env V)
    (op op2 : OperatorWithKernel) (k : KernelKey) (hty : op2.Type_ = op.Type_) :
    IsXpuUnsupport b env op2 k = IsXpuUnsupport b env op k := by
  unfold IsXpuUnsupport
  rw [hty]

/-- The legacy tier reads the operator through its type only: on another
    operator of the same type it gives the same outcome, bound to that
    operator. -/
theorem LegacySelect_congr {V : Type} (b : BuildConfig) (env : Env V) (r : Resolved)
    (op2 : OperatorWithKernel) (kp : Bool) (t : OpKernelType)
    (hty : op2.Type_ = r.op.Type_) :
    LegacySelect b env { r with op := op2 } kp t =
      Except.map (fun p => { p with op_ := op2 }) (LegacySelect b env r kp t) := by
  unfold LegacySelect
  dsimp only
  rw [hty]
  cases env.AllOpKernels r.op.Type_ with
  | none => rfl
  | some kernels =>
    dsimp only
    cases (LegacyLookup b r.is_xpu_unsupport kp kernels t).2 <;> rfl

/-- The fallback chain reads the operator through its type and through
    `FallBackToCpu` only: on another operator of the same type, for which
    `FallBackToCpu` answers the same, it gives the same outcome, bound to that
    operator. -/
theorem SelectFrom_congr {V : Type} (b : BuildConfig) (fl : GlobalFlags) (env : Env V)
    (pkf : KernelFactory) (r : Resolved) (op2 : OperatorWithKernel)
    (hty : op2.Type_ = r.op.Type_)
    (hfb : ∀ k, env.FallBackToCpu k op2 = env.FallBackToCpu k r.op) :
    SelectFrom b fl env pkf { r with op := op2 } =
      Except.map (fun p => { p with op_ := op2 }) (SelectFrom b fl env pkf r) := by
  have hkp : LegacyKpSupport b fl env op2 r.expected_kernel_key =
      LegacyKpSupport b fl env r.op r.expected_kernel_key :=
    LegacyKpSupport_congr b fl env r.op op2 _ hty
  have hkey : LegacyPhaseKey b fl env { r with op := op2 } = LegacyPhaseKey b fl env r := by
    unfold LegacyPhaseKey
    dsimp only
    rw [hkp]
  have hfk : FluidKernelType b fl env { r with op := op2 } = FluidKernelType b fl env r := by
    unfold FluidKernelType
    rw [hkey]
  have hck : PhiCpuKernelKey b fl env { r with op := op2 } = PhiCpuKernelKey b fl env r := by
    unfold PhiCpuKernelKey
    rw [hkey]
    exact hfb _
  unfold SelectFrom
  rw [hfk, hck]
  dsimp only
  rw [hkp, hty]
  by_cases h1 : (r.sig.has_phi_kernel &&
      ((pkf.SelectKernel r.sig.kernel_signature.name r.expected_kernel_key).IsValid &&
        !XpuGuard b r.is_xpu_unsupport)) = true
  · rw [if_pos h1, if_pos h1]
    rfl
  · rw [if_neg h1, if_neg h1]
    by_cases h2 : (LegacyMissing b (env.AllOpKernels r.op.Type_) (FluidKernelType b fl env r)
          r.is_xpu_unsupport (LegacyKpSupport b fl env r.op r.expected_kernel_key) &&
        (r.sig.has_phi_kernel &&
          (pkf.SelectKernel r.sig.kernel_signature.name
            (PhiCpuKernelKey b fl env r)).IsValid)) = true
    · rw [if_pos h2, if_pos h2]
      rfl
    · rw [if_neg h2, if_neg h2]
      exact LegacySelect_congr b env r op2 _ _ hty

/-- Two records of resolved locals that agree on everything but the operator
    differ by the operator only. -/
theorem Resolved_eq_with (r r2 : Resolved) (e1 : r2.dev_ctx = r.dev_ctx)
    (e2 : r2.expected_kernel_key = r.expected_kernel_key)
    (e3 : r2.is_xpu_unsupport = r.is_xpu_unsupport) (e4 : r2.sig = r.sig) :
    r2 = { r with op := r2.op } := by
  cases r
  cases r2
  simp only at e1 e2 e3 e4
  subst e1 e2 e3 e4
  rfl

/-- C19: the outcome of `Prepare` is determined by the op type, the key after
    the library overrides, the device context of the target place and the
    resolved signature (and by what `FallBackToCpu` answers for the
    operator), against the same build, flags, registries and predicates: any
    two invocations that agree on these, whatever else differs in their
    operators, inputs and attributes, either both fail with the same error or
    both return `PreparedOp`s with the same kernel kind, unified kernel, legacy
    function, kernel key, signature and device context.  And resolving the
    same invocation again on the operator as the first resolution left it
    (the attribute map is the only state `Prepare` writes) returns the same
    result and leaves the same operator. -/
theorem C19_determinism {V : Type} (b : BuildConfig) (fl : GlobalFlags)
    (env : Env V) (ins outs : NameVarMap V) (op : OperatorWithKernel) (place : Place)
    (attrs default_attrs : AttributeMap) (ins2 outs2 : NameVarMap V)
    (op2 : OperatorWithKernel) (place2 : Place) (attrs2 default_attrs2 : AttributeMap)
    (hty : op2.Type_ = op.Type_)
    (hkey : LibraryKey b fl env ins2 outs2 op2 place2 attrs2 default_attrs2 =
      LibraryKey b fl env ins outs op place attrs default_attrs)
    (hdev : env.DeviceContextPool_Get place2 = env.DeviceContextPool_Get place)
    (hsig : (ResolvedOf b fl env ins2 outs2 op2 place2 attrs2 default_attrs2).sig =
      (ResolvedOf b fl env ins outs op place attrs default_attrs).sig)
    (hfb : ∀ k, env.FallBackToCpu k (OverwriteOpAttrs b fl op2 attrs2 default_attrs2) =
      env.FallBackToCpu k (OverwriteOpAttrs b fl op attrs default_attrs)) :
    (PreparedOp.Prepare b fl env ins2 outs2 op2 place2 attrs2 default_attrs2).result =
      Except.map
        (fun p => { p with op_ := (PreparedOp.Prepare b fl env ins2 outs2 op2 place2 attrs2 default_attrs2).op })
        (PreparedOp.Prepare b fl env ins outs op place attrs default_attrs).result ∧
    (∀ e, (PreparedOp.Prepare b fl env ins outs op place attrs default_attrs).result = Except.error e →
      (PreparedOp.Prepare b fl env ins2 outs2 op2 place2 attrs2 default_attrs2).result = Except.error e) ∧
    (∀ p, (PreparedOp.Prepare b fl env ins outs op place attrs default_attrs).result = Except.ok p →
      ∃ p2, (PreparedOp.Prepare b fl env ins2 outs2 op2 place2 attrs2 default_attrs2).result = Except.ok p2 ∧
        p2.run_phi_kernel_ = p.run_phi_kernel_ ∧ p2.phi_kernel_ = p.phi_kernel_ ∧
        p2.func_ = p.func_ ∧ p2.kernel_key_ = p.kernel_key_ ∧
        p2.kernel_signature_ = p.kernel_signature_ ∧ p2.dev_ctx_ = p.dev_ctx_) ∧
    (PreparedOp.Prepare b fl env ins outs
        (PreparedOp.Prepare b fl env ins outs op place attrs default_attrs).op place attrs
        default_attrs).result =
      (PreparedOp.Prepare b fl env ins outs op place attrs default_attrs).result ∧
    (PreparedOp.Prepare b fl env ins outs
        (PreparedOp.Prepare b fl env ins outs op place attrs default_attrs).op place attrs
        default_attrs).op =
      (PreparedOp.Prepare b fl env ins outs op place attrs default_attrs).op := by
  have ht1 := ResolvedOf_op_Type b fl env ins outs op place attrs default_attrs
  have ht2 := ResolvedOf_op_Type b fl env ins2 outs2 op2 place2 attrs2 default_attrs2
  have hty2 : (ResolvedOf b fl env ins2 outs2 op2 place2 attrs2 default_attrs2).op.Type_ =
      (ResolvedOf b fl env ins outs op place attrs default_attrs).op.Type_ := by
    rw [ht1, ht2, hty]
  have e2 : (ResolvedOf b fl env ins2 outs2 op2 place2 attrs2 default_attrs2).expected_kernel_key =
      (ResolvedOf b fl env ins outs op place attrs default_attrs).expected_kernel_key := by
    rw [ResolvedOf_key, ResolvedOf_key, hsig, hkey,
      PhiKpKey_congr b fl env _ _ _ _ _ hty2]
  have e3 : (ResolvedOf b fl env ins2 outs2 op2 place2 attrs2 default_attrs2).is_xpu_unsupport =
      (ResolvedOf b fl env ins outs op place attrs default_attrs).is_xpu_unsupport := by
    show IsXpuUnsupport b env (ResolvedOf b fl env ins2 outs2 op2 place2 attrs2 default_attrs2).op
        (LibraryKey b fl env ins2 outs2 op2 place2 attrs2 default_attrs2) =
      IsXpuUnsupport b env (ResolvedOf b fl env ins outs op place attrs default_attrs).op
        (LibraryKey b fl env ins outs op place attrs default_attrs)
    rw [hkey, IsXpuUnsupport_congr b env _ _ _ hty2]
  have hr2 := Resolved_eq_with (ResolvedOf b fl env ins outs op place attrs default_attrs)
    (ResolvedOf b fl env ins2 outs2 op2 place2 attrs2 default_attrs2) hdev e2 e3 hsig
  have h1 : (PreparedOp.Prepare b fl env ins2 outs2 op2 place2 attrs2 default_attrs2).result =
      Except.map
        (fun p => { p with op_ := (PreparedOp.Prepare b fl env ins2 outs2 op2 place2 attrs2 default_attrs2).op })
        (PreparedOp.Prepare b fl env ins outs op place attrs default_attrs).result :=
    calc (PreparedOp.Prepare b fl env ins2 outs2 op2 place2 attrs2 default_attrs2).result
        = SelectFrom b fl env env.KernelFactory_Instance
            (ResolvedOf b fl env ins2 outs2 op2 place2 attrs2 default_attrs2) := rfl
      _ = SelectFrom b fl env env.KernelFactory_Instance
            { ResolvedOf b fl env ins outs op place attrs default_attrs with
              op := (ResolvedOf b fl env ins2 outs2 op2 place2 attrs2 default_attrs2).op } :=
          congrArg (SelectFrom b fl env env.KernelFactory_Instance) hr2
      _ = Except.map
            (fun p => { p with op_ := (ResolvedOf b fl env ins2 outs2 op2 place2 attrs2 default_attrs2).op })
            (SelectFrom b fl env env.KernelFactory_Instance
              (ResolvedOf b fl env ins outs op place attrs default_attrs)) :=
          SelectFrom_congr b fl env _ _ _ hty2 hfb
  refine ⟨h1, ?_, ?_, ?_, ?_⟩
  · intro e he
    rw [h1, he]
    rfl
  · intro p hp
    rw [h1, hp]
    exact ⟨_, rfl, rfl, rfl, rfl, rfl, rfl, rfl⟩
  · rw [Prepare_result, Prepare_result, Prepare_op, ResolvedOf_idem]
  · rw [Prepare_op, Prepare_op, OverwriteOpAttrs_idem]

/-- Witness for C19: two invocations of `conv` that differ in the operator
    object (its stored attributes), in the inputs and in the call-site
    attributes, but agree on type, key, place and signature, resolve to the
    same unified kernel, key, signature and device context. -/
theorem C19_determinism_witness :
    (PreparedOp.Prepare plainBuild noFlags
        (sampleEnv cpuKey (phiAt [cpuKey] sampleFn) convSig noLegacy true false)
        [("X", [some ()])] [] convOpWithAttrs Place.CPUPlace
        [("strides", Attribute.int 2)] []).result =
      Except.map (fun p => { p with op_ := convOpWithAttrs })
        (PreparedOp.Prepare plainBuild noFlags
          (sampleEnv cpuKey (phiAt [cpuKey] sampleFn) convSig noLegacy true false)
          [] [] convOp Place.CPUPlace [] []).result ∧
    (PreparedOp.Prepare plainBuild noFlags
        (sampleEnv cpuKey (phiAt [cpuKey] sampleFn) convSig noLegacy true false)
        [] [] convOp Place.CPUPlace [] []).result =
      Except.ok
        (PreparedOp.mkPhi convOp empty_ctx cpuKey none
          (some (KernelSignature.ofName "conv2d")) (KernelSignature.ofName "conv2d")
          { fn := some 1, kernel_registered_type := .FUNCTION }
          (samplePool Place.CPUPlace)) :=
  ⟨(C19_determinism plainBuild noFlags
      (sampleEnv cpuKey (phiAt [cpuKey] sampleFn) convSig noLegacy true false)
      [] [] convOp Place.CPUPlace [] []
      [("X", [some ()])] [] convOpWithAttrs Place.CPUPlace [("strides", Attribute.int 2)] []
      rfl rfl rfl rfl (fun _ => rfl)).1,
    by decide⟩

/-- Nothing runs after a throw. -/
theorem andThen_thrown {V : Type} (s : RunState V) (f : RunState V → RunState V)
    (t : Thrown) (h : s.exception = some t) : s.andThen f = s := by
  unfold RunState.andThen
  rw [h]

/-- Without a throw the next statement runs. -/
theorem andThen_ok {V : Type} (s : RunState V) (f : RunState V → RunState V)
    (h : s.exception = none) : s.andThen f = f s := by
  unfold RunState.andThen
  rw [h]

/-- `Run` is the repair step after the state in which it is reached. -/
theorem Run_eq {V : Type} (b : BuildConfig) (fl : GlobalFlags) (renv : RunEnv V)
    (k : VarKind V) (p : PreparedOp) (ins outs : NameVarMap V)
    (attrs default_attrs : AttributeMap) :
    p.Run b fl renv k ins outs attrs default_attrs =
      (p.RunBeforeRepair b fl renv ins outs attrs default_attrs).andThen
        (ComplexGradStep renv k p.kernel_key_) := by
  unfold PreparedOp.Run PreparedOp.RunBeforeRepair PreparedOpRunPtImpl PreparedOpRunImpl
    PostCompute
  cases p.run_phi_kernel_ <;> rfl

/-- A hook event is neither an invocation nor a data transform. -/
theorem isHook_not_compute {V : Type} (e : RunEvent V) (h : e.isHook = true) :
    e.isInvocation = false ∧ e.isPreparePhiData = false := by
  cases e <;> simp_all [RunEvent.isHook, RunEvent.isInvocation, RunEvent.isPreparePhiData]

/-- Every state continues itself. -/
theorem ExtendsByHooks_refl {V : Type} (s : RunState V) : s.ExtendsByHooks s :=
  ⟨[], by simp, by simp⟩

/-- Continuations compose. -/
theorem ExtendsByHooks_trans {V : Type} (u t s : RunState V)
    (h1 : u.ExtendsByHooks t) (h2 : t.ExtendsByHooks s) : u.ExtendsByHooks s := by
  rcases h1 with ⟨a, ha, hha⟩
  rcases h2 with ⟨c, hc, hhc⟩
  refine ⟨c ++ a, ?_, ?_⟩
  · rw [ha, hc, List.append_assoc]
  · intro e he
    rcases List.mem_append.mp he with h | h
    · exact hhc e h
    · exact hha e h

/-- Sequencing keeps a continuation. -/
theorem ExtendsByHooks_andThen {V : Type} (s : RunState V)
    (f : RunState V → RunState V) (hf : ∀ t, (f t).ExtendsByHooks t) :
    (s.andThen f).ExtendsByHooks s := by
  unfold RunState.andThen
  cases s.exception with
  | none => exact hf s
  | some _ => exact ExtendsByHooks_refl s

/-- The scan adds hook events only. -/
theorem CheckNanInfStep_hooks {V : Type} (fl : GlobalFlags) (renv : RunEnv V)
    (op : OperatorWithKernel) (dev_ctx : DeviceContext) (s : RunState V) :
    (CheckNanInfStep fl renv op dev_ctx s).ExtendsByHooks s := by
  unfold CheckNanInfStep
  split
  · exact ⟨[RunEvent.CheckNanInf op.Type_ s.outs dev_ctx.GetPlace], rfl,
      by simp [RunEvent.isHook]⟩
  · exact ExtendsByHooks_refl s

/-- The read of the last device error adds hook events only. -/
theorem GpuLastErrorStep_hooks {V : Type} (b : BuildConfig) (renv : RunEnv V)
    (dev_ctx : DeviceContext) (s : RunState V) :
    (GpuLastErrorStep b renv dev_ctx s).ExtendsByHooks s := by
  unfold GpuLastErrorStep
  split
  · exact ⟨[RunEvent.GpuGetLastError dev_ctx], rfl, by simp [RunEvent.isHook]⟩
  · exact ExtendsByHooks_refl s

/-- The benchmark block adds hook events only. -/
theorem BenchmarkStep_hooks {V : Type} (b : BuildConfig) (fl : GlobalFlags)
    (renv : RunEnv V) (dev_ctx : DeviceContext) (s : RunState V) :
    (BenchmarkStep b fl renv dev_ctx s).ExtendsByHooks s := by
  unfold BenchmarkStep
  split
  · refine ExtendsByHooks_trans _ _ _
      (ExtendsByHooks_andThen _ _ (GpuLastErrorStep_hooks b renv dev_ctx)) ?_
    exact ⟨[RunEvent.Wait dev_ctx], rfl, by simp [RunEvent.isHook]⟩
  · exact ExtendsByHooks_refl s

/-- The repair step adds hook events only. -/
theorem ComplexGradStep_hooks {V : Type} (renv : RunEnv V) (k : VarKind V)
    (kernel_key : KernelKey) (s : RunState V) :
    (ComplexGradStep renv k kernel_key s).ExtendsByHooks s := by
  unfold ComplexGradStep
  split
  · exact ⟨[RunEvent.HandleComplexGradToRealGrad s.outs], rfl, by simp [RunEvent.isHook]⟩
  · exact ExtendsByHooks_refl s

/-- The diagnostics add hook events only. -/
theorem Diagnostics_hooks {V : Type} (b : BuildConfig) (fl : GlobalFlags)
    (renv : RunEnv V) (op : OperatorWithKernel) (dev_ctx : DeviceContext)
    (s : RunState V) : (Diagnostics b fl renv op dev_ctx s).ExtendsByHooks s := by
  unfold Diagnostics
  exact ExtendsByHooks_trans _ _ _
    (ExtendsByHooks_andThen _ _ (BenchmarkStep_hooks b fl renv dev_ctx))
    (ExtendsByHooks_andThen _ _ (CheckNanInfStep_hooks fl renv op dev_ctx))

/-- The state after shape inference and the compute block: when shape
    inference rejects, only its event; otherwise its event and the events of
    the compute block. -/
theorem Compute_trace {V : Type} (renv : RunEnv V) (p : PreparedOp)
    (ins outs : NameVarMap V) (attrs default_attrs : AttributeMap) :
    ((InferShapeStep renv p.op_ p.kernel_key_ p.arg_map_fn_ p.default_kernel_signature_
        attrs default_attrs (RunState.init ins outs)).andThen
      (if p.run_phi_kernel_ then
        PhiKernelStep renv p.op_ p.kernel_signature_ p.phi_kernel_ p.ctx_ p.dev_ctx_ attrs
          default_attrs
      else FuncStep renv p.op_ p.ctx_ p.func_ p.dev_ctx_ attrs default_attrs)).trace =
      RunEvent.InferShape p.op_ (p.InferCtx ins outs attrs default_attrs) ::
        (match (renv.infer_shape_ p.op_ (p.InferCtx ins outs attrs default_attrs)).2 with
          | some _ => []
          | none => p.ComputeEvents renv ins outs attrs default_attrs) := by
  unfold RunState.andThen InferShapeStep RunState.init PreparedOp.ComputeEvents
  simp only [List.nil_append]
  cases hinf : (renv.infer_shape_ p.op_ (p.InferCtx ins outs attrs default_attrs)).2 with
  | some t =>
    unfold PreparedOp.InferCtx at hinf
    simp only [hinf]
    rfl
  | none =>
    unfold PreparedOp.InferCtx at hinf
    simp only [hinf]
    cases hrun : p.run_phi_kernel_ with
    | true =>
      simp only [if_true]
      unfold PhiKernelStep
      by_cases hk : p.phi_kernel_.GetKernelRegisteredType = KernelRegisteredType.FUNCTION
      · simp only [hk, if_true]
        rfl
      · simp only [hk, if_false]
        rfl
    | false =>
      simp only [Bool.false_eq_true, if_false]
      unfold FuncStep
      cases p.func_ <;> rfl

/-- The trace of `Run`: the shape-inference event, the events of the compute
    block unless shape inference rejected, then hook events only. -/
theorem Run_trace {V : Type} (b : BuildConfig) (fl : GlobalFlags) (renv : RunEnv V)
    (k : VarKind V) (p : PreparedOp) (ins outs : NameVarMap V)
    (attrs default_attrs : AttributeMap) :
    ∃ hooks : List (RunEvent V),
      (p.Run b fl renv k ins outs attrs default_attrs).trace =
        RunEvent.InferShape p.op_ (p.InferCtx ins outs attrs default_attrs) ::
          (match (renv.infer_shape_ p.op_ (p.InferCtx ins outs attrs default_attrs)).2 with
            | some _ => []
            | none => p.ComputeEvents renv ins outs attrs default_attrs) ++ hooks ∧
      ∀ e ∈ hooks, e.isHook = true := by
  rw [Run_eq]
  have h := ExtendsByHooks_trans _ _ _
    (ExtendsByHooks_andThen (p.RunBeforeRepair b fl renv ins outs attrs default_attrs) _
      (ComplexGradStep_hooks renv k p.kernel_key_))
    (Diagnostics_hooks b fl renv p.op_ p.dev_ctx_
      ((InferShapeStep renv p.op_ p.kernel_key_ p.arg_map_fn_ p.default_kernel_signature_
          attrs default_attrs (RunState.init ins outs)).andThen
        (if p.run_phi_kernel_ then
          PhiKernelStep renv p.op_ p.kernel_signature_ p.phi_kernel_ p.ctx_ p.dev_ctx_ attrs
            default_attrs
        else FuncStep renv p.op_ p.ctx_ p.func_ p.dev_ctx_ attrs default_attrs)))
  rcases h with ⟨hooks, ht, hh⟩
  refine ⟨hooks, ?_, hh⟩
  rw [← Compute_trace]
  exact ht

/-- The repair pass works entry by entry. -/
theorem HandleComplexGradToRealGrad_entry {V : Type} (m : VarMethods V) (renv : RunEnv V)
    (o : NameVarMap V) (i j : Nat) (name : String) (vars : List (Option V))
    (var : Option V) (hi : o[i]? = some (name, vars)) (hj : vars[j]? = some var) :
    (HandleComplexGradToRealGrad m renv o)[i]? =
        some (name, vars.map (HandleComplexGradToRealGrad_var m renv)) ∧
      (vars.map (HandleComplexGradToRealGrad_var m renv))[j]? =
        some (HandleComplexGradToRealGrad_var m renv var) := by
  unfold HandleComplexGradToRealGrad
  rw [List.getElem?_map, hi, List.getElem?_map, hj]
  exact ⟨rfl, rfl⟩

/-- When the repair step is reached and the key's dtype is complex, `Run`
    ends with the repaired outputs and without exception. -/
theorem Run_repaired {V : Type} (b : BuildConfig) (fl : GlobalFlags) (renv : RunEnv V)
    (k : VarKind V) (p : PreparedOp) (ins outs : NameVarMap V)
    (attrs default_attrs : AttributeMap)
    (hkey : renv.IsComplexType_phi p.kernel_key_.dtype = true)
    (hreach : (p.RunBeforeRepair b fl renv ins outs attrs default_attrs).exception = none) :
    (p.Run b fl renv k ins outs attrs default_attrs).outs =
        k.HandleComplexGradToRealGrad renv
          (p.RunBeforeRepair b fl renv ins outs attrs default_attrs).outs ∧
      (p.Run b fl renv k ins outs attrs default_attrs).exception = none := by
  rw [Run_eq, andThen_ok _ _ hreach]
  unfold ComplexGradStep
  rw [if_pos hkey]
  exact ⟨rfl, hreach⟩

/-- When the key's dtype is not complex the repair step does nothing. -/
theorem Run_not_complex {V : Type} (b : BuildConfig) (fl : GlobalFlags) (renv : RunEnv V)
    (k : VarKind V) (p : PreparedOp) (ins outs : NameVarMap V)
    (attrs default_attrs : AttributeMap)
    (hkey : renv.IsComplexType_phi p.kernel_key_.dtype = false) :
    p.Run b fl renv k ins outs attrs default_attrs =
      p.RunBeforeRepair b fl renv ins outs attrs default_attrs := by
  rw [Run_eq]
  unfold RunState.andThen ComplexGradStep
  rw [hkey]
  cases (p.RunBeforeRepair b fl renv ins outs attrs default_attrs).exception <;> rfl

/-- C12 (as stated, refuted): the key's dtype is complex64; the output `y`
    is non-null, its declared forward dtype is float32, a real type, and its
    tensor is initialized; its own dtype after the kernel is float32.  `Run`
    completes and leaves `y` bound to its original tensor, not to the tensor
    that `TransComplexToReal` produces. -/
theorem C12_counterexample :
    (sampleRunEnv false).IsComplexType_phi (legacyPrepared complexKey).kernel_key_.dtype
      = true ∧
    sampleMethods.ForwardDataType realVar ≠ -1 ∧
    (sampleRunEnv false).IsComplexType (sampleMethods.ForwardDataType realVar) = false ∧
    GetTensorFromVar (sampleMethods.Var realVar) = some realTensor ∧
    realTensor.IsInitialized = true ∧
    ((legacyPrepared complexKey).Run plainBuild noFlags (sampleRunEnv false)
        (VarKind.primary sampleMethods) [] [("Out", [some realVar])] [] []).exception
      = none ∧
    ((legacyPrepared complexKey).Run plainBuild noFlags (sampleRunEnv false)
        (VarKind.primary sampleMethods) [] [("Out", [some realVar])] [] []).outs
      = [("Out", [some realVar])] ∧
    realVar ≠
      sampleMethods.SetVar realVar
        ((sampleRunEnv false).SetTensorToVariable (sampleMethods.Var realVar)
          ((sampleRunEnv false).TransComplexToReal (sampleMethods.ForwardDataType realVar)
            (sampleMethods.DataType realVar) realTensor)
          (sampleMethods.Var realVar)) := by
  decide

/-- C12 (amended): for every non-null output variable whose own dtype is
    complex, whose declared forward dtype is set and is a real type, and whose
    tensor is initialized, `HandleComplexGradToRealGrad` rebinds the variable
    to the tensor produced by `TransComplexToReal(forward dtype, variable
    dtype, original tensor)`; and when the key's dtype is complex and `Run`
    reaches the repair step, the outputs `Run` leaves are those of that pass
    over the outputs as the kernel and the diagnostics left them. -/
theorem C12_complex_repair_converts {V : Type} (m : VarMethods V) (renv : RunEnv V)
    (o : NameVarMap V) (i j : Nat) (name : String) (vars : List (Option V)) (v : V)
    (tensor : DenseTensor)
    (hi : o[i]? = some (name, vars)) (hj : vars[j]? = some (some v))
    (hset : m.ForwardDataType v ≠ -1)
    (hreal : renv.IsComplexType (m.ForwardDataType v) = false)
    (hown : renv.IsComplexType (m.DataType v) = true)
    (ht : GetTensorFromVar (m.Var v) = some tensor)
    (hinit : tensor.IsInitialized = true) :
    (∃ vars2, (HandleComplexGradToRealGrad m renv o)[i]? = some (name, vars2) ∧
      vars2[j]? =
        some (some (m.SetVar v
          (renv.SetTensorToVariable (m.Var v)
            (renv.TransComplexToReal (m.ForwardDataType v) (m.DataType v) tensor)
            (m.Var v))))) ∧
    (∀ (b : BuildConfig) (fl : GlobalFlags) (p : PreparedOp) (ins outs : NameVarMap V)
        (attrs default_attrs : AttributeMap),
      renv.IsComplexType_phi p.kernel_key_.dtype = true →
      (p.RunBeforeRepair b fl renv ins outs attrs default_attrs).exception = none →
      (p.RunBeforeRepair b fl renv ins outs attrs default_attrs).outs = o →
      (p.Run b fl renv (VarKind.primary m) ins outs attrs default_attrs).outs =
          HandleComplexGradToRealGrad m renv o ∧
        (p.Run b fl renv (VarKind.primary m) ins outs attrs default_attrs).exception
          = none) := by
  constructor
  · have h := HandleComplexGradToRealGrad_entry m renv o i j name vars (some v) hi hj
    refine ⟨_, h.1, ?_⟩
    rw [h.2]
    unfold HandleComplexGradToRealGrad_var
    simp only [hset, if_false, hreal, hown, Bool.not_true, Bool.or_self, Bool.false_eq_true,
      ht, hinit, if_true]
  · intro b fl p ins outs attrs default_attrs hkey hreach ho
    have h := Run_repaired b fl renv (VarKind.primary m) p ins outs attrs default_attrs hkey
      hreach
    rw [ho] at h
    exact h

/-- Witness for C12 (amended): under a complex64 key the gradient `dx`,
    complex64 after the kernel and declared float32, ends bound to the
    converted float32 tensor; the null entry and the real output stay. -/
theorem C12_complex_repair_converts_witness :
    ((legacyPrepared complexKey).Run plainBuild noFlags (sampleRunEnv false)
        (VarKind.primary sampleMethods) [] [("Out", [some dxVar, none, some realVar])] []
        []).outs =
      HandleComplexGradToRealGrad sampleMethods (sampleRunEnv false)
        [("Out", [some dxVar, none, some realVar])] ∧
    HandleComplexGradToRealGrad sampleMethods (sampleRunEnv false)
        [("Out", [some dxVar, none, some realVar])] =
      [("Out",
        [some { dxVar with
            var_ := Variable.dense { holder := some 1001, dtype := .FLOAT32, dims := [2, 3] } },
          none, some realVar])] :=
  ⟨((C12_complex_repair_converts sampleMethods (sampleRunEnv false)
      [("Out", [some dxVar, none, some realVar])] 0 0 "Out"
      [some dxVar, none, some realVar] dxVar complexTensor
      rfl rfl (by decide) (by decide) (by decide) rfl (by decide)).2
      plainBuild noFlags (legacyPrepared complexKey) []
      [("Out", [some dxVar, none, some realVar])] [] []
      (by decide) (by decide) (by decide)).1,
    by decide⟩

/-- The repair leaves an entry alone when any guard of the loop body skips
    it. -/
theorem HandleComplexGradToRealGrad_var_skip {V : Type} (m : VarMethods V)
    (renv : RunEnv V) (var : Option V)
    (hskip : var = none ∨ ∃ v, var = some v ∧
      (m.ForwardDataType v = -1 ∨
        renv.IsComplexType (m.ForwardDataType v) = true ∨
        renv.IsComplexType (m.DataType v) = false ∨
        GetTensorFromVar (m.Var v) = none ∨
        ∃ t, GetTensorFromVar (m.Var v) = some t ∧ t.IsInitialized = false)) :
    HandleComplexGradToRealGrad_var m renv var = var := by
  rcases hskip with h | ⟨v, hv, h⟩
  · rw [h]
    rfl
  · rw [hv]
    unfold HandleComplexGradToRealGrad_var
    simp only
    split
    · rfl
    · split
      · rfl
      · rename_i h1 h2
        rcases h with h | h | h | h | ⟨t, ht, hinit⟩
        · exact absurd h h1
        · rw [h] at h2
          simp at h2
        · rw [h] at h2
          simp at h2
        · rw [h]
        · rw [ht]
          simp only [hinit, Bool.false_eq_true, if_false]

/-- C13: `HandleComplexGradToRealGrad` leaves an entry of the output map as it
    is whenever the variable is null, its forward dtype is unset (-1), its
    forward dtype equals its own dtype after compute or the complex dtype of
    the key (under any dtype translation that agrees on what is complex), its
    forward dtype is any complex type, its own dtype is not complex, or its
    tensor is absent or uninitialized; and when the key's dtype is not complex
    the repair step of `Run` does nothing at all. -/
theorem C13_complex_repair_frame {V : Type} (m : VarMethods V) (renv : RunEnv V)
    (o : NameVarMap V) (i j : Nat) (name : String) (vars : List (Option V))
    (var : Option V)
    (hi : o[i]? = some (name, vars)) (hj : vars[j]? = some var)
    (hskip : var = none ∨ ∃ v, var = some v ∧
      (m.ForwardDataType v = -1 ∨
        m.ForwardDataType v = m.DataType v ∨
        (∃ (toProto : DataType → Int) (d : DataType),
          (∀ x, renv.IsComplexType (toProto x) = renv.IsComplexType_phi x) ∧
          renv.IsComplexType_phi d = true ∧ m.ForwardDataType v = toProto d) ∨
        renv.IsComplexType (m.ForwardDataType v) = true ∨
        renv.IsComplexType (m.DataType v) = false ∨
        GetTensorFromVar (m.Var v) = none ∨
        ∃ t, GetTensorFromVar (m.Var v) = some t ∧ t.IsInitialized = false)) :
    (∃ vars2, (HandleComplexGradToRealGrad m renv o)[i]? = some (name, vars2) ∧
      vars2[j]? = some var ∧ vars2.length = vars.length) ∧
    (HandleComplexGradToRealGrad m renv o).length = o.length ∧
    (∀ (b : BuildConfig) (fl : GlobalFlags) (k : VarKind V) (p : PreparedOp)
        (ins outs : NameVarMap V) (attrs default_attrs : AttributeMap),
      renv.IsComplexType_phi p.kernel_key_.dtype = false →
      p.Run b fl renv k ins outs attrs default_attrs =
        p.RunBeforeRepair b fl renv ins outs attrs default_attrs) := by
  have hskip2 : var = none ∨ ∃ v, var = some v ∧
      (m.ForwardDataType v = -1 ∨
        renv.IsComplexType (m.ForwardDataType v) = true ∨
        renv.IsComplexType (m.DataType v) = false ∨
        GetTensorFromVar (m.Var v) = none ∨
        ∃ t, GetTensorFromVar (m.Var v) = some t ∧ t.IsInitialized = false) := by
    rcases hskip with h | ⟨v, hv, h⟩
    · exact Or.inl h
    · refine Or.inr ⟨v, hv, ?_⟩
      rcases h with h | h | ⟨toProto, d, hagree, hd, hf⟩ | h | h | h | h
      · exact Or.inl h
      · cases hc : renv.IsComplexType (m.DataType v)
        · exact Or.inr (Or.inr (Or.inl rfl))
        · exact Or.inr (Or.inl (by rw [h]; exact hc))
      · exact Or.inr (Or.inl (by rw [hf, hagree]; exact hd))
      · exact Or.inr (Or.inl h)
      · exact Or.inr (Or.inr (Or.inl h))
      · exact Or.inr (Or.inr (Or.inr (Or.inl h)))
      · exact Or.inr (Or.inr (Or.inr (Or.inr h)))
  refine ⟨?_, ?_, ?_⟩
  · have h := HandleComplexGradToRealGrad_entry m renv o i j name vars var hi hj
    refine ⟨_, h.1, ?_, List.length_map _ _⟩
    rw [h.2, HandleComplexGradToRealGrad_var_skip m renv var hskip2]
  · unfold HandleComplexGradToRealGrad
    exact List.length_map _ _
  · intro b fl k p ins outs attrs default_attrs hkey
    exact Run_not_complex b fl renv k p ins outs attrs default_attrs hkey

/-- Witness for C13: the null entry of the output map is left as it is by the
    pass, next to a converted gradient. -/
theorem C13_complex_repair_frame_witness :
    ∃ vars2,
      (HandleComplexGradToRealGrad sampleMethods (sampleRunEnv false)
        [("Out", [some dxVar, none, some realVar])])[0]? = some ("Out", vars2) ∧
      vars2[1]? = some none ∧ vars2.length = [some dxVar, none, some realVar].length :=
  (C13_complex_repair_frame sampleMethods (sampleRunEnv false)
    [("Out", [some dxVar, none, some realVar])] 0 1 "Out"
    [some dxVar, none, some realVar] none rfl rfl (Or.inl rfl)).1

/-- C14: the specialisation of the repair pass for `egr::EagerVariable`, and
    `TestHandleComplexGradToRealGradEager`, return every output map as it is,
    null entries and complex dtypes included; and a `Run` over eager variables
    ends with the outputs, inputs and exception with which it reached the
    repair step, whatever the key's dtype. -/
theorem C14_eager_repair_is_noop {V : Type} (b : BuildConfig) (fl : GlobalFlags)
    (renv : RunEnv V) (p : PreparedOp) (ins outs : NameVarMap V)
    (attrs default_attrs : AttributeMap) (o : NameVarMap V) :
    HandleComplexGradToRealGrad_EagerVariable o = o ∧
    TestHandleComplexGradToRealGradEager o = o ∧
    (VarKind.eager : VarKind V).HandleComplexGradToRealGrad renv o = o ∧
    (p.Run b fl renv VarKind.eager ins outs attrs default_attrs).outs =
      (p.RunBeforeRepair b fl renv ins outs attrs default_attrs).outs ∧
    (p.Run b fl renv VarKind.eager ins outs attrs default_attrs).ins =
      (p.RunBeforeRepair b fl renv ins outs attrs default_attrs).ins ∧
    (p.Run b fl renv VarKind.eager ins outs attrs default_attrs).exception =
      (p.RunBeforeRepair b fl renv ins outs attrs default_attrs).exception := by
  have hrun : p.Run b fl renv VarKind.eager ins outs attrs default_attrs =
        p.RunBeforeRepair b fl renv ins outs attrs default_attrs ∨
      p.Run b fl renv VarKind.eager ins outs attrs default_attrs =
        { p.RunBeforeRepair b fl renv ins outs attrs default_attrs with
          trace := (p.RunBeforeRepair b fl renv ins outs attrs default_attrs).trace ++
            [RunEvent.HandleComplexGradToRealGrad
              (p.RunBeforeRepair b fl renv ins outs attrs default_attrs).outs] } := by
    rw [Run_eq]
    cases h : (p.RunBeforeRepair b fl renv ins outs attrs default_attrs).exception with
    | some t => exact Or.inl (andThen_thrown _ _ t h)
    | none =>
      rw [andThen_ok _ _ h]
      unfold ComplexGradStep
      split
      · exact Or.inr rfl
      · exact Or.inl rfl
  refine ⟨rfl, rfl, rfl, ?_, ?_, ?_⟩ <;>
  · rcases hrun with h | h <;> rw [h]

/-- Hook events are neither invocations nor data transforms. -/
theorem filter_hooks {V : Type} (hooks : List (RunEvent V))
    (hh : ∀ e ∈ hooks, e.isHook = true) :
    hooks.filter RunEvent.isInvocation = [] ∧
      hooks.filter RunEvent.isPreparePhiData = [] := by
  constructor
  · rw [List.filter_eq_nil_iff]
    intro e he
    rw [(isHook_not_compute e (hh e he)).1]
    exact Bool.false_ne_true
  · rw [List.filter_eq_nil_iff]
    intro e he
    rw [(isHook_not_compute e (hh e he)).2]
    exact Bool.false_ne_true

/-- C17 (as stated, refuted): the prepared operator is bound to a valid
    FUNCTION-kind unified kernel, shape inference rejects the inputs, and `Run`
    ends with the propagated exception without having invoked any kernel or
    called `PreparePhiData`. -/
theorem C17_counterexample :
    (phiPrepared cpuKey KernelRegisteredType.FUNCTION).run_phi_kernel_ = true ∧
    (phiPrepared cpuKey KernelRegisteredType.FUNCTION).phi_kernel_.IsValid = true ∧
    ((phiPrepared cpuKey KernelRegisteredType.FUNCTION).Run plainBuild noFlags
        (sampleRunEnv true) (VarKind.primary sampleMethods) []
        [("Out", [some realVar])] [] []).trace.filter RunEvent.isInvocation = [] ∧
    ((phiPrepared cpuKey KernelRegisteredType.FUNCTION).Run plainBuild noFlags
        (sampleRunEnv true) (VarKind.primary sampleMethods) []
        [("Out", [some realVar])] [] []).trace.filter RunEvent.isPreparePhiData = [] ∧
    ((phiPrepared cpuKey KernelRegisteredType.FUNCTION).Run plainBuild noFlags
        (sampleRunEnv true) (VarKind.primary sampleMethods) []
        [("Out", [some realVar])] [] []).exception =
      some { what := "shape inference rejected" } := by
  decide

/-- C17 (amended): when shape inference accepts, `Run` invokes exactly once
    the kernel the `PreparedOp` holds and no other: the unified kernel when
    `run_phi_kernel_` is set, otherwise the legacy function; a FUNCTION-kind
    unified kernel is invoked on a unified kernel context built over the
    inputs that `PreparePhiData` returned, called once, immediately before; a
    STRUCTURED-kind kernel and a legacy kernel are invoked on a
    `DygraphExecutionContext` and `PreparePhiData` is not called.  When shape
    inference throws, `Run` invokes no kernel and does not call
    `PreparePhiData`.  In both cases everything after is diagnostics and
    repair. -/
theorem C17_run_invokes_bound_kernel {V : Type} (b : BuildConfig) (fl : GlobalFlags)
    (renv : RunEnv V) (k : VarKind V) (p : PreparedOp) (ins outs : NameVarMap V)
    (attrs default_attrs : AttributeMap) :
    (p.Run b fl renv k ins outs attrs default_attrs).trace.filter RunEvent.isInvocation =
      (match (renv.infer_shape_ p.op_ (p.InferCtx ins outs attrs default_attrs)).2 with
        | some _ => []
        | none =>
          [if p.run_phi_kernel_ = true then
            if p.phi_kernel_.GetKernelRegisteredType = KernelRegisteredType.FUNCTION then
              RunEvent.InvokeKernelContext p.phi_kernel_
                (p.ComputeKernelCtx renv ins outs attrs default_attrs)
            else
              RunEvent.InvokeExecutionContext p.phi_kernel_
                (p.ComputeExeCtx renv ins outs attrs default_attrs)
          else
            RunEvent.InvokeFunc p.func_
              (p.ComputeExeCtx renv ins outs attrs default_attrs)]) ∧
    (p.Run b fl renv k ins outs attrs default_attrs).trace.filter
        RunEvent.isPreparePhiData =
      (match (renv.infer_shape_ p.op_ (p.InferCtx ins outs attrs default_attrs)).2 with
        | some _ => []
        | none =>
          if p.run_phi_kernel_ = true ∧
              p.phi_kernel_.GetKernelRegisteredType = KernelRegisteredType.FUNCTION then
            [RunEvent.PreparePhiData p.phi_kernel_ p.kernel_signature_ ins]
          else []) ∧
    (∃ hooks : List (RunEvent V),
      (p.Run b fl renv k ins outs attrs default_attrs).trace =
        RunEvent.InferShape p.op_ (p.InferCtx ins outs attrs default_attrs) ::
          (match (renv.infer_shape_ p.op_ (p.InferCtx ins outs attrs default_attrs)).2 with
            | some _ => []
            | none =>
              if p.run_phi_kernel_ = true then
                if p.phi_kernel_.GetKernelRegisteredType = KernelRegisteredType.FUNCTION then
                  [RunEvent.PreparePhiData p.phi_kernel_ p.kernel_signature_ ins,
                    RunEvent.InvokeKernelContext p.phi_kernel_
                      (p.ComputeKernelCtx renv ins outs attrs default_attrs)]
                else
                  [RunEvent.InvokeExecutionContext p.phi_kernel_
                    (p.ComputeExeCtx renv ins outs attrs default_attrs)]
              else
                [RunEvent.InvokeFunc p.func_
                  (p.ComputeExeCtx renv ins outs attrs default_attrs)]) ++ hooks ∧
      ∀ e ∈ hooks, e.isHook = true) ∧
    (p.ComputeKernelCtx renv ins outs attrs default_attrs).ins =
      renv.PreparePhiData p.phi_kernel_ p.kernel_signature_ ins ∧
    (p.ComputeKernelCtx renv ins outs attrs default_attrs).phi_kernel = p.phi_kernel_ ∧
    (p.ComputeKernelCtx renv ins outs attrs default_attrs).kernel_signature =
      p.kernel_signature_ ∧
    (p.ComputeExeCtx renv ins outs attrs default_attrs).ins = ins := by
  rcases Run_trace b fl renv k p ins outs attrs default_attrs with ⟨hooks, ht, hh⟩
  have hf := filter_hooks hooks hh
  refine ⟨?_, ?_, ⟨hooks, ?_, hh⟩, rfl, rfl, rfl, rfl⟩
  · rw [ht]
    cases (renv.infer_shape_ p.op_ (p.InferCtx ins outs attrs default_attrs)).2 with
    | some t => simp [List.filter_cons, RunEvent.isInvocation, hf.1]
    | none =>
      unfold PreparedOp.ComputeEvents
      cases p.run_phi_kernel_
      · simp [List.filter_cons, RunEvent.isInvocation, hf.1]
      · by_cases hk :
          p.phi_kernel_.GetKernelRegisteredType = KernelRegisteredType.FUNCTION
        · simp [List.filter_cons, RunEvent.isInvocation, hf.1, hk]
        · simp [List.filter_cons, RunEvent.isInvocation, hf.1, hk]
  · rw [ht]
    cases (renv.infer_shape_ p.op_ (p.InferCtx ins outs attrs default_attrs)).2 with
    | some t => simp [List.filter_cons, RunEvent.isPreparePhiData, hf.2]
    | none =>
      unfold PreparedOp.ComputeEvents
      cases p.run_phi_kernel_
      · simp [List.filter_cons, RunEvent.isPreparePhiData, hf.2]
      · by_cases hk :
          p.phi_kernel_.GetKernelRegisteredType = KernelRegisteredType.FUNCTION
        · simp [List.filter_cons, RunEvent.isPreparePhiData, hf.2, hk]
        · simp [List.filter_cons, RunEvent.isPreparePhiData, hf.2, hk]
  · rw [ht]
    cases (renv.infer_shape_ p.op_ (p.InferCtx ins outs attrs default_attrs)).2 with
    | some t => rfl
    | none =>
      unfold PreparedOp.ComputeEvents
      cases p.run_phi_kernel_
      · simp
      · simp

/-- Witness for C17 (amended): with shape inference accepting, a run of a
    FUNCTION-kind unified kernel has exactly one invocation, of that kernel,
    after one call of `PreparePhiData`; a run of a legacy function has exactly
    one invocation, of that function, and no call of `PreparePhiData`. -/
theorem C17_run_invokes_bound_kernel_witness :
    ((phiPrepared cpuKey KernelRegisteredType.FUNCTION).Run plainBuild noFlags
        (sampleRunEnv false) (VarKind.primary sampleMethods) []
        [("Out", [some realVar])] [] []).trace.filter RunEvent.isInvocation =
      [RunEvent.InvokeKernelContext
        (phiPrepared cpuKey KernelRegisteredType.FUNCTION).phi_kernel_
        ((phiPrepared cpuKey KernelRegisteredType.FUNCTION).ComputeKernelCtx
          (sampleRunEnv false) [] [("Out", [some realVar])] [] [])] ∧
    ((legacyPrepared cpuKey).Run plainBuild noFlags
        (sampleRunEnv false) (VarKind.primary sampleMethods) []
        [("Out", [some realVar])] [] []).trace.filter RunEvent.isPreparePhiData = [] :=
  ⟨(C17_run_invokes_bound_kernel plainBuild noFlags (sampleRunEnv false)
      (VarKind.primary sampleMethods) (phiPrepared cpuKey KernelRegisteredType.FUNCTION) []
      [("Out", [some realVar])] [] []).1,
    (C17_run_invokes_bound_kernel plainBuild noFlags (sampleRunEnv false)
      (VarKind.primary sampleMethods) (legacyPrepared cpuKey) []
      [("Out", [some realVar])] [] []).2.1⟩

/-- Every `PreparedOp` that `Prepare` returns comes from one of the two
    constructors: the unified one over a valid kernel, or the legacy one over
    a registered function. -/
theorem Prepare_active_kind {V : Type} (b : BuildConfig) (fl : GlobalFlags)
    (env : Env V) (ins outs : NameVarMap V) (op : OperatorWithKernel) (place : Place)
    (attrs default_attrs : AttributeMap) (p : PreparedOp)
    (hok : (PreparedOp.Prepare b fl env ins outs op place attrs default_attrs).result =
      Except.ok p) :
    (p.run_phi_kernel_ = true ∧ p.func_ = none ∧ p.phi_kernel_.IsValid = true) ∨
    (p.run_phi_kernel_ = false ∧ (∃ func, p.func_ = some func) ∧
      p.phi_kernel_ = empty_kernel) := by
  rw [Prepare_result] at hok
  generalize ResolvedOf b fl env ins outs op place attrs default_attrs = r at hok
  rcases SelectFrom_cases b fl env r with ⟨h1, h⟩ | ⟨h1, h2, h⟩ | ⟨h1, h2, h⟩
  · rw [h] at hok
    injection hok with hp
    subst hp
    unfold Tier1Taken at h1
    simp only [Bool.and_eq_true] at h1
    exact Or.inl ⟨rfl, rfl, h1.2.1⟩
  · rw [h] at hok
    injection hok with hp
    subst hp
    unfold Tier2Taken at h2
    simp only [Bool.and_eq_true] at h2
    exact Or.inl ⟨rfl, rfl, h2.2.2⟩
  · rw [h] at hok
    rcases LegacySelect_cases b env r
        (LegacyKpSupport b fl env r.op r.expected_kernel_key)
        (FluidKernelType b fl env r) with
      ⟨_, h3⟩ | ⟨_, _, _, h3⟩ | ⟨kernels, f, _, _, h3⟩
    · rw [h3] at hok
      cases hok
    · rw [h3] at hok
      cases hok
    · rw [h3] at hok
      injection hok with hp
      subst hp
      exact Or.inr ⟨rfl, ⟨f, rfl⟩, rfl⟩

/-- C20: the legacy constructor stores the given function with the empty,
    invalid unified kernel and leaves `run_phi_kernel_` false; the unified
    constructor stores the given kernel and signature with a null function
    and sets `run_phi_kernel_`; every `PreparedOp` that `Prepare` returns has
    `run_phi_kernel_` set iff its unified kernel is valid, holds a null
    function when it is set and a function with the empty kernel when it is
    not; and no event of a `Run` of it invokes a null function or a kernel
    without a callable. -/
theorem C20_one_kernel_kind_active {V : Type} (b : BuildConfig) (fl : GlobalFlags)
    (env : Env V) (ins outs : NameVarMap V) (op : OperatorWithKernel) (place : Place)
    (attrs default_attrs : AttributeMap) (p : PreparedOp)
    (hok : (PreparedOp.Prepare b fl env ins outs op place attrs default_attrs).result =
      Except.ok p) :
    (∀ (op2 : OperatorWithKernel) (ctx : RuntimeContext) (kernel_key : KernelKey)
        (func : OpKernelFunc) (arg_map_fn : Option ArgumentMappingFnPtr)
        (default_kernel_signature : Option KernelSignature) (dev_ctx : DeviceContext),
      (PreparedOp.mkLegacy op2 ctx kernel_key func arg_map_fn default_kernel_signature
          dev_ctx).func_ = some func ∧
        (PreparedOp.mkLegacy op2 ctx kernel_key func arg_map_fn default_kernel_signature
          dev_ctx).phi_kernel_ = empty_kernel ∧
        (PreparedOp.mkLegacy op2 ctx kernel_key func arg_map_fn default_kernel_signature
          dev_ctx).run_phi_kernel_ = false) ∧
    empty_kernel.IsValid = false ∧
    (∀ (op2 : OperatorWithKernel) (ctx : RuntimeContext) (kernel_key : KernelKey)
        (arg_map_fn : Option ArgumentMappingFnPtr)
        (default_kernel_signature : Option KernelSignature)
        (kernel_signature : KernelSignature) (phi_kernel : Kernel)
        (dev_ctx : DeviceContext),
      (PreparedOp.mkPhi op2 ctx kernel_key arg_map_fn default_kernel_signature
          kernel_signature phi_kernel dev_ctx).phi_kernel_ = phi_kernel ∧
        (PreparedOp.mkPhi op2 ctx kernel_key arg_map_fn default_kernel_signature
          kernel_signature phi_kernel dev_ctx).kernel_signature_ = kernel_signature ∧
        (PreparedOp.mkPhi op2 ctx kernel_key arg_map_fn default_kernel_signature
          kernel_signature phi_kernel dev_ctx).func_ = none ∧
        (PreparedOp.mkPhi op2 ctx kernel_key arg_map_fn default_kernel_signature
          kernel_signature phi_kernel dev_ctx).run_phi_kernel_ = true) ∧
    (p.run_phi_kernel_ = true ↔ p.phi_kernel_.IsValid = true) ∧
    (p.run_phi_kernel_ = true → p.func_ = none) ∧
    (p.run_phi_kernel_ = false →
      (∃ func, p.func_ = some func) ∧ p.phi_kernel_ = empty_kernel) ∧
    (∀ (b2 : BuildConfig) (fl2 : GlobalFlags) (renv : RunEnv V) (k : VarKind V)
        (ins2 outs2 : NameVarMap V) (attrs2 default_attrs2 : AttributeMap),
      ∀ e ∈ (p.Run b2 fl2 renv k ins2 outs2 attrs2 default_attrs2).trace,
        e.invokesNothing = false) := by
  have hempty : empty_kernel.IsValid = false := rfl
  have hkind := Prepare_active_kind b fl env ins outs op place attrs default_attrs p hok
  refine ⟨fun _ _ _ _ _ _ _ => ⟨rfl, rfl, rfl⟩, hempty,
    fun _ _ _ _ _ _ _ _ => ⟨rfl, rfl, rfl, rfl⟩, ?_, ?_, ?_, ?_⟩
  · rcases hkind with ⟨h1, _, h3⟩ | ⟨h1, _, h3⟩
    · exact ⟨fun _ => h3, fun _ => h1⟩
    · constructor
      · intro h
        rw [h1] at h
        cases h
      · intro h
        rw [h3, hempty] at h
        cases h
  · rcases hkind with ⟨_, h2, _⟩ | ⟨h1, _, _⟩
    · exact fun _ => h2
    · intro h
      rw [h1] at h
      cases h
  · rcases hkind with ⟨h1, _, _⟩ | ⟨_, h2, h3⟩
    · intro h
      rw [h1] at h
      cases h
    · exact fun _ => ⟨h2, h3⟩
  · intro b2 fl2 renv k ins2 outs2 attrs2 default_attrs2 e he
    rcases Run_trace b2 fl2 renv k p ins2 outs2 attrs2 default_attrs2 with ⟨hooks, ht, hh⟩
    rw [ht, List.mem_append, List.mem_cons] at he
    rcases he with (he | he) | he
    · rw [he]
      rfl
    · cases hi : (renv.infer_shape_ p.op_
          (p.InferCtx ins2 outs2 attrs2 default_attrs2)).2 with
      | some t =>
        rw [hi] at he
        cases he
      | none =>
        rw [hi] at he
        simp only at he
        unfold PreparedOp.ComputeEvents at he
        rcases hkind with ⟨h1, _, h3⟩ | ⟨h1, ⟨f, h2⟩, _⟩
        · rw [h1] at he
          simp only [if_true] at he
          split at he
          · rw [List.mem_cons, List.mem_singleton] at he
            rcases he with he | he
            · rw [he]
              rfl
            · rw [he]
              simp [RunEvent.invokesNothing, h3]
          · rw [List.mem_singleton] at he
            rw [he]
            simp [RunEvent.invokesNothing, h3]
        · rw [h1] at he
          simp only [Bool.false_eq_true, if_false] at he
          rw [List.mem_singleton] at he
          rw [he, h2]
          rfl
    · have h := hh e he
      cases e <;> simp_all [RunEvent.isHook, RunEvent.invokesNothing]

/-- Witness for C20: `Prepare` of the sample operator with a unified kernel
    registered at the expected key returns a `PreparedOp` with
    `run_phi_kernel_` set iff its kernel is valid. -/
theorem C20_one_kernel_kind_active_witness :
    (PreparedOp.Prepare xpuBuild noFlags
        (sampleEnv xpuKey (phiAt [xpuKey] sampleFn) convSig noLegacy true false)
        [] [] convOp (Place.XPUPlace 0) [] []).result =
      Except.ok
        (PreparedOp.mkPhi convOp empty_ctx xpuKey none
          (some (KernelSignature.ofName "conv2d")) (KernelSignature.ofName "conv2d")
          { fn := some 2, kernel_registered_type := .FUNCTION }
          (samplePool (Place.XPUPlace 0))) ∧
    ((PreparedOp.mkPhi convOp empty_ctx xpuKey none
          (some (KernelSignature.ofName "conv2d")) (KernelSignature.ofName "conv2d")
          { fn := some 2, kernel_registered_type := .FUNCTION }
          (samplePool (Place.XPUPlace 0))).run_phi_kernel_ = true ↔
      (PreparedOp.mkPhi convOp empty_ctx xpuKey none
          (some (KernelSignature.ofName "conv2d")) (KernelSignature.ofName "conv2d")
          { fn := some 2, kernel_registered_type := .FUNCTION }
          (samplePool (Place.XPUPlace 0))).phi_kernel_.IsValid = true) :=
  ⟨by decide,
    (C20_one_kernel_kind_active xpuBuild noFlags
      (sampleEnv xpuKey (phiAt [xpuKey] sampleFn) convSig noLegacy true false)
      [] [] convOp (Place.XPUPlace 0) [] []
      (PreparedOp.mkPhi convOp empty_ctx xpuKey none
        (some (KernelSignature.ofName "conv2d")) (KernelSignature.ofName "conv2d")
        { fn := some 2, kernel_registered_type := .FUNCTION }
        (samplePool (Place.XPUPlace 0)))
      (by decide)).2.2.2.1⟩

/-- Both implementations of `Run` are the common post-compute part applied to
    the state after shape inference and the compute block. -/
theorem Run_postcompute {V : Type} (b : BuildConfig) (fl : GlobalFlags) (renv : RunEnv V)
    (k : VarKind V) (p : PreparedOp) (ins outs : NameVarMap V)
    (attrs default_attrs : AttributeMap) :
    p.Run b fl renv k ins outs attrs default_attrs =
      PostCompute b fl renv k p.op_ p.kernel_key_ p.dev_ctx_
        (p.RunAfterCompute renv ins outs attrs default_attrs) := by
  unfold PreparedOp.Run PreparedOp.RunAfterCompute PreparedOpRunPtImpl PreparedOpRunImpl
  cases p.run_phi_kernel_ <;> rfl

/-- A sequence that ends without exception had none on the way. -/
theorem andThen_exception_none {V : Type} (s : RunState V) (f : RunState V → RunState V)
    (h : (s.andThen f).exception = none) : s.exception = none := by
  unfold RunState.andThen at h
  cases hs : s.exception with
  | none => rfl
  | some t =>
    rw [hs] at h
    simp only at h
    rw [hs] at h
    cases h

/-- A statement that records the events of `L` and may throw after the last
    one performs `L`, provided the trace grows by `L`. -/
theorem Performs_all {V : Type} (t s : RunState V) (L : List (RunEvent V))
    (h : t.trace = s.trace ++ L) : t.Performs s L :=
  ⟨L, h, List.prefix_refl L, fun _ => rfl⟩

/-- A state performs nothing from itself. -/
theorem Performs_nil {V : Type} (s : RunState V) : s.Performs s [] :=
  Performs_all s s [] (by simp)

/-- Sequencing composes the performed events; the second statement is only
    considered on a state without exception. -/
theorem Performs_andThen {V : Type} (t s : RunState V) (f : RunState V → RunState V)
    (L M : List (RunEvent V)) (h : t.Performs s L)
    (hf : t.exception = none → (f t).Performs t M) :
    (t.andThen f).Performs s (L ++ M) := by
  rcases h with ⟨d, ht, hp, hall⟩
  cases he : t.exception with
  | some e =>
    rw [andThen_thrown t f e he]
    refine ⟨d, ht, hp.trans (List.prefix_append L M), ?_⟩
    intro h
    rw [he] at h
    cases h
  | none =>
    rw [andThen_ok t f he]
    rcases hf he with ⟨d2, ht2, hp2, hall2⟩
    have hd := hall he
    subst hd
    refine ⟨d ++ d2, ?_, ?_, ?_⟩
    · rw [ht2, ht, List.append_assoc]
    · exact (List.prefix_append_right_inj d).mpr hp2
    · intro h
      rw [hall2 h]

/-- A thrown state performs nothing more under any later statement. -/
theorem Performs_trivial {V : Type} (s : RunState V) (L : List (RunEvent V))
    (e : Thrown) (he : s.exception = some e) : s.Performs s L :=
  ⟨[], by simp, List.nil_prefix, fun h => by rw [he] at h; cases h⟩

/-- Sequencing keeps the outputs when the second statement does. -/
theorem andThen_outs {V : Type} (s : RunState V) (f : RunState V → RunState V)
    (hf : ∀ u, (f u).outs = u.outs) : (s.andThen f).outs = s.outs := by
  unfold RunState.andThen
  split
  · exact hf s
  · rfl

/-- The scan leaves the outputs as they are. -/
theorem CheckNanInfStep_outs {V : Type} (fl : GlobalFlags) (renv : RunEnv V)
    (op : OperatorWithKernel) (dev_ctx : DeviceContext) (s : RunState V) :
    (CheckNanInfStep fl renv op dev_ctx s).outs = s.outs := by
  unfold CheckNanInfStep
  split <;> rfl

/-- The read of the last device error leaves the outputs as they are. -/
theorem GpuLastErrorStep_outs {V : Type} (b : BuildConfig) (renv : RunEnv V)
    (dev_ctx : DeviceContext) (s : RunState V) :
    (GpuLastErrorStep b renv dev_ctx s).outs = s.outs := by
  unfold GpuLastErrorStep
  split <;> rfl

/-- The benchmark block leaves the outputs as they are. -/
theorem BenchmarkStep_outs {V : Type} (b : BuildConfig) (fl : GlobalFlags)
    (renv : RunEnv V) (dev_ctx : DeviceContext) (s : RunState V) :
    (BenchmarkStep b fl renv dev_ctx s).outs = s.outs := by
  unfold BenchmarkStep
  split
  · rw [andThen_outs _ _ (GpuLastErrorStep_outs b renv dev_ctx)]
  · rfl

/-- The diagnostics leave the outputs as they are. -/
theorem Diagnostics_outs {V : Type} (b : BuildConfig) (fl : GlobalFlags)
    (renv : RunEnv V) (op : OperatorWithKernel) (dev_ctx : DeviceContext)
    (s : RunState V) : (Diagnostics b fl renv op dev_ctx s).outs = s.outs := by
  unfold Diagnostics
  rw [andThen_outs _ _ (BenchmarkStep_outs b fl renv dev_ctx),
    andThen_outs _ _ (CheckNanInfStep_outs fl renv op dev_ctx)]

/-- The scan records its event iff `FLAGS_check_nan_inf`. -/
theorem CheckNanInfStep_performs {V : Type} (fl : GlobalFlags) (renv : RunEnv V)
    (op : OperatorWithKernel) (dev_ctx : DeviceContext) (s : RunState V) :
    (CheckNanInfStep fl renv op dev_ctx s).Performs s
      (if fl.FLAGS_check_nan_inf then
        [RunEvent.CheckNanInf op.Type_ s.outs dev_ctx.GetPlace]
      else []) := by
  unfold CheckNanInfStep
  cases fl.FLAGS_check_nan_inf
  · exact Performs_nil s
  · exact Performs_all _ s _ rfl

/-- The read of the last device error records its event iff the build has
    CUDA or HIP. -/
theorem GpuLastErrorStep_performs {V : Type} (b : BuildConfig) (renv : RunEnv V)
    (dev_ctx : DeviceContext) (s : RunState V) :
    (GpuLastErrorStep b renv dev_ctx s).Performs s
      (if b.PADDLE_WITH_CUDA || b.PADDLE_WITH_HIP then [RunEvent.GpuGetLastError dev_ctx]
      else []) := by
  unfold GpuLastErrorStep
  cases (b.PADDLE_WITH_CUDA || b.PADDLE_WITH_HIP)
  · exact Performs_nil s
  · exact Performs_all _ s _ rfl

/-- The benchmark block records the wait iff `FLAGS_benchmark`, and then the
    read of the last device error. -/
theorem BenchmarkStep_performs {V : Type} (b : BuildConfig) (fl : GlobalFlags)
    (renv : RunEnv V) (dev_ctx : DeviceContext) (s : RunState V) :
    (BenchmarkStep b fl renv dev_ctx s).Performs s
      (if fl.FLAGS_benchmark then
        RunEvent.Wait dev_ctx ::
          (if b.PADDLE_WITH_CUDA || b.PADDLE_WITH_HIP then
            [RunEvent.GpuGetLastError dev_ctx]
          else [])
      else []) := by
  unfold BenchmarkStep
  cases fl.FLAGS_benchmark
  · exact Performs_nil s
  · exact Performs_andThen _ s (GpuLastErrorStep b renv dev_ctx) [RunEvent.Wait dev_ctx] _
      (Performs_all _ s _ rfl) (fun _ => GpuLastErrorStep_performs b renv dev_ctx _)

/-- The repair step records its event iff the key's dtype is complex. -/
theorem ComplexGradStep_performs {V : Type} (renv : RunEnv V) (k : VarKind V)
    (kernel_key : KernelKey) (s : RunState V) :
    (ComplexGradStep renv k kernel_key s).Performs s
      (if renv.IsComplexType_phi kernel_key.dtype then
        [RunEvent.HandleComplexGradToRealGrad s.outs]
      else []) := by
  unfold ComplexGradStep
  cases renv.IsComplexType_phi kernel_key.dtype
  · exact Performs_nil s
  · exact Performs_all _ s _ rfl

/-- The post-compute part performs the hook sequence, up to the first
    throw. -/
theorem PostCompute_performs {V : Type} (b : BuildConfig) (fl : GlobalFlags)
    (renv : RunEnv V) (k : VarKind V) (op : OperatorWithKernel) (kernel_key : KernelKey)
    (dev_ctx : DeviceContext) (s : RunState V) :
    (PostCompute b fl renv k op kernel_key dev_ctx s).Performs s
      (HookSequence b fl renv op.Type_ kernel_key dev_ctx s.outs) := by
  have h1 := Performs_andThen s s (CheckNanInfStep fl renv op dev_ctx) [] _
    (Performs_nil s) (fun _ => CheckNanInfStep_performs fl renv op dev_ctx s)
  have h2 := Performs_andThen _ s (BenchmarkStep b fl renv dev_ctx) _ _ h1
    (fun _ => BenchmarkStep_performs b fl renv dev_ctx _)
  have h3 := Performs_andThen _ s (ComplexGradStep renv k kernel_key) _ _ h2
    (fun _ => ComplexGradStep_performs renv k kernel_key _)
  have ho := Diagnostics_outs b fl renv op dev_ctx s
  unfold Diagnostics at ho
  rw [ho, List.nil_append, List.append_assoc] at h3
  exact h3

/-- After a throw the post-compute part does nothing. -/
theorem PostCompute_thrown {V : Type} (b : BuildConfig) (fl : GlobalFlags)
    (renv : RunEnv V) (k : VarKind V) (op : OperatorWithKernel) (kernel_key : KernelKey)
    (dev_ctx : DeviceContext) (s : RunState V) (e : Thrown) (he : s.exception = some e) :
    PostCompute b fl renv k op kernel_key dev_ctx s = s := by
  unfold PostCompute Diagnostics
  rw [andThen_thrown s _ e he, andThen_thrown s _ e he, andThen_thrown s _ e he]

/-- The trace after shape inference and the compute block. -/
theorem RunAfterCompute_trace {V : Type} (renv : RunEnv V) (p : PreparedOp)
    (ins outs : NameVarMap V) (attrs default_attrs : AttributeMap) :
    (p.RunAfterCompute renv ins outs attrs default_attrs).trace =
      RunEvent.InferShape p.op_ (p.InferCtx ins outs attrs default_attrs) ::
        (match (renv.infer_shape_ p.op_ (p.InferCtx ins outs attrs default_attrs)).2 with
          | some _ => []
          | none => p.ComputeEvents renv ins outs attrs default_attrs) :=
  Compute_trace renv p ins outs attrs default_attrs

/-- The compute block is reached without exception only when shape inference
    accepted. -/
theorem RunAfterCompute_accepts {V : Type} (renv : RunEnv V) (p : PreparedOp)
    (ins outs : NameVarMap V) (attrs default_attrs : AttributeMap)
    (h : (p.RunAfterCompute renv ins outs attrs default_attrs).exception = none) :
    (renv.infer_shape_ p.op_ (p.InferCtx ins outs attrs default_attrs)).2 = none :=
  andThen_exception_none _ _ h

/-- When shape inference throws, the state after the compute block is the
    state shape inference left. -/
theorem RunAfterCompute_rejected {V : Type} (renv : RunEnv V) (p : PreparedOp)
    (ins outs : NameVarMap V) (attrs default_attrs : AttributeMap) (e : Thrown)
    (h : (renv.infer_shape_ p.op_ (p.InferCtx ins outs attrs default_attrs)).2 = some e) :
    (p.RunAfterCompute renv ins outs attrs default_attrs).exception = some e ∧
      (p.RunAfterCompute renv ins outs attrs default_attrs).trace =
        [RunEvent.InferShape p.op_ (p.InferCtx ins outs attrs default_attrs)] := by
  constructor
  · unfold PreparedOp.RunAfterCompute
    rw [andThen_thrown _ _ e h]
    exact h
  · rw [RunAfterCompute_trace, h]

/-- The events of every run are a prefix of the full sequence: shape
    inference, the compute block, the hook sequence; a run that ends without
    exception has all of them. -/
theorem Run_within_sequence {V : Type} (b : BuildConfig) (fl : GlobalFlags) (renv : RunEnv V)
    (k : VarKind V) (p : PreparedOp) (ins outs : NameVarMap V)
    (attrs default_attrs : AttributeMap) :
    (p.Run b fl renv k ins outs attrs default_attrs).trace <+:
        RunEvent.InferShape p.op_ (p.InferCtx ins outs attrs default_attrs) ::
          p.ComputeEvents renv ins outs attrs default_attrs ++
          HookSequence b fl renv p.op_.Type_ p.kernel_key_ p.dev_ctx_
            (p.RunAfterCompute renv ins outs attrs default_attrs).outs ∧
      ((p.Run b fl renv k ins outs attrs default_attrs).exception = none →
        (p.Run b fl renv k ins outs attrs default_attrs).trace =
          RunEvent.InferShape p.op_ (p.InferCtx ins outs attrs default_attrs) ::
            p.ComputeEvents renv ins outs attrs default_attrs ++
            HookSequence b fl renv p.op_.Type_ p.kernel_key_ p.dev_ctx_
              (p.RunAfterCompute renv ins outs attrs default_attrs).outs) := by
  rw [Run_postcompute]
  cases he : (p.RunAfterCompute renv ins outs attrs default_attrs).exception with
  | some e =>
    rw [PostCompute_thrown _ _ _ _ _ _ _ _ e he, RunAfterCompute_trace]
    constructor
    · cases (renv.infer_shape_ p.op_ (p.InferCtx ins outs attrs default_attrs)).2 with
      | some t =>
        exact ⟨_, rfl⟩
      | none =>
        exact List.prefix_append _ _
    · intro h
      rw [he] at h
      cases h
  | none =>
    rcases PostCompute_performs b fl renv k p.op_ p.kernel_key_ p.dev_ctx_
      (p.RunAfterCompute renv ins outs attrs default_attrs) with ⟨d, ht, hp, hall⟩
    have hacc := RunAfterCompute_accepts renv p ins outs attrs default_attrs he
    rw [ht, RunAfterCompute_trace, hacc]
    constructor
    · exact (List.prefix_append_right_inj _).mpr hp
    · intro h
      rw [hall h]

/-- The full sequence is in the order of the statements of `Run`. -/
theorem FullSequence_steps {V : Type} (b : BuildConfig) (fl : GlobalFlags)
    (renv : RunEnv V) (p : PreparedOp) (ins outs o : NameVarMap V)
    (attrs default_attrs : AttributeMap) :
    List.Pairwise (fun m n => m < n)
      ((RunEvent.InferShape p.op_ (p.InferCtx ins outs attrs default_attrs) ::
          p.ComputeEvents renv ins outs attrs default_attrs ++
          HookSequence b fl renv p.op_.Type_ p.kernel_key_ p.dev_ctx_ o).map
        RunEvent.step) := by
  unfold PreparedOp.ComputeEvents HookSequence
  by_cases hk : p.phi_kernel_.GetKernelRegisteredType = KernelRegisteredType.FUNCTION <;>
    cases p.run_phi_kernel_ <;> cases fl.FLAGS_check_nan_inf <;>
    cases fl.FLAGS_benchmark <;> cases (b.PADDLE_WITH_CUDA || b.PADDLE_WITH_HIP) <;>
    cases renv.IsComplexType_phi p.kernel_key_.dtype <;>
    simp [RunEvent.step, hk]

/-- The events of every run are in the order of the statements of `Run`, each
    statement at most once. -/
theorem Run_steps {V : Type} (b : BuildConfig) (fl : GlobalFlags) (renv : RunEnv V)
    (k : VarKind V) (p : PreparedOp) (ins outs : NameVarMap V)
    (attrs default_attrs : AttributeMap) :
    List.Pairwise (fun m n => m < n)
      ((p.Run b fl renv k ins outs attrs default_attrs).trace.map RunEvent.step) :=
  List.Pairwise.sublist
    ((Run_within_sequence b fl renv k p ins outs attrs default_attrs).1.sublist.map RunEvent.step)
    (FullSequence_steps b fl renv p ins outs _ attrs default_attrs)

/-- The compute block holds no scan, no wait and no repair. -/
theorem ComputeEvents_any {V : Type} (renv : RunEnv V) (p : PreparedOp)
    (ins outs : NameVarMap V) (attrs default_attrs : AttributeMap) :
    (p.ComputeEvents renv ins outs attrs default_attrs).any RunEvent.isCheckNanInf = false ∧
    (p.ComputeEvents renv ins outs attrs default_attrs).any RunEvent.isWait = false ∧
    (p.ComputeEvents renv ins outs attrs default_attrs).any RunEvent.isRepair = false := by
  unfold PreparedOp.ComputeEvents
  by_cases hk : p.phi_kernel_.GetKernelRegisteredType = KernelRegisteredType.FUNCTION <;>
    cases p.run_phi_kernel_ <;>
    simp [RunEvent.isCheckNanInf, RunEvent.isWait, RunEvent.isRepair, hk]

/-- In the hook sequence the scan occurs iff `FLAGS_check_nan_inf`. -/
theorem HookSequence_scan {V : Type} (b : BuildConfig) (fl : GlobalFlags)
    (renv : RunEnv V) (op_type : String) (kernel_key : KernelKey) (dev_ctx : DeviceContext)
    (o : NameVarMap V) :
    (HookSequence b fl renv op_type kernel_key dev_ctx o).any RunEvent.isCheckNanInf =
      fl.FLAGS_check_nan_inf := by
  unfold HookSequence
  cases fl.FLAGS_check_nan_inf <;> cases fl.FLAGS_benchmark <;>
    cases (b.PADDLE_WITH_CUDA || b.PADDLE_WITH_HIP) <;>
    cases renv.IsComplexType_phi kernel_key.dtype <;> rfl

/-- In the hook sequence the wait occurs iff `FLAGS_benchmark`. -/
theorem HookSequence_wait {V : Type} (b : BuildConfig) (fl : GlobalFlags)
    (renv : RunEnv V) (op_type : String) (kernel_key : KernelKey) (dev_ctx : DeviceContext)
    (o : NameVarMap V) :
    (HookSequence b fl renv op_type kernel_key dev_ctx o).any RunEvent.isWait =
      fl.FLAGS_benchmark := by
  unfold HookSequence
  cases fl.FLAGS_check_nan_inf <;> cases fl.FLAGS_benchmark <;>
    cases (b.PADDLE_WITH_CUDA || b.PADDLE_WITH_HIP) <;>
    cases renv.IsComplexType_phi kernel_key.dtype <;> rfl

/-- In the hook sequence the repair occurs iff the key's dtype is complex. -/
theorem HookSequence_repair {V : Type} (b : BuildConfig) (fl : GlobalFlags)
    (renv : RunEnv V) (op_type : String) (kernel_key : KernelKey) (dev_ctx : DeviceContext)
    (o : NameVarMap V) :
    (HookSequence b fl renv op_type kernel_key dev_ctx o).any RunEvent.isRepair =
      renv.IsComplexType_phi kernel_key.dtype := by
  unfold HookSequence
  cases fl.FLAGS_check_nan_inf <;> cases fl.FLAGS_benchmark <;>
    cases (b.PADDLE_WITH_CUDA || b.PADDLE_WITH_HIP) <;>
    cases renv.IsComplexType_phi kernel_key.dtype <;> rfl

/-- In the full sequence the scan, the wait and the repair occur iff their
    condition holds. -/
theorem FullSequence_hooks {V : Type} (b : BuildConfig) (fl : GlobalFlags)
    (renv : RunEnv V) (p : PreparedOp) (ins outs o : NameVarMap V)
    (attrs default_attrs : AttributeMap) :
    (RunEvent.InferShape p.op_ (p.InferCtx ins outs attrs default_attrs) ::
        p.ComputeEvents renv ins outs attrs default_attrs ++
        HookSequence b fl renv p.op_.Type_ p.kernel_key_ p.dev_ctx_ o).any
      RunEvent.isCheckNanInf = fl.FLAGS_check_nan_inf ∧
    (RunEvent.InferShape p.op_ (p.InferCtx ins outs attrs default_attrs) ::
        p.ComputeEvents renv ins outs attrs default_attrs ++
        HookSequence b fl renv p.op_.Type_ p.kernel_key_ p.dev_ctx_ o).any
      RunEvent.isWait = fl.FLAGS_benchmark ∧
    (RunEvent.InferShape p.op_ (p.InferCtx ins outs attrs default_attrs) ::
        p.ComputeEvents renv ins outs attrs default_attrs ++
        HookSequence b fl renv p.op_.Type_ p.kernel_key_ p.dev_ctx_ o).any
      RunEvent.isRepair = renv.IsComplexType_phi p.kernel_key_.dtype := by
  have hc := ComputeEvents_any renv p ins outs attrs default_attrs
  refine ⟨?_, ?_, ?_⟩
  · rw [List.any_append, List.any_cons, hc.1, HookSequence_scan]
    rfl
  · rw [List.any_append, List.any_cons, hc.2.1, HookSequence_wait]
    rfl
  · rw [List.any_append, List.any_cons, hc.2.2, HookSequence_repair]
    rfl

/-- C21 (as stated, refuted): the benchmark flag is set and the key's dtype
    is complex64, the NaN/Inf scan finds a NaN, and the run ends after the scan:
    its events are shape inference, the kernel invocation and the scan; the
    device context is not waited for and the repair does not run, so the
    complex gradient stays as the kernel left it. -/
theorem C21_counterexample :
    checkAndBenchmarkFlags.FLAGS_benchmark = true ∧
    nanRunEnv.IsComplexType_phi (legacyPrepared complexKey).kernel_key_.dtype = true ∧
    ((legacyPrepared complexKey).Run plainBuild checkAndBenchmarkFlags nanRunEnv
        (VarKind.primary sampleMethods) [] [("Out", [some dxVar])] [] []).trace.map
      RunEvent.step = [0, 2, 3] ∧
    ((legacyPrepared complexKey).Run plainBuild checkAndBenchmarkFlags nanRunEnv
        (VarKind.primary sampleMethods) [] [("Out", [some dxVar])] [] []).trace.filter
      RunEvent.isWait = [] ∧
    ((legacyPrepared complexKey).Run plainBuild checkAndBenchmarkFlags nanRunEnv
        (VarKind.primary sampleMethods) [] [("Out", [some dxVar])] [] []).trace.filter
      RunEvent.isRepair = [] ∧
    ((legacyPrepared complexKey).Run plainBuild checkAndBenchmarkFlags nanRunEnv
        (VarKind.primary sampleMethods) [] [("Out", [some dxVar])] [] []).outs =
      [("Out", [some dxVar])] ∧
    ((legacyPrepared complexKey).Run plainBuild checkAndBenchmarkFlags nanRunEnv
        (VarKind.primary sampleMethods) [] [("Out", [some dxVar])] [] []).exception =
      some { what := "nan or inf found" } := by
  decide

/-- C22: when shape inference throws, `Run` ends with that exception and its
    only event is the shape inference: no kernel, no hook; when the NaN/Inf
    scan throws, `Run` ends with that exception right after the scan: no wait,
    no repair, the outputs as the kernel left them; and in every run each
    statement occurs at most once, so nothing is retried. -/
theorem C22_run_failures_terminal {V : Type} (b : BuildConfig) (fl : GlobalFlags)
    (renv : RunEnv V) (k : VarKind V) (p : PreparedOp) (ins outs : NameVarMap V)
    (attrs default_attrs : AttributeMap) :
    (∀ e : Thrown,
      (renv.infer_shape_ p.op_ (p.InferCtx ins outs attrs default_attrs)).2 = some e →
      (p.Run b fl renv k ins outs attrs default_attrs).exception = some e ∧
        (p.Run b fl renv k ins outs attrs default_attrs).trace =
          [RunEvent.InferShape p.op_ (p.InferCtx ins outs attrs default_attrs)]) ∧
    (∀ e : Thrown,
      (p.RunAfterCompute renv ins outs attrs default_attrs).exception = none →
      fl.FLAGS_check_nan_inf = true →
      renv.CheckOpHasNanOrInfInDygraph p.op_.Type_
        (p.RunAfterCompute renv ins outs attrs default_attrs).outs p.dev_ctx_.GetPlace =
        some e →
      (p.Run b fl renv k ins outs attrs default_attrs).exception = some e ∧
        (p.Run b fl renv k ins outs attrs default_attrs).trace =
          RunEvent.InferShape p.op_ (p.InferCtx ins outs attrs default_attrs) ::
            p.ComputeEvents renv ins outs attrs default_attrs ++
            [RunEvent.CheckNanInf p.op_.Type_
              (p.RunAfterCompute renv ins outs attrs default_attrs).outs
              p.dev_ctx_.GetPlace] ∧
        (p.Run b fl renv k ins outs attrs default_attrs).outs =
          (p.RunAfterCompute renv ins outs attrs default_attrs).outs) ∧
    ((p.Run b fl renv k ins outs attrs default_attrs).trace.map RunEvent.step).Nodup := by
  refine ⟨?_, ?_, ?_⟩
  · intro e h
    have hr := RunAfterCompute_rejected renv p ins outs attrs default_attrs e h
    rw [Run_postcompute, PostCompute_thrown _ _ _ _ _ _ _ _ e hr.1]
    exact hr
  · intro e hrac hflag hscan
    have hs : CheckNanInfStep fl renv p.op_ p.dev_ctx_
        (p.RunAfterCompute renv ins outs attrs default_attrs) =
        { p.RunAfterCompute renv ins outs attrs default_attrs with
          trace := (p.RunAfterCompute renv ins outs attrs default_attrs).trace ++
            [RunEvent.CheckNanInf p.op_.Type_
              (p.RunAfterCompute renv ins outs attrs default_attrs).outs
              p.dev_ctx_.GetPlace]
          exception := some e } := by
      unfold CheckNanInfStep
      rw [if_pos hflag, hscan]
    have hrun : p.Run b fl renv k ins outs attrs default_attrs =
        CheckNanInfStep fl renv p.op_ p.dev_ctx_
          (p.RunAfterCompute renv ins outs attrs default_attrs) := by
      rw [Run_postcompute]
      unfold PostCompute Diagnostics
      have hb : (CheckNanInfStep fl renv p.op_ p.dev_ctx_
            (p.RunAfterCompute renv ins outs attrs default_attrs)).andThen
          (BenchmarkStep b fl renv p.dev_ctx_) =
          CheckNanInfStep fl renv p.op_ p.dev_ctx_
            (p.RunAfterCompute renv ins outs attrs default_attrs) :=
        andThen_thrown _ _ e (by rw [hs])
      rw [andThen_ok _ _ hrac, hb, andThen_thrown _ _ e (by rw [hs])]
    rw [hrun, hs]
    refine ⟨rfl, ?_, rfl⟩
    simp only
    rw [RunAfterCompute_trace,
      RunAfterCompute_accepts renv p ins outs attrs default_attrs hrac]
  · exact (Run_steps b fl renv k p ins outs attrs default_attrs).imp
      (fun h => Nat.ne_of_lt h)

/-- Witness for C22: a run whose shape inference rejects records that one
    event and ends with the rejection; a run whose scan finds a NaN, with the
    benchmark flag set and a complex64 key, ends with the numeric failure after
    the scan. -/
theorem C22_run_failures_terminal_witness :
    (((phiPrepared complexKey KernelRegisteredType.FUNCTION).Run cudaBuild
          checkAndBenchmarkFlags (sampleRunEnv true) (VarKind.primary sampleMethods) []
          [("Out", [some dxVar])] [] []).exception =
        some { what := "shape inference rejected" } ∧
      ((phiPrepared complexKey KernelRegisteredType.FUNCTION).Run cudaBuild
          checkAndBenchmarkFlags (sampleRunEnv true) (VarKind.primary sampleMethods) []
          [("Out", [some dxVar])] [] []).trace =
        [RunEvent.InferShape (phiPrepared complexKey KernelRegisteredType.FUNCTION).op_
          ((phiPrepared complexKey KernelRegisteredType.FUNCTION).InferCtx []
            [("Out", [some dxVar])] [] [])]) ∧
    ((legacyPrepared complexKey).Run cudaBuild checkAndBenchmarkFlags nanRunEnv
        (VarKind.primary sampleMethods) [] [("Out", [some dxVar])] [] []).exception =
      some { what := "nan or inf found" } :=
  ⟨(C22_run_failures_terminal cudaBuild checkAndBenchmarkFlags (sampleRunEnv true)
      (VarKind.primary sampleMethods) (phiPrepared complexKey KernelRegisteredType.FUNCTION)
      [] [("Out", [some dxVar])] [] []).1 { what := "shape inference rejected" } rfl,
    ((C22_run_failures_terminal cudaBuild checkAndBenchmarkFlags nanRunEnv
      (VarKind.primary sampleMethods) (legacyPrepared complexKey)
      [] [("Out", [some dxVar])] [] []).2.1 { what := "nan or inf found" }
      (by decide) rfl rfl).1⟩

/-- In an XPU build without KP, the legacy tier of an XPU-unsupported op at an
    XPU descriptor looks only at the CPU-substituted descriptor. -/
theorem LegacySelect_xpu_unsupport {V : Type} (b : BuildConfig) (env : Env V)
    (r : Resolved) (kp : Bool) (t : OpKernelType) (hx : b.PADDLE_WITH_XPU = true)
    (hk : b.PADDLE_WITH_XPU_KP = false) (hunsup : r.is_xpu_unsupport = true)
    (hplace : is_xpu_place t.place_ = true) :
    LegacySelect b env r kp t =
      match env.AllOpKernels r.op.Type_ with
      | none =>
        Except.error
          (EnforceNotMet.NotFound
            "There are no kernels which are registered in the %s operator."
            [ErrorArg.str r.op.Type_])
      | some kernels =>
        match kernels t.onCpu with
        | some func =>
          Except.ok
            (PreparedOp.mkLegacy r.op empty_ctx
              (env.TransOpKernelTypeToPhiKernelKey t.onCpu) func r.sig.arg_map_fn
              r.sig.default_kernel_signature (LegacyDevCtx env t.onCpu r.dev_ctx))
        | none =>
          Except.error
            (EnforceNotMet.NotFound "Operator %s does not have kernel for %s."
              [ErrorArg.str r.op.Type_, ErrorArg.kernelType t.onCpu]) := by
  cases ht : env.AllOpKernels r.op.Type_ with
  | none => exact LegacySelect_no_table b env r _ _ ht
  | some kernels =>
    have hl : LegacyLookup b r.is_xpu_unsupport kp kernels t = CpuRetry kernels t := by
      rw [hunsup]
      exact LegacyLookup_xpu_unsupport b kp kernels _ hx hk hplace
    cases hf : kernels t.onCpu with
    | some f =>
      simp only [hf]
      exact LegacySelect_found b env r _ _ t.onCpu kernels f ht
        (by rw [hl]; unfold CpuRetry; rw [hf])
    | none =>
      simp only [hf]
      exact LegacySelect_missing b env r _ _ t.onCpu kernels ht
        (by rw [hl]; unfold CpuRetry; rw [hf])

/-- In an XPU build without KP, the outcome of `Prepare` for an
    XPU-unsupported op whose key has backend XPU: the valid CPU-degraded
    unified kernel, else the legacy kernel at the CPU-substituted descriptor,
    else a NotFound error. -/
theorem Prepare_xpu_unsupported {V : Type} (b : BuildConfig) (fl : GlobalFlags)
    (env : Env V) (ins outs : NameVarMap V) (op : OperatorWithKernel) (place : Place)
    (attrs default_attrs : AttributeMap) (r : Resolved)
    (hr : r = ResolvedOf b fl env ins outs op place attrs default_attrs)
    (hx : b.PADDLE_WITH_XPU = true) (hk : b.PADDLE_WITH_XPU_KP = false)
    (hbackend : r.expected_kernel_key.backend = Backend.XPU)
    (hsupport : env.is_xpu_support_op op.Type_ r.expected_kernel_key.dtype = false)
    (hplace : is_xpu_place
      (env.TransPhiKernelKeyToOpKernelType r.expected_kernel_key).place_ = true) :
    (PreparedOp.Prepare b fl env ins outs op place attrs default_attrs).result =
      if r.sig.has_phi_kernel = true ∧
          (env.KernelFactory_Instance.SelectKernel r.sig.kernel_signature.name
            (env.FallBackToCpu r.expected_kernel_key r.op)).IsValid = true then
        Except.ok
          (PreparedOp.mkPhi r.op empty_ctx (env.FallBackToCpu r.expected_kernel_key r.op)
            r.sig.arg_map_fn r.sig.default_kernel_signature r.sig.kernel_signature
            (env.KernelFactory_Instance.SelectKernel r.sig.kernel_signature.name
              (env.FallBackToCpu r.expected_kernel_key r.op))
            (env.DeviceContextPool_Get Place.CPUPlace))
      else
        match env.AllOpKernels op.Type_ with
        | none =>
          Except.error
            (EnforceNotMet.NotFound
              "There are no kernels which are registered in the %s operator."
              [ErrorArg.str op.Type_])
        | some kernels =>
          match
            kernels (env.TransPhiKernelKeyToOpKernelType r.expected_kernel_key).onCpu with
          | some func =>
            Except.ok
              (PreparedOp.mkLegacy r.op empty_ctx
                (env.TransOpKernelTypeToPhiKernelKey
                  (env.TransPhiKernelKeyToOpKernelType r.expected_kernel_key).onCpu)
                func r.sig.arg_map_fn r.sig.default_kernel_signature
                (LegacyDevCtx env
                  (env.TransPhiKernelKeyToOpKernelType r.expected_kernel_key).onCpu
                  r.dev_ctx))
          | none =>
            Except.error
              (EnforceNotMet.NotFound "Operator %s does not have kernel for %s."
                [ErrorArg.str op.Type_,
                  ErrorArg.kernelType
                    (env.TransPhiKernelKeyToOpKernelType r.expected_kernel_key).onCpu]) := by
  have hty : r.op.Type_ = op.Type_ := by
    rw [hr]
    exact ResolvedOf_op_Type b fl env ins outs op place attrs default_attrs
  have hunsup : r.is_xpu_unsupport = true := by
    rw [hr, ResolvedOf_unsupport_noKP b fl env ins outs op place attrs default_attrs hk,
      ← hr]
    unfold IsXpuUnsupport
    rw [hty, hx, hbackend, hsupport]
    rfl
  have hkp : LegacyKpSupport b fl env r.op r.expected_kernel_key = false :=
    LegacyKpSupport_noKP b fl env _ _ hk
  have hkey : LegacyPhaseKey b fl env r = r.expected_kernel_key :=
    LegacyPhaseKey_of_not_kp b fl env r hkp
  have hfkt : FluidKernelType b fl env r =
      env.TransPhiKernelKeyToOpKernelType r.expected_kernel_key := by
    unfold FluidKernelType
    rw [hkey]
  have hcpuk : PhiCpuKernelKey b fl env r = env.FallBackToCpu r.expected_kernel_key r.op := by
    unfold PhiCpuKernelKey
    rw [hkey]
  have hguard : XpuGuard b r.is_xpu_unsupport = true := by
    unfold XpuGuard
    rw [hx, hk, hunsup]
    rfl
  have h1 : (r.sig.has_phi_kernel &&
      ((env.KernelFactory_Instance.SelectKernel r.sig.kernel_signature.name
          r.expected_kernel_key).IsValid && !XpuGuard b r.is_xpu_unsupport)) = false := by
    rw [hguard]
    simp
  rw [Prepare_result, ← hr]
  by_cases hc : r.sig.has_phi_kernel = true ∧
      (env.KernelFactory_Instance.SelectKernel r.sig.kernel_signature.name
        (env.FallBackToCpu r.expected_kernel_key r.op)).IsValid = true
  · rw [if_pos hc]
    have hmiss : LegacyMissing b (env.AllOpKernels r.op.Type_) (FluidKernelType b fl env r)
        r.is_xpu_unsupport (LegacyKpSupport b fl env r.op r.expected_kernel_key) = true := by
      unfold LegacyMissing
      rw [hx, hk, hunsup]
      simp
    rw [SelectFrom_cpu b fl env _ r h1 hmiss hc.1 (by rw [hcpuk]; exact hc.2), hcpuk]
  · rw [if_neg hc]
    have h2 : (LegacyMissing b (env.AllOpKernels r.op.Type_) (FluidKernelType b fl env r)
          r.is_xpu_unsupport (LegacyKpSupport b fl env r.op r.expected_kernel_key) &&
        (r.sig.has_phi_kernel &&
          (env.KernelFactory_Instance.SelectKernel r.sig.kernel_signature.name
            (PhiCpuKernelKey b fl env r)).IsValid)) = false := by
      rw [hcpuk]
      cases hs : r.sig.has_phi_kernel
      · simp
      · cases hv : (env.KernelFactory_Instance.SelectKernel r.sig.kernel_signature.name
            (env.FallBackToCpu r.expected_kernel_key r.op)).IsValid
        · simp
        · exact absurd ⟨hs, hv⟩ hc
    rw [SelectFrom_legacy b fl env _ r h1 h2, hfkt, ← hty]
    exact LegacySelect_xpu_unsupport b env r _ _ hx hk hunsup hplace

/-- The sample translation sends no CPU descriptor to the XPU backend. -/
theorem sample_cpu_descriptor_backend (d : OpKernelType) (hd : d.place_ = Place.CPUPlace) :
    (sampleTypeToKey d).backend ≠ Backend.XPU := by
  unfold sampleTypeToKey
  rw [hd]
  cases d.library_type_ <;> simp [sampleTransToPhiBackend]

/-- C23: in a build with XPU support and without KP, when the resolved key has
    backend XPU (translated to an XPU place) and `is_xpu_support_op(op type,
    dtype)` is false, the outcome of `Prepare` is the valid unified kernel at
    the CPU-degraded key, on the pool's CPU context, if the op has a unified
    signature and that kernel is valid; else the legacy kernel at the
    descriptor with the place replaced by `CPUPlace` if the op's legacy table
    has it; else a NotFound error.  The outcome does not read the unified
    kernel at the XPU key nor the legacy entry at the XPU descriptor, and no
    result is on the XPU backend, provided `FallBackToCpu` and the translation
    of a CPU descriptor give no XPU key. -/
theorem C23_xpu_unsupported_never_xpu {V : Type} (b : BuildConfig) (fl : GlobalFlags)
    (env : Env V) (ins outs : NameVarMap V) (op : OperatorWithKernel) (place : Place)
    (attrs default_attrs : AttributeMap) (r : Resolved)
    (hr : r = ResolvedOf b fl env ins outs op place attrs default_attrs)
    (hx : b.PADDLE_WITH_XPU = true) (hk : b.PADDLE_WITH_XPU_KP = false)
    (hbackend : r.expected_kernel_key.backend = Backend.XPU)
    (hsupport : env.is_xpu_support_op op.Type_ r.expected_kernel_key.dtype = false)
    (hplace : is_xpu_place
      (env.TransPhiKernelKeyToOpKernelType r.expected_kernel_key).place_ = true) :
    (PreparedOp.Prepare b fl env ins outs op place attrs default_attrs).result =
      (if r.sig.has_phi_kernel = true ∧
          (env.KernelFactory_Instance.SelectKernel r.sig.kernel_signature.name
            (env.FallBackToCpu r.expected_kernel_key r.op)).IsValid = true then
        Except.ok
          (PreparedOp.mkPhi r.op empty_ctx (env.FallBackToCpu r.expected_kernel_key r.op)
            r.sig.arg_map_fn r.sig.default_kernel_signature r.sig.kernel_signature
            (env.KernelFactory_Instance.SelectKernel r.sig.kernel_signature.name
              (env.FallBackToCpu r.expected_kernel_key r.op))
            (env.DeviceContextPool_Get Place.CPUPlace))
      else
        match env.AllOpKernels op.Type_ with
        | none =>
          Except.error
            (EnforceNotMet.NotFound
              "There are no kernels which are registered in the %s operator."
              [ErrorArg.str op.Type_])
        | some kernels =>
          match
            kernels (env.TransPhiKernelKeyToOpKernelType r.expected_kernel_key).onCpu with
          | some func =>
            Except.ok
              (PreparedOp.mkLegacy r.op empty_ctx
                (env.TransOpKernelTypeToPhiKernelKey
                  (env.TransPhiKernelKeyToOpKernelType r.expected_kernel_key).onCpu)
                func r.sig.arg_map_fn r.sig.default_kernel_signature
                (LegacyDevCtx env
                  (env.TransPhiKernelKeyToOpKernelType r.expected_kernel_key).onCpu
                  r.dev_ctx))
          | none =>
            Except.error
              (EnforceNotMet.NotFound "Operator %s does not have kernel for %s."
                [ErrorArg.str op.Type_,
                  ErrorArg.kernelType
                    (env.TransPhiKernelKeyToOpKernelType r.expected_kernel_key).onCpu])) ∧
    (∀ p : PreparedOp,
      (PreparedOp.Prepare b fl env ins outs op place attrs default_attrs).result =
        Except.ok p →
      (p.run_phi_kernel_ = true ∧ p.phi_kernel_.IsValid = true ∧
          p.phi_kernel_ =
            env.KernelFactory_Instance.SelectKernel r.sig.kernel_signature.name
              (env.FallBackToCpu r.expected_kernel_key r.op) ∧
          p.kernel_key_ = env.FallBackToCpu r.expected_kernel_key r.op ∧
          p.dev_ctx_ = env.DeviceContextPool_Get Place.CPUPlace) ∨
        (p.run_phi_kernel_ = false ∧
          (∃ kernels func, env.AllOpKernels op.Type_ = some kernels ∧
            kernels (env.TransPhiKernelKeyToOpKernelType r.expected_kernel_key).onCpu =
              some func ∧ p.func_ = some func) ∧
          (env.TransPhiKernelKeyToOpKernelType r.expected_kernel_key).onCpu.place_ =
            Place.CPUPlace ∧
          p.kernel_key_ =
            env.TransOpKernelTypeToPhiKernelKey
              (env.TransPhiKernelKeyToOpKernelType r.expected_kernel_key).onCpu)) ∧
    ((env.FallBackToCpu r.expected_kernel_key r.op).backend ≠ Backend.XPU →
      (∀ d : OpKernelType, d.place_ = Place.CPUPlace →
        (env.TransOpKernelTypeToPhiKernelKey d).backend ≠ Backend.XPU) →
      ∀ p : PreparedOp,
        (PreparedOp.Prepare b fl env ins outs op place attrs default_attrs).result =
          Except.ok p →
        p.kernel_key_.backend ≠ Backend.XPU) := by
  have h := Prepare_xpu_unsupported b fl env ins outs op place attrs default_attrs r hr hx hk
    hbackend hsupport hplace
  have hcases : ∀ p : PreparedOp,
      (PreparedOp.Prepare b fl env ins outs op place attrs default_attrs).result =
        Except.ok p →
      (p.run_phi_kernel_ = true ∧ p.phi_kernel_.IsValid = true ∧
          p.phi_kernel_ =
            env.KernelFactory_Instance.SelectKernel r.sig.kernel_signature.name
              (env.FallBackToCpu r.expected_kernel_key r.op) ∧
          p.kernel_key_ = env.FallBackToCpu r.expected_kernel_key r.op ∧
          p.dev_ctx_ = env.DeviceContextPool_Get Place.CPUPlace) ∨
        (p.run_phi_kernel_ = false ∧
          (∃ kernels func, env.AllOpKernels op.Type_ = some kernels ∧
            kernels (env.TransPhiKernelKeyToOpKernelType r.expected_kernel_key).onCpu =
              some func ∧ p.func_ = some func) ∧
          (env.TransPhiKernelKeyToOpKernelType r.expected_kernel_key).onCpu.place_ =
            Place.CPUPlace ∧
          p.kernel_key_ =
            env.TransOpKernelTypeToPhiKernelKey
              (env.TransPhiKernelKeyToOpKernelType r.expected_kernel_key).onCpu) := by
    intro p hp
    rw [h] at hp
    by_cases hc : r.sig.has_phi_kernel = true ∧
        (env.KernelFactory_Instance.SelectKernel r.sig.kernel_signature.name
          (env.FallBackToCpu r.expected_kernel_key r.op)).IsValid = true
    · rw [if_pos hc] at hp
      injection hp with hp
      subst hp
      exact Or.inl ⟨rfl, hc.2, rfl, rfl, rfl⟩
    · rw [if_neg hc] at hp
      cases ht : env.AllOpKernels op.Type_ with
      | none =>
        rw [ht] at hp
        cases hp
      | some kernels =>
        rw [ht] at hp
        simp only at hp
        cases hf :
          kernels (env.TransPhiKernelKeyToOpKernelType r.expected_kernel_key).onCpu with
        | none =>
          rw [hf] at hp
          cases hp
        | some func =>
          rw [hf] at hp
          injection hp with hp
          subst hp
          exact Or.inr ⟨rfl, ⟨kernels, func, rfl, hf, rfl⟩, rfl, rfl⟩
  refine ⟨h, hcases, ?_⟩
  intro hfb htr p hp
  rcases hcases p hp with ⟨_, _, _, hkey, _⟩ | ⟨_, _, hcpu, hkey⟩
  · rw [hkey]
    exact hfb
  · rw [hkey]
    exact htr _ hcpu

/-- Witness for C23: with a valid XPU unified kernel and an XPU legacy kernel
    both registered for the XPU-unsupported op `conv`, `Prepare` returns the
    unified kernel at the CPU key, whose backend is not XPU. -/
theorem C23_xpu_unsupported_never_xpu_witness :
    (PreparedOp.Prepare xpuBuild noFlags
        (sampleEnv xpuKey (phiAt [xpuKey, cpuKey] sampleFn) convSig
          (legacyAt [(xpuDesc, { handle := 7 }), (cpuDesc, { handle := 8 })]) false false)
        [] [] convOp (Place.XPUPlace 0) [] []).result =
      Except.ok
        (PreparedOp.mkPhi convOp empty_ctx cpuKey none
          (some (KernelSignature.ofName "conv2d")) (KernelSignature.ofName "conv2d")
          { fn := some 1, kernel_registered_type := .FUNCTION }
          (samplePool Place.CPUPlace)) ∧
    (PreparedOp.mkPhi convOp empty_ctx cpuKey none
        (some (KernelSignature.ofName "conv2d")) (KernelSignature.ofName "conv2d")
        { fn := some 1, kernel_registered_type := .FUNCTION }
        (samplePool Place.CPUPlace)).kernel_key_.backend ≠ Backend.XPU :=
  ⟨by decide,
    (C23_xpu_unsupported_never_xpu xpuBuild noFlags
      (sampleEnv xpuKey (phiAt [xpuKey, cpuKey] sampleFn) convSig
        (legacyAt [(xpuDesc, { handle := 7 }), (cpuDesc, { handle := 8 })]) false false)
      [] [] convOp (Place.XPUPlace 0) [] []
      (ResolvedOf xpuBuild noFlags
        (sampleEnv xpuKey (phiAt [xpuKey, cpuKey] sampleFn) convSig
          (legacyAt [(xpuDesc, { handle := 7 }), (cpuDesc, { handle := 8 })]) false false)
        [] [] convOp (Place.XPUPlace 0) [] [])
      rfl rfl rfl (by decide) (by decide) (by decide)).2.2 (by decide)
      sample_cpu_descriptor_backend _ (by decide)⟩

/-- Outside the accelerator branches the legacy lookup is the lookup at the
    descriptor, whatever it finds. -/
theorem LegacyLookup_no_branch (b : BuildConfig) (unsup kp : Bool) (kernels : OpKernelMap)
    (t : OpKernelType) (hacc : AcceleratorTarget b t.place_ = false)
    (hkp : b.PADDLE_WITH_XPU_KP = false ∨ is_xpu_place t.place_ = false) :
    LegacyLookup b unsup kp kernels t = (t, kernels t) := by
  unfold AcceleratorTarget at hacc
  unfold LegacyLookup XpuDegrade XpuKpDegrade IpuDegrade CustomDegrade
  cases hx : b.PADDLE_WITH_XPU <;> cases hk : b.PADDLE_WITH_XPU_KP <;>
    cases hi : b.PADDLE_WITH_IPU <;> cases hc : b.PADDLE_WITH_CUSTOM_DEVICE <;>
    cases hp : t.place_ <;>
    simp_all [is_xpu_place, is_ipu_place, is_custom_place]

/-- C24: when the descriptor translated from the resolved key targets no
    accelerator with a CPU degradation branch in the build (no XPU, XPU-KP, IPU
    or custom-device support, or a place that is none of these), no unified
    kernel is valid at the resolved key nor at the CPU-degraded key, and the
    op's legacy table exists but has no entry at that descriptor, `Prepare`
    fails with NotFound carrying the op type and that descriptor, whatever the
    table holds for the CPU place. -/
theorem C24_no_cpu_degradation_elsewhere {V : Type} (b : BuildConfig) (fl : GlobalFlags)
    (env : Env V) (ins outs : NameVarMap V) (op : OperatorWithKernel) (place : Place)
    (attrs default_attrs : AttributeMap) (r : Resolved) (kernels : OpKernelMap)
    (hr : r = ResolvedOf b fl env ins outs op place attrs default_attrs)
    (hacc : AcceleratorTarget b
      (env.TransPhiKernelKeyToOpKernelType r.expected_kernel_key).place_ = false)
    (hkp : b.PADDLE_WITH_XPU_KP = false ∨
      (r.expected_kernel_key.backend ≠ Backend.XPU ∧
        is_xpu_place
          (env.TransPhiKernelKeyToOpKernelType r.expected_kernel_key).place_ = false))
    (h1 : r.sig.has_phi_kernel = true →
      (env.KernelFactory_Instance.SelectKernel r.sig.kernel_signature.name
        r.expected_kernel_key).IsValid = false)
    (h2 : r.sig.has_phi_kernel = true →
      (env.KernelFactory_Instance.SelectKernel r.sig.kernel_signature.name
        (env.FallBackToCpu r.expected_kernel_key r.op)).IsValid = false)
    (ht : env.AllOpKernels op.Type_ = some kernels)
    (hf : kernels (env.TransPhiKernelKeyToOpKernelType r.expected_kernel_key) = none) :
    (PreparedOp.Prepare b fl env ins outs op place attrs default_attrs).result =
      Except.error
        (EnforceNotMet.NotFound "Operator %s does not have kernel for %s."
          [ErrorArg.str op.Type_,
            ErrorArg.kernelType
              (env.TransPhiKernelKeyToOpKernelType r.expected_kernel_key)]) := by
  have hty : r.op.Type_ = op.Type_ := by
    rw [hr]
    exact ResolvedOf_op_Type b fl env ins outs op place attrs default_attrs
  have hkps : LegacyKpSupport b fl env r.op r.expected_kernel_key = false := by
    rcases hkp with hk | ⟨hb, _⟩
    · exact LegacyKpSupport_noKP b fl env _ _ hk
    · unfold LegacyKpSupport
      have hbe : (r.expected_kernel_key.backend == Backend.XPU) = false := by
        simpa using hb
      simp [hbe]
  have hkey : LegacyPhaseKey b fl env r = r.expected_kernel_key :=
    LegacyPhaseKey_of_not_kp b fl env r hkps
  have hfkt : FluidKernelType b fl env r =
      env.TransPhiKernelKeyToOpKernelType r.expected_kernel_key := by
    unfold FluidKernelType
    rw [hkey]
  have hcpuk : PhiCpuKernelKey b fl env r = env.FallBackToCpu r.expected_kernel_key r.op := by
    unfold PhiCpuKernelKey
    rw [hkey]
  have ht1 : (r.sig.has_phi_kernel &&
      ((env.KernelFactory_Instance.SelectKernel r.sig.kernel_signature.name
          r.expected_kernel_key).IsValid && !XpuGuard b r.is_xpu_unsupport)) = false := by
    cases hs : r.sig.has_phi_kernel
    · rfl
    · rw [h1 hs]
      rfl
  have ht2 : (LegacyMissing b (env.AllOpKernels r.op.Type_) (FluidKernelType b fl env r)
        r.is_xpu_unsupport (LegacyKpSupport b fl env r.op r.expected_kernel_key) &&
      (r.sig.has_phi_kernel &&
        (env.KernelFactory_Instance.SelectKernel r.sig.kernel_signature.name
          (PhiCpuKernelKey b fl env r)).IsValid)) = false := by
    rw [hcpuk]
    cases hs : r.sig.has_phi_kernel
    · simp
    · rw [h2 hs]
      simp
  have hkp2 : b.PADDLE_WITH_XPU_KP = false ∨
      is_xpu_place
        (env.TransPhiKernelKeyToOpKernelType r.expected_kernel_key).place_ = false := by
    rcases hkp with hk | ⟨_, hp⟩
    · exact Or.inl hk
    · exact Or.inr hp
  rw [Prepare_result, ← hr, SelectFrom_legacy b fl env _ r ht1 ht2, hfkt, ← hty]
  rw [← hty] at ht
  exact LegacySelect_missing b env r _ _ _ kernels ht
    (by rw [LegacyLookup_no_branch b _ _ kernels _ hacc hkp2, hf])

/-- Witness for C24: in a CUDA build the op `conv` targets a GPU, no unified
    kernel is registered, the legacy table has an entry for the CPU descriptor
    of the same layout and dtype and none for the GPU descriptor, and
    `Prepare` fails naming the GPU descriptor. -/
theorem C24_no_cpu_degradation_elsewhere_witness :
    tableOf [(cpuDesc, { handle := 8 })] gpuDesc.onCpu = some { handle := 8 } ∧
    (PreparedOp.Prepare cudaBuild noFlags
        (sampleEnv gpuKey (phiAt [] sampleFn) convSig (legacyAt [(cpuDesc, { handle := 8 })])
          true false)
        [] [] convOp (Place.GPUPlace 0) [] []).result =
      Except.error
        (EnforceNotMet.NotFound "Operator %s does not have kernel for %s."
          [ErrorArg.str "conv", ErrorArg.kernelType gpuDesc]) :=
  ⟨by decide,
    C24_no_cpu_degradation_elsewhere cudaBuild noFlags
      (sampleEnv gpuKey (phiAt [] sampleFn) convSig (legacyAt [(cpuDesc, { handle := 8 })])
        true false)
      [] [] convOp (Place.GPUPlace 0) [] []
      (ResolvedOf cudaBuild noFlags
        (sampleEnv gpuKey (phiAt [] sampleFn) convSig
          (legacyAt [(cpuDesc, { handle := 8 })]) true false)
        [] [] convOp (Place.GPUPlace 0) [] [])
      (tableOf [(cpuDesc, { handle := 8 })])
      rfl (by decide) (Or.inl rfl) (fun _ => by decide) (fun _ => by decide) rfl
      (by decide)⟩

/-- An event that returns lets the sequence go on. -/
theorem StopAtFirstThrow_cons_none {V : Type} (renv : RunEnv V) (e : RunEvent V)
    (es : List (RunEvent V)) (h : e.thrown renv = none) :
    StopAtFirstThrow renv (e :: es) = e :: StopAtFirstThrow renv es ∧
      FirstThrown renv (e :: es) = FirstThrown renv es := by
  constructor
  · show (match e.thrown renv with
      | some _ => [e]
      | none => e :: StopAtFirstThrow renv es) = _
    rw [h]
  · show (match e.thrown renv with
      | some t => some t
      | none => FirstThrown renv es) = _
    rw [h]

/-- An event that throws ends the sequence. -/
theorem StopAtFirstThrow_cons_some {V : Type} (renv : RunEnv V) (e : RunEvent V)
    (es : List (RunEvent V)) (t : Thrown) (h : e.thrown renv = some t) :
    StopAtFirstThrow renv (e :: es) = [e] ∧ FirstThrown renv (e :: es) = some t := by
  constructor
  · show (match e.thrown renv with
      | some _ => [e]
      | none => e :: StopAtFirstThrow renv es) = _
    rw [h]
  · show (match e.thrown renv with
      | some t => some t
      | none => FirstThrown renv es) = _
    rw [h]

/-- A sequence in which nothing throws runs to its end. -/
theorem StopAtFirstThrow_of_none {V : Type} (renv : RunEnv V) (L : List (RunEvent V))
    (h : FirstThrown renv L = none) : StopAtFirstThrow renv L = L := by
  induction L with
  | nil => rfl
  | cons e es ih =>
    cases he : e.thrown renv with
    | some t =>
      rw [(StopAtFirstThrow_cons_some renv e es t he).2] at h
      cases h
    | none =>
      rw [(StopAtFirstThrow_cons_none renv e es he).2] at h
      rw [(StopAtFirstThrow_cons_none renv e es he).1, ih h]

/-- A throw in the first part of a sequence hides the second part. -/
theorem StopAtFirstThrow_append_thrown {V : Type} (renv : RunEnv V)
    (L M : List (RunEvent V)) (t : Thrown) (h : FirstThrown renv L = some t) :
    StopAtFirstThrow renv (L ++ M) = StopAtFirstThrow renv L ∧
      FirstThrown renv (L ++ M) = some t := by
  induction L with
  | nil => cases h
  | cons e es ih =>
    rw [List.cons_append]
    cases he : e.thrown renv with
    | some u =>
      rw [(StopAtFirstThrow_cons_some renv e es u he).2] at h
      rw [(StopAtFirstThrow_cons_some renv e _ u he).1,
        (StopAtFirstThrow_cons_some renv e _ u he).2,
        (StopAtFirstThrow_cons_some renv e es u he).1]
      exact ⟨rfl, h⟩
    | none =>
      rw [(StopAtFirstThrow_cons_none renv e es he).2] at h
      rw [(StopAtFirstThrow_cons_none renv e _ he).1,
        (StopAtFirstThrow_cons_none renv e _ he).2,
        (StopAtFirstThrow_cons_none renv e es he).1, (ih h).1]
      exact ⟨rfl, (ih h).2⟩

/-- Without a throw in the first part, the sequence goes on into the second. -/
theorem StopAtFirstThrow_append_none {V : Type} (renv : RunEnv V)
    (L M : List (RunEvent V)) (h : FirstThrown renv L = none) :
    StopAtFirstThrow renv (L ++ M) = L ++ StopAtFirstThrow renv M ∧
      FirstThrown renv (L ++ M) = FirstThrown renv M := by
  induction L with
  | nil => exact ⟨rfl, rfl⟩
  | cons e es ih =>
    rw [List.cons_append]
    cases he : e.thrown renv with
    | some u =>
      rw [(StopAtFirstThrow_cons_some renv e es u he).2] at h
      cases h
    | none =>
      rw [(StopAtFirstThrow_cons_none renv e es he).2] at h
      rw [(StopAtFirstThrow_cons_none renv e _ he).1,
        (StopAtFirstThrow_cons_none renv e _ he).2, (ih h).1, List.cons_append]
      exact ⟨rfl, (ih h).2⟩

/-- A state without exception stops nowhere in the empty sequence. -/
theorem Stops_nil {V : Type} (renv : RunEnv V) (s : RunState V)
    (h : s.exception = none) : s.Stops renv s [] :=
  ⟨(List.append_nil s.trace).symm, h⟩

/-- A statement that records one event and ends with what the event throws. -/
theorem Stops_single {V : Type} (renv : RunEnv V) (t s : RunState V) (e : RunEvent V)
    (ht : t.trace = s.trace ++ [e]) (hx : t.exception = e.thrown renv) :
    t.Stops renv s [e] := by
  cases he : e.thrown renv with
  | some u =>
    exact ⟨by rw [ht, (StopAtFirstThrow_cons_some renv e [] u he).1],
      by rw [hx, he, (StopAtFirstThrow_cons_some renv e [] u he).2]⟩
  | none =>
    exact ⟨by rw [ht, (StopAtFirstThrow_cons_none renv e [] he).1]; rfl,
      by rw [hx, he, (StopAtFirstThrow_cons_none renv e [] he).2]; rfl⟩

/-- Composition: `u` is what follows `t`, which is left alone after a throw. -/
theorem Stops_extend {V : Type} (renv : RunEnv V) (u t s : RunState V)
    (L M : List (RunEvent V)) (h : t.Stops renv s L)
    (hok : t.exception = none → u.Stops renv t M)
    (hthrown : ∀ e, t.exception = some e → u = t) : u.Stops renv s (L ++ M) := by
  rcases h with ⟨ht, hx⟩
  cases he : t.exception with
  | some e =>
    rw [hthrown e he]
    rw [he] at hx
    have ha := StopAtFirstThrow_append_thrown renv L M e hx.symm
    exact ⟨by rw [ht, ha.1], by rw [he, ha.2]⟩
  | none =>
    rw [he] at hx
    have ha := StopAtFirstThrow_append_none renv L M hx.symm
    rcases hok he with ⟨hu, hux⟩
    refine ⟨?_, ?_⟩
    · rw [hu, ht, StopAtFirstThrow_of_none renv L hx.symm, ha.1, List.append_assoc]
    · rw [hux, ha.2]

/-- Sequencing of statements composes the sequences. -/
theorem Stops_andThen {V : Type} (renv : RunEnv V) (t s : RunState V)
    (f : RunState V → RunState V) (L M : List (RunEvent V)) (h : t.Stops renv s L)
    (hf : t.exception = none → (f t).Stops renv t M) :
    (t.andThen f).Stops renv s (L ++ M) :=
  Stops_extend renv _ t s L M h (fun he => by rw [andThen_ok t f he]; exact hf he)
    (fun e he => andThen_thrown t f e he)

/-- The scan stops the run iff it throws. -/
theorem CheckNanInfStep_stops {V : Type} (fl : GlobalFlags) (renv : RunEnv V)
    (op : OperatorWithKernel) (dev_ctx : DeviceContext) (s : RunState V)
    (h : s.exception = none) :
    (CheckNanInfStep fl renv op dev_ctx s).Stops renv s
      (if fl.FLAGS_check_nan_inf then
        [RunEvent.CheckNanInf op.Type_ s.outs dev_ctx.GetPlace]
      else []) := by
  unfold CheckNanInfStep
  cases fl.FLAGS_check_nan_inf
  · exact Stops_nil renv s h
  · exact Stops_single renv _ s _ rfl rfl

/-- The read of the last device error stops the run iff it throws. -/
theorem GpuLastErrorStep_stops {V : Type} (b : BuildConfig) (renv : RunEnv V)
    (dev_ctx : DeviceContext) (s : RunState V) (h : s.exception = none) :
    (GpuLastErrorStep b renv dev_ctx s).Stops renv s
      (if b.PADDLE_WITH_CUDA || b.PADDLE_WITH_HIP then [RunEvent.GpuGetLastError dev_ctx]
      else []) := by
  unfold GpuLastErrorStep
  cases (b.PADDLE_WITH_CUDA || b.PADDLE_WITH_HIP)
  · exact Stops_nil renv s h
  · exact Stops_single renv _ s _ rfl rfl

/-- The benchmark block stops the run at the wait or at the read of the last
    device error, whichever throws first. -/
theorem BenchmarkStep_stops {V : Type} (b : BuildConfig) (fl : GlobalFlags)
    (renv : RunEnv V) (dev_ctx : DeviceContext) (s : RunState V)
    (h : s.exception = none) :
    (BenchmarkStep b fl renv dev_ctx s).Stops renv s
      (if fl.FLAGS_benchmark then
        RunEvent.Wait dev_ctx ::
          (if b.PADDLE_WITH_CUDA || b.PADDLE_WITH_HIP then
            [RunEvent.GpuGetLastError dev_ctx]
          else [])
      else []) := by
  unfold BenchmarkStep
  cases fl.FLAGS_benchmark
  · exact Stops_nil renv s h
  · exact Stops_andThen renv _ s (GpuLastErrorStep b renv dev_ctx) [RunEvent.Wait dev_ctx] _
      (Stops_single renv _ s _ rfl rfl)
      (fun he => GpuLastErrorStep_stops b renv dev_ctx _ he)

/-- The repair never stops the run. -/
theorem ComplexGradStep_stops {V : Type} (renv : RunEnv V) (k : VarKind V)
    (kernel_key : KernelKey) (s : RunState V) (h : s.exception = none) :
    (ComplexGradStep renv k kernel_key s).Stops renv s
      (if renv.IsComplexType_phi kernel_key.dtype then
        [RunEvent.HandleComplexGradToRealGrad s.outs]
      else []) := by
  unfold ComplexGradStep
  cases renv.IsComplexType_phi kernel_key.dtype
  · exact Stops_nil renv s h
  · exact Stops_single renv _ s _ rfl h

/-- A statement that records events none of which throws. -/
theorem Stops_all {V : Type} (renv : RunEnv V) (t s : RunState V) (L : List (RunEvent V))
    (ht : t.trace = s.trace ++ L) (hx : t.exception = none)
    (hL : FirstThrown renv L = none) : t.Stops renv s L :=
  ⟨by rw [ht, StopAtFirstThrow_of_none renv L hL], by rw [hx, hL]⟩

/-- The post-compute part stops at the first hook that throws. -/
theorem PostCompute_stops {V : Type} (b : BuildConfig) (fl : GlobalFlags)
    (renv : RunEnv V) (k : VarKind V) (op : OperatorWithKernel) (kernel_key : KernelKey)
    (dev_ctx : DeviceContext) (s : RunState V) (h : s.exception = none) :
    (PostCompute b fl renv k op kernel_key dev_ctx s).Stops renv s
      (HookSequence b fl renv op.Type_ kernel_key dev_ctx s.outs) := by
  have h1 := Stops_andThen renv s s (CheckNanInfStep fl renv op dev_ctx) [] _
    (Stops_nil renv s h) (fun he => CheckNanInfStep_stops fl renv op dev_ctx s he)
  have h2 := Stops_andThen renv _ s (BenchmarkStep b fl renv dev_ctx) _ _ h1
    (fun he => BenchmarkStep_stops b fl renv dev_ctx _ he)
  have h3 := Stops_andThen renv _ s (ComplexGradStep renv k kernel_key) _ _ h2
    (fun he => ComplexGradStep_stops renv k kernel_key _ he)
  have ho := Diagnostics_outs b fl renv op dev_ctx s
  unfold Diagnostics at ho
  rw [ho, List.nil_append, List.append_assoc] at h3
  exact h3

/-- The compute block stops the run only by calling a null legacy function. -/
theorem Compute_stops {V : Type} (renv : RunEnv V) (p : PreparedOp)
    (ins outs : NameVarMap V) (attrs default_attrs : AttributeMap)
    (he : (InferShapeStep renv p.op_ p.kernel_key_ p.arg_map_fn_
      p.default_kernel_signature_ attrs default_attrs
      (RunState.init ins outs)).exception = none) :
    ((if p.run_phi_kernel_ then
        PhiKernelStep renv p.op_ p.kernel_signature_ p.phi_kernel_ p.ctx_ p.dev_ctx_ attrs
          default_attrs
      else FuncStep renv p.op_ p.ctx_ p.func_ p.dev_ctx_ attrs default_attrs)
      (InferShapeStep renv p.op_ p.kernel_key_ p.arg_map_fn_ p.default_kernel_signature_
        attrs default_attrs (RunState.init ins outs))).Stops renv
      (InferShapeStep renv p.op_ p.kernel_key_ p.arg_map_fn_ p.default_kernel_signature_
        attrs default_attrs (RunState.init ins outs))
      (p.ComputeEvents renv ins outs attrs default_attrs) := by
  unfold PreparedOp.ComputeEvents
  cases p.run_phi_kernel_ with
  | false =>
    simp only [Bool.false_eq_true, if_false]
    unfold FuncStep
    cases p.func_ with
    | some f => exact Stops_all renv _ _ _ rfl he rfl
    | none => exact Stops_single renv _ _ _ rfl rfl
  | true =>
    simp only [if_true]
    unfold PhiKernelStep
    by_cases hk : p.phi_kernel_.GetKernelRegisteredType = KernelRegisteredType.FUNCTION
    · simp only [hk, if_true]
      exact Stops_all renv _ _ _ rfl he rfl
    · simp only [hk, if_false]
      exact Stops_all renv _ _ _ rfl he rfl

/-- Shape inference and the compute block stop at the first of them that
    throws. -/
theorem RunAfterCompute_stops {V : Type} (renv : RunEnv V) (p : PreparedOp)
    (ins outs : NameVarMap V) (attrs default_attrs : AttributeMap) :
    (p.RunAfterCompute renv ins outs attrs default_attrs).Stops renv
      (RunState.init ins outs)
      (RunEvent.InferShape p.op_ (p.InferCtx ins outs attrs default_attrs) ::
        p.ComputeEvents renv ins outs attrs default_attrs) := by
  unfold PreparedOp.RunAfterCompute
  exact Stops_andThen renv _ (RunState.init ins outs) _
    [RunEvent.InferShape p.op_ (p.InferCtx ins outs attrs default_attrs)] _
    (Stops_single renv _ _ _ rfl rfl)
    (fun he => Compute_stops renv p ins outs attrs default_attrs he)

/-- Every run is its full sequence cut after the first event that throws, and
    ends with the exception that event threw. -/
theorem Run_stops {V : Type} (b : BuildConfig) (fl : GlobalFlags) (renv : RunEnv V)
    (k : VarKind V) (p : PreparedOp) (ins outs : NameVarMap V)
    (attrs default_attrs : AttributeMap) :
    (p.Run b fl renv k ins outs attrs default_attrs).trace =
        StopAtFirstThrow renv
          (RunEvent.InferShape p.op_ (p.InferCtx ins outs attrs default_attrs) ::
            p.ComputeEvents renv ins outs attrs default_attrs ++
            HookSequence b fl renv p.op_.Type_ p.kernel_key_ p.dev_ctx_
              (p.RunAfterCompute renv ins outs attrs default_attrs).outs) ∧
      (p.Run b fl renv k ins outs attrs default_attrs).exception =
        FirstThrown renv
          (RunEvent.InferShape p.op_ (p.InferCtx ins outs attrs default_attrs) ::
            p.ComputeEvents renv ins outs attrs default_attrs ++
            HookSequence b fl renv p.op_.Type_ p.kernel_key_ p.dev_ctx_
              (p.RunAfterCompute renv ins outs attrs default_attrs).outs) := by
  rw [Run_postcompute]
  have h := Stops_extend renv
    (PostCompute b fl renv k p.op_ p.kernel_key_ p.dev_ctx_
      (p.RunAfterCompute renv ins outs attrs default_attrs))
    _ _ _ _ (RunAfterCompute_stops renv p ins outs attrs default_attrs)
    (fun he => PostCompute_stops b fl renv k p.op_ p.kernel_key_ p.dev_ctx_ _ he)
    (fun e he => PostCompute_thrown b fl renv k p.op_ p.kernel_key_ p.dev_ctx_ _ e he)
  rcases h with ⟨ht, hx⟩
  refine ⟨?_, hx⟩
  rw [ht]
  exact List.nil_append _

/-- When the wait throws after a scan that did not, the hook sequence ends at
    the wait. -/
theorem HookSequence_wait_throws {V : Type} (b : BuildConfig) (fl : GlobalFlags)
    (renv : RunEnv V) (op_type : String) (kernel_key : KernelKey) (dev_ctx : DeviceContext)
    (o : NameVarMap V) (e : Thrown)
    (hscan : fl.FLAGS_check_nan_inf = true →
      renv.CheckOpHasNanOrInfInDygraph op_type o dev_ctx.GetPlace = none)
    (hb : fl.FLAGS_benchmark = true) (hw : renv.Wait dev_ctx = some e) :
    StopAtFirstThrow renv (HookSequence b fl renv op_type kernel_key dev_ctx o) =
        (if fl.FLAGS_check_nan_inf then [RunEvent.CheckNanInf op_type o dev_ctx.GetPlace]
          else []) ++ [RunEvent.Wait dev_ctx] ∧
      FirstThrown renv (HookSequence b fl renv op_type kernel_key dev_ctx o) = some e := by
  unfold HookSequence
  rw [hb]
  simp only [if_true]
  cases hf : fl.FLAGS_check_nan_inf with
  | false =>
    simp only [Bool.false_eq_true, if_false, List.nil_append, List.cons_append]
    exact StopAtFirstThrow_cons_some renv _ _ e hw
  | true =>
    simp only [if_true, List.cons_append, List.nil_append]
    have h1 := StopAtFirstThrow_cons_none renv
      (RunEvent.CheckNanInf op_type o dev_ctx.GetPlace)
      (RunEvent.Wait dev_ctx ::
        ((if (b.PADDLE_WITH_CUDA || b.PADDLE_WITH_HIP) = true then
            [RunEvent.GpuGetLastError dev_ctx]
          else []) ++
          if renv.IsComplexType_phi kernel_key.dtype = true then
            [RunEvent.HandleComplexGradToRealGrad o]
          else []))
      (hscan hf)
    have h2 := StopAtFirstThrow_cons_some renv (RunEvent.Wait dev_ctx)
      ((if (b.PADDLE_WITH_CUDA || b.PADDLE_WITH_HIP) = true then
          [RunEvent.GpuGetLastError dev_ctx]
        else []) ++
        if renv.IsComplexType_phi kernel_key.dtype = true then
          [RunEvent.HandleComplexGradToRealGrad o]
        else []) e hw
    rw [h1.1, h1.2, h2.1, h2.2]
    exact ⟨rfl, rfl⟩

/-- When the read of the last device error throws after a scan and a wait
    that did not, the hook sequence ends at that read. -/
theorem HookSequence_last_error_throws {V : Type} (b : BuildConfig) (fl : GlobalFlags)
    (renv : RunEnv V) (op_type : String) (kernel_key : KernelKey) (dev_ctx : DeviceContext)
    (o : NameVarMap V) (e : Thrown)
    (hscan : fl.FLAGS_check_nan_inf = true →
      renv.CheckOpHasNanOrInfInDygraph op_type o dev_ctx.GetPlace = none)
    (hb : fl.FLAGS_benchmark = true) (hw : renv.Wait dev_ctx = none)
    (hgpu : (b.PADDLE_WITH_CUDA || b.PADDLE_WITH_HIP) = true)
    (hg : renv.GpuGetLastError dev_ctx = some e) :
    StopAtFirstThrow renv (HookSequence b fl renv op_type kernel_key dev_ctx o) =
        (if fl.FLAGS_check_nan_inf then [RunEvent.CheckNanInf op_type o dev_ctx.GetPlace]
          else []) ++ [RunEvent.Wait dev_ctx, RunEvent.GpuGetLastError dev_ctx] ∧
      FirstThrown renv (HookSequence b fl renv op_type kernel_key dev_ctx o) = some e := by
  unfold HookSequence
  rw [hb, hgpu]
  simp only [if_true]
  have h2 := StopAtFirstThrow_cons_none renv (RunEvent.Wait dev_ctx)
    ([RunEvent.GpuGetLastError dev_ctx] ++
      if renv.IsComplexType_phi kernel_key.dtype = true then
        [RunEvent.HandleComplexGradToRealGrad o]
      else []) hw
  have h3 := StopAtFirstThrow_cons_some renv (RunEvent.GpuGetLastError dev_ctx)
    (if renv.IsComplexType_phi kernel_key.dtype = true then
        [RunEvent.HandleComplexGradToRealGrad o]
      else []) e hg
  cases hf : fl.FLAGS_check_nan_inf with
  | false =>
    simp only [Bool.false_eq_true, if_false, List.nil_append, List.cons_append]
    simp only [List.cons_append, List.nil_append] at h2
    rw [h2.1, h2.2, h3.1, h3.2]
    exact ⟨rfl, rfl⟩
  | true =>
    simp only [if_true, List.cons_append, List.nil_append]
    simp only [List.cons_append, List.nil_append] at h2
    have h1 := StopAtFirstThrow_cons_none renv
      (RunEvent.CheckNanInf op_type o dev_ctx.GetPlace)
      (RunEvent.Wait dev_ctx :: RunEvent.GpuGetLastError dev_ctx ::
        if renv.IsComplexType_phi kernel_key.dtype = true then
          [RunEvent.HandleComplexGradToRealGrad o]
        else [])
      (hscan hf)
    rw [h1.1, h1.2, h2.1, h2.2, h3.1, h3.2]
    exact ⟨rfl, rfl⟩

/-- When the hook sequence is reached, the run is shape inference, the
    compute block and the hook sequence cut after its first throw. -/
theorem Run_hooks_stop {V : Type} (b : BuildConfig) (fl : GlobalFlags) (renv : RunEnv V)
    (k : VarKind V) (p : PreparedOp) (ins outs : NameVarMap V)
    (attrs default_attrs : AttributeMap)
    (hrac : (p.RunAfterCompute renv ins outs attrs default_attrs).exception = none) :
    (p.Run b fl renv k ins outs attrs default_attrs).trace =
        RunEvent.InferShape p.op_ (p.InferCtx ins outs attrs default_attrs) ::
          p.ComputeEvents renv ins outs attrs default_attrs ++
          StopAtFirstThrow renv
            (HookSequence b fl renv p.op_.Type_ p.kernel_key_ p.dev_ctx_
              (p.RunAfterCompute renv ins outs attrs default_attrs).outs) ∧
      (p.Run b fl renv k ins outs attrs default_attrs).exception =
        FirstThrown renv
          (HookSequence b fl renv p.op_.Type_ p.kernel_key_ p.dev_ctx_
            (p.RunAfterCompute renv ins outs attrs default_attrs).outs) := by
  have h := Run_stops b fl renv k p ins outs attrs default_attrs
  have hr := (RunAfterCompute_stops renv p ins outs attrs default_attrs).2
  rw [hrac] at hr
  have ha := StopAtFirstThrow_append_none renv
    (RunEvent.InferShape p.op_ (p.InferCtx ins outs attrs default_attrs) ::
      p.ComputeEvents renv ins outs attrs default_attrs)
    (HookSequence b fl renv p.op_.Type_ p.kernel_key_ p.dev_ctx_
      (p.RunAfterCompute renv ins outs attrs default_attrs).outs) hr.symm
  rw [ha.1, ha.2] at h
  exact h

/-- C21 (amended): on both paths `Run` is the same post-compute function
    applied to the state after shape inference and the kernel invocation; the
    events of every run occur in the order shape inference, (data transform,)
    kernel invocation, NaN/Inf scan, device-context wait, (read of the last
    device error,) complex-to-real repair; every run is that full sequence cut
    after the first event that throws, and ends with the exception that event
    threw: in particular a wait that throws ends the run at the wait, and a
    read of the last device error that throws ends it there, in both cases
    without the repair; in a run that ends without exception the sequence is
    complete, and there the scan runs iff `FLAGS_check_nan_inf`, the wait runs
    iff `FLAGS_benchmark`, and the repair runs iff the key's dtype is
    complex. -/
theorem C21_run_step_sequence {V : Type} (b : BuildConfig) (fl : GlobalFlags)
    (renv : RunEnv V) (k : VarKind V) (p : PreparedOp) (ins outs : NameVarMap V)
    (attrs default_attrs : AttributeMap) :
    p.Run b fl renv k ins outs attrs default_attrs =
      PostCompute b fl renv k p.op_ p.kernel_key_ p.dev_ctx_
        (p.RunAfterCompute renv ins outs attrs default_attrs) ∧
    List.Pairwise (fun m n => m < n)
      ((p.Run b fl renv k ins outs attrs default_attrs).trace.map RunEvent.step) ∧
    (p.Run b fl renv k ins outs attrs default_attrs).trace <+:
      RunEvent.InferShape p.op_ (p.InferCtx ins outs attrs default_attrs) ::
        p.ComputeEvents renv ins outs attrs default_attrs ++
        HookSequence b fl renv p.op_.Type_ p.kernel_key_ p.dev_ctx_
          (p.RunAfterCompute renv ins outs attrs default_attrs).outs ∧
    ((p.Run b fl renv k ins outs attrs default_attrs).exception = none →
      (p.Run b fl renv k ins outs attrs default_attrs).trace =
        RunEvent.InferShape p.op_ (p.InferCtx ins outs attrs default_attrs) ::
          p.ComputeEvents renv ins outs attrs default_attrs ++
          HookSequence b fl renv p.op_.Type_ p.kernel_key_ p.dev_ctx_
            (p.RunAfterCompute renv ins outs attrs default_attrs).outs ∧
      (p.Run b fl renv k ins outs attrs default_attrs).trace.any RunEvent.isCheckNanInf =
        fl.FLAGS_check_nan_inf ∧
      (p.Run b fl renv k ins outs attrs default_attrs).trace.any RunEvent.isWait =
        fl.FLAGS_benchmark ∧
      (p.Run b fl renv k ins outs attrs default_attrs).trace.any RunEvent.isRepair =
        renv.IsComplexType_phi p.kernel_key_.dtype) ∧
    (p.Run b fl renv k ins outs attrs default_attrs).trace =
      StopAtFirstThrow renv
        (RunEvent.InferShape p.op_ (p.InferCtx ins outs attrs default_attrs) ::
          p.ComputeEvents renv ins outs attrs default_attrs ++
          HookSequence b fl renv p.op_.Type_ p.kernel_key_ p.dev_ctx_
            (p.RunAfterCompute renv ins outs attrs default_attrs).outs) ∧
    (p.Run b fl renv k ins outs attrs default_attrs).exception =
      FirstThrown renv
        (RunEvent.InferShape p.op_ (p.InferCtx ins outs attrs default_attrs) ::
          p.ComputeEvents renv ins outs attrs default_attrs ++
          HookSequence b fl renv p.op_.Type_ p.kernel_key_ p.dev_ctx_
            (p.RunAfterCompute renv ins outs attrs default_attrs).outs) ∧
    (∀ e : Thrown,
      (p.RunAfterCompute renv ins outs attrs default_attrs).exception = none →
      (fl.FLAGS_check_nan_inf = true →
        renv.CheckOpHasNanOrInfInDygraph p.op_.Type_
          (p.RunAfterCompute renv ins outs attrs default_attrs).outs p.dev_ctx_.GetPlace =
          none) →
      fl.FLAGS_benchmark = true →
      renv.Wait p.dev_ctx_ = some e →
      (p.Run b fl renv k ins outs attrs default_attrs).exception = some e ∧
        (p.Run b fl renv k ins outs attrs default_attrs).trace =
          RunEvent.InferShape p.op_ (p.InferCtx ins outs attrs default_attrs) ::
            p.ComputeEvents renv ins outs attrs default_attrs ++
            ((if fl.FLAGS_check_nan_inf then
                [RunEvent.CheckNanInf p.op_.Type_
                  (p.RunAfterCompute renv ins outs attrs default_attrs).outs
                  p.dev_ctx_.GetPlace]
              else []) ++ [RunEvent.Wait p.dev_ctx_])) ∧
    (∀ e : Thrown,
      (p.RunAfterCompute renv ins outs attrs default_attrs).exception = none →
      (fl.FLAGS_check_nan_inf = true →
        renv.CheckOpHasNanOrInfInDygraph p.op_.Type_
          (p.RunAfterCompute renv ins outs attrs default_attrs).outs p.dev_ctx_.GetPlace =
          none) →
      fl.FLAGS_benchmark = true →
      renv.Wait p.dev_ctx_ = none →
      (b.PADDLE_WITH_CUDA || b.PADDLE_WITH_HIP) = true →
      renv.GpuGetLastError p.dev_ctx_ = some e →
      (p.Run b fl renv k ins outs attrs default_attrs).exception = some e ∧
        (p.Run b fl renv k ins outs attrs default_attrs).trace =
          RunEvent.InferShape p.op_ (p.InferCtx ins outs attrs default_attrs) ::
            p.ComputeEvents renv ins outs attrs default_attrs ++
            ((if fl.FLAGS_check_nan_inf then
                [RunEvent.CheckNanInf p.op_.Type_
                  (p.RunAfterCompute renv ins outs attrs default_attrs).outs
                  p.dev_ctx_.GetPlace]
              else []) ++
              [RunEvent.Wait p.dev_ctx_, RunEvent.GpuGetLastError p.dev_ctx_])) := by
  refine ⟨Run_postcompute b fl renv k p ins outs attrs default_attrs,
    Run_steps b fl renv k p ins outs attrs default_attrs,
    (Run_within_sequence b fl renv k p ins outs attrs default_attrs).1, ?_,
    (Run_stops b fl renv k p ins outs attrs default_attrs).1,
    (Run_stops b fl renv k p ins outs attrs default_attrs).2, ?_, ?_⟩
  · intro h
    have ht := (Run_within_sequence b fl renv k p ins outs attrs default_attrs).2 h
    have hh := FullSequence_hooks b fl renv p ins outs
      (p.RunAfterCompute renv ins outs attrs default_attrs).outs attrs default_attrs
    rw [← ht] at hh
    exact ⟨ht, hh⟩
  · intro e hrac hscan hb hw
    have h := Run_hooks_stop b fl renv k p ins outs attrs default_attrs hrac
    have hs := HookSequence_wait_throws b fl renv p.op_.Type_ p.kernel_key_ p.dev_ctx_
      (p.RunAfterCompute renv ins outs attrs default_attrs).outs e hscan hb hw
    rw [hs.1, hs.2] at h
    exact ⟨h.2, h.1⟩
  · intro e hrac hscan hb hw hgpu hg
    have h := Run_hooks_stop b fl renv k p ins outs attrs default_attrs hrac
    have hs := HookSequence_last_error_throws b fl renv p.op_.Type_ p.kernel_key_
      p.dev_ctx_ (p.RunAfterCompute renv ins outs attrs default_attrs).outs e hscan hb hw
      hgpu hg
    rw [hs.1, hs.2] at h
    exact ⟨h.2, h.1⟩

/-- Witness for C21 (amended): in a CUDA build with both flags set and a
    complex64 key, a run of a FUNCTION-kind unified kernel in which nothing
    throws has the complete sequence; the same run with a wait that reports a
    device failure ends with that failure at the wait, without the read of the
    last device error and without the repair. -/
theorem C21_run_step_sequence_witness :
    (((phiPrepared complexKey KernelRegisteredType.FUNCTION).Run cudaBuild
        checkAndBenchmarkFlags (sampleRunEnv false) (VarKind.primary sampleMethods) []
        [("Out", [some dxVar])] [] []).exception = none ∧
    ((phiPrepared complexKey KernelRegisteredType.FUNCTION).Run cudaBuild
        checkAndBenchmarkFlags (sampleRunEnv false) (VarKind.primary sampleMethods) []
        [("Out", [some dxVar])] [] []).trace.map RunEvent.step = [0, 1, 2, 3, 4, 5, 6] ∧
    ((phiPrepared complexKey KernelRegisteredType.FUNCTION).Run cudaBuild
        checkAndBenchmarkFlags (sampleRunEnv false) (VarKind.primary sampleMethods) []
        [("Out", [some dxVar])] [] []).trace.any RunEvent.isWait =
      checkAndBenchmarkFlags.FLAGS_benchmark) ∧
    (((phiPrepared complexKey KernelRegisteredType.FUNCTION).Run cudaBuild
        checkAndBenchmarkFlags waitFailsRunEnv (VarKind.primary sampleMethods) []
        [("Out", [some dxVar])] [] []).exception = some { what := "device failure" } ∧
    ((phiPrepared complexKey KernelRegisteredType.FUNCTION).Run cudaBuild
        checkAndBenchmarkFlags waitFailsRunEnv (VarKind.primary sampleMethods) []
        [("Out", [some dxVar])] [] []).trace.map RunEvent.step = [0, 1, 2, 3, 4] ∧
    ((phiPrepared complexKey KernelRegisteredType.FUNCTION).Run cudaBuild
        checkAndBenchmarkFlags waitFailsRunEnv (VarKind.primary sampleMethods) []
        [("Out", [some dxVar])] [] []).outs = [("Out", [some dxVar])]) :=
  ⟨⟨by decide, by decide,
    ((C21_run_step_sequence cudaBuild checkAndBenchmarkFlags (sampleRunEnv false)
      (VarKind.primary sampleMethods) (phiPrepared complexKey KernelRegisteredType.FUNCTION)
      [] [("Out", [some dxVar])] [] []).2.2.2.1 (by decide)).2.2.1⟩,
    ((C21_run_step_sequence cudaBuild checkAndBenchmarkFlags waitFailsRunEnv
      (VarKind.primary sampleMethods) (phiPrepared complexKey KernelRegisteredType.FUNCTION)
      [] [("Out", [some dxVar])] [] []).2.2.2.2.2.2.1 { what := "device failure" }
      (by decide) (fun _ => rfl) rfl rfl).1,
    by decide, by decide⟩

end Paddle
